import Mathlib

/-! The rpmsg-omx connection layer (drivers/rpmsg/rpmsg_omx.c).

A shallow embedding of the OMX offloading driver: every C function that the
verified properties talk about is a Lean function of the same name over an
explicit `rpmsg_omx_instance` value.  Calls into the rest of the kernel
(`rpmsg_send_offchannel`, `rpmsg_destroy_ept`, `complete`, ...) are recorded,
in program order, in a list of `call`s returned next to the new state.
Results of kernel services the driver cannot predict (a failing send, a
failing allocation, what arrives while a caller sleeps) are arguments.

Target: 32-bit ARM (OMAP4) built with CONFIG_ION_OMAP; `int`, `long`, `size_t`
and pointers are 32 bits wide, byte order is little-endian.

Two pure functions of other drivers of the same tree are embedded as well:
the temperature conversion of
drivers/staging/thermal_framework/sensor/notle_pcb_sensor.c and the brightness
scale of drivers/video/omap2/displays/panel-notle-dpi.c.
-/

namespace RpmsgOmx

/-! ## errno values (include/asm-generic/errno-base.h, errno.h) -/

def EIO : Int := 5
def ENXIO : Int := 6
def EBADF : Int := 9
def EAGAIN : Int := 11
def ENOMEM : Int := 12
def EFAULT : Int := 14
def EBUSY : Int := 16
def EINVAL : Int := 22
def EISCONN : Int := 106
def ENOTCONN : Int := 107
def ETIMEDOUT : Int := 110
def ERESTARTSYS : Int := 512

/-! ## machine integers and byte access -/

/-- Conversion of a C integer to `unsigned int` / `u32` / `size_t`. -/
def u32 (x : Int) : Nat := (x % 4294967296).toNat

/-- Conversion of an unsigned 32-bit pattern to `int`. -/
def s32 (n : Nat) : Int :=
  if n % 4294967296 < 2147483648 then ((n % 4294967296 : Nat) : Int)
  else ((n % 4294967296 : Nat) : Int) - 4294967296

/-- Little-endian `u32` load from byte memory `mem` at byte offset `off`. -/
def get_le32 (mem : Nat → Nat) (off : Nat) : Nat :=
  mem off % 256 + 256 * (mem (off + 1) % 256) + 65536 * (mem (off + 2) % 256)
    + 16777216 * (mem (off + 3) % 256)

/-- Little-endian byte image of a `u32`. -/
def put_le32 (v : Nat) : List Nat :=
  [v % 256, v / 256 % 256, v / 65536 % 256, v / 16777216 % 256]

/-! ## declarations of include/linux/rpmsg_omx.h -/

/-- Modelled from the spec: `enum omx_state` of linux/rpmsg_omx.h (not part of
the sources at hand); the spec's UNCONNECTED, CONNECTED and FAILED. -/
inductive omx_state where
  | OMX_UNCONNECTED
  | OMX_CONNECTED
  | OMX_FAIL
  deriving DecidableEq, Repr

export omx_state (OMX_UNCONNECTED OMX_CONNECTED OMX_FAIL)

/-- Modelled from the spec: message type CONNECT_REQUEST of
`enum omx_msg_types` (linux/rpmsg_omx.h). -/
def OMX_CONN_REQ : Nat := 0
/-- Modelled from the spec: message type CONNECT_RESPONSE. -/
def OMX_CONN_RSP : Nat := 1
/-- Modelled from the spec: message type DISCONNECT. -/
def OMX_DISCONNECT : Nat := 4
/-- Modelled from the spec: message type APPLICATION_DATA. -/
def OMX_RAW_MSG : Nat := 5

/-- Modelled from the spec: `sizeof(struct omx_msg_hdr)`, a header of three
`u32` fields (type, flags, payload length) followed by the payload. -/
def sizeof_hdr : Nat := 12
/-- Modelled from the spec: `sizeof(struct omx_conn_rsp)`, the `u32` status
and the `u32` assigned remote address. -/
def sizeof_rsp : Nat := 8
/-- Modelled from the spec: `sizeof(struct omx_conn_req)`, the bounded
endpoint name (`char name[48]`). -/
def sizeof_conn_req : Nat := 48
/-- Modelled from the spec: `sizeof(struct omx_disc_req)`, one `u32`
address. -/
def sizeof_disc_req : Nat := 4
/-- Modelled from the spec: offset of `data` in `struct omx_packet`
(two `u16` and four 32-bit fields precede it). -/
def sizeof_omx_packet : Nat := 20

/-! ## driver data -/

/-- Mirror of `struct rpmsg_buffer`.  `addr` is the address of the object itself, the
value user space receives as its handle; `page_list = none` is the NULL
table. -/
structure rpmsg_buffer where
  addr : Nat
  ion_handle : Nat
  n_pages : Nat
  page_list : Option (List Nat)
  page_list_pa : Nat
  deriving DecidableEq, Repr

/-- Mirror of `struct rpmsg_omx_instance`.  `queue` holds the payload of each queued
sk_buff, head first; `reply_arrived` is the `done` counter of the completion;
`ept` is the address of the local endpoint (`omx->ept->addr`). -/
structure rpmsg_omx_instance where
  queue : List (List Nat)
  reply_arrived : Nat
  ept : Nat
  dst : Nat
  state : omx_state
  buffer_list : List rpmsg_buffer
  deriving DecidableEq, Repr

/-- Mirror of `struct rpmsg_channel`, as far as the driver reads it. -/
structure rpmsg_channel where
  name : List Nat
  src : Nat
  dst : Nat
  deriving DecidableEq, Repr

/-- Calls made into the rest of the kernel.  The `Nat` of the wake-up and
completion calls is the endpoint address of the instance concerned;
`rpmsg_create_ept addr` is a successful creation of the endpoint `addr`;
`kfree addr` is recorded for buffer wrappers. -/
inductive call where
  | rpmsg_send_offchannel (src dst : Nat) (data : List Nat)
  | rpmsg_destroy_ept (addr : Nat)
  | complete (ept : Nat)
  | complete_all (ept : Nat)
  | wake_up_interruptible (ept : Nat)
  | rpmsg_create_ept (addr : Nat)
  | ion_client_create
  | ion_client_destroy
  | ion_free (handle : Nat)
  | ion_unmap_dma (handle : Nat)
  | dma_free_coherent (page_list_pa : Nat)
  | kfree (addr : Nat)
  deriving DecidableEq, Repr

/-- The `done++` of `complete()` on an `unsigned int`. -/
def completion_complete (done : Nat) : Nat := (done + 1) % 4294967296

/-- The `done += UINT_MAX/2` of `complete_all()`. -/
def completion_complete_all (done : Nat) : Nat := (done + 2147483647) % 4294967296

/-! ## rpmsg_omx_cb -/

/-- Bytes `hdr->data[0 .. n)` of a receive buffer `data`. -/
def hdr_data (data : Nat → Nat) (n : Nat) : List Nat :=
  (List.range n).map (fun i => data (sizeof_hdr + i))

/-- Receive callback `rpmsg_omx_cb(rpdev, data, len, priv, src)` with `priv = omx`.
`data` is the receive buffer as byte memory starting at the header, `len` the
number of bytes the channel delivered, `alloc_ok` whether `alloc_skb`
succeeds. -/
def rpmsg_omx_cb (omx : rpmsg_omx_instance) (data : Nat → Nat) (len : Int)
    (alloc_ok : Bool) : rpmsg_omx_instance × List call :=
  let hdr_type := get_le32 data 0
  let hdr_len := get_le32 data 8
  if u32 len < sizeof_hdr ∨ hdr_len < u32 (len - sizeof_hdr) then
    (omx, [])
  else if hdr_type = OMX_CONN_RSP then
    if hdr_len < sizeof_rsp then
      (omx, [])
    else
      let status := get_le32 data sizeof_hdr
      let addr := get_le32 data (sizeof_hdr + 4)
      let st :=
        if status ≠ 0 then OMX_FAIL
        else if omx.state ≠ OMX_FAIL then OMX_CONNECTED
        else omx.state
      ({ omx with dst := addr, state := st,
                  reply_arrived := completion_complete omx.reply_arrived },
       [call.complete omx.ept])
  else if hdr_type = OMX_RAW_MSG then
    if alloc_ok then
      ({ omx with queue := omx.queue ++ [hdr_data data hdr_len] },
       [call.wake_up_interruptible omx.ept])
    else
      (omx, [])
  else
    (omx, [])

/-! ## what happens while a caller sleeps -/

/-- Per-instance body of the loop of `rpmsg_omx_remove` on a crashed remote processor
(source lines 983-990): the instance is failed, sleepers are released and the
local endpoint is destroyed. -/
def rpmsg_omx_remove_entry (omx : rpmsg_omx_instance) : rpmsg_omx_instance × List call :=
  ({ omx with state := OMX_FAIL,
              reply_arrived := completion_complete_all omx.reply_arrived },
   [call.complete_all omx.ept, call.wake_up_interruptible omx.ept,
    call.rpmsg_destroy_ept omx.ept])

/-- Asynchronous events of the channel-driven context that concern one
instance: an invocation of the receive callback, or the crash path of
`rpmsg_omx_remove`. -/
inductive async_ev where
  | rx (data : Nat → Nat) (len : Int) (alloc_ok : Bool)
  | crash

/-- Effect of one asynchronous event on an instance. -/
def deliver (omx : rpmsg_omx_instance) : async_ev → rpmsg_omx_instance × List call
  | .rx data len alloc_ok => rpmsg_omx_cb omx data len alloc_ok
  | .crash => rpmsg_omx_remove_entry omx

/-- How the bounded wait of `rpmsg_omx_connect` ends when no completion arrives. -/
inductive wait_end where
  | timeout
  | signal
  deriving DecidableEq, Repr

/-- Result of an operation on an instance: the C return value, the instance
afterwards and the kernel calls made, in program order. -/
structure io_result where
  ret : Int
  omx : rpmsg_omx_instance
  calls : List call

/-- Sleep of `wait_for_completion_interruptible_timeout(&omx->reply_arrived, t)`
once the caller has found `done = 0`: asynchronous events are processed one
at a time until one leaves `done > 0`, which the sleeper consumes (`done--`)
and reports as a positive number of jiffies (`left`, or 1); when the events
run out the sleep ends by timeout (0) or by a signal (-ERESTARTSYS). -/
def completion_sleep (left : Nat) (fin : wait_end) :
    rpmsg_omx_instance → List async_ev → io_result
  | omx, [] =>
    match fin with
    | .timeout => ⟨0, omx, []⟩
    | .signal => ⟨- ERESTARTSYS, omx, []⟩
  | omx, e :: es =>
    let r := deliver omx e
    if 0 < r.1.reply_arrived then
      ⟨if left = 0 then 1 else (left : Int),
       { r.1 with reply_arrived := r.1.reply_arrived - 1 }, r.2⟩
    else
      let w := completion_sleep left fin r.1 es
      ⟨w.ret, w.omx, r.2 ++ w.calls⟩

/-- Model of `wait_for_completion_interruptible_timeout(&omx->reply_arrived, t)`: a
pending completion is consumed at once, otherwise the caller sleeps. -/
def wait_for_completion_interruptible_timeout (omx : rpmsg_omx_instance)
    (during : List async_ev) (fin : wait_end) (left : Nat) : io_result :=
  if 0 < omx.reply_arrived then
    ⟨if left = 0 then 1 else (left : Int),
     { omx with reply_arrived := omx.reply_arrived - 1 }, []⟩
  else
    completion_sleep left fin omx during

/-! ## rpmsg_omx_connect -/

/-- Length of a C string held in `s`: the bytes before the first NUL. -/
def strlen (s : List Nat) : Nat := (s.takeWhile (fun c => c ≠ 0)).length

/-- Image of `connect_msg`: a zeroed array of `sizeof(*hdr) + sizeof(*payload)`
bytes holding the CONN_REQ header and the name copied by `strcpy`. -/
def connect_msg (omxname : List Nat) : List Nat :=
  put_le32 OMX_CONN_REQ ++ put_le32 0 ++ put_le32 (u32 (strlen omxname + 1))
    ++ (omxname.takeWhile (fun c => c ≠ 0) ++ List.replicate sizeof_conn_req 0).take
         sizeof_conn_req

/-- Connect handshake `rpmsg_omx_connect(omx, omxname)`.  `rpdev` is `omxserv->rpdev`,
`send_ret` the result of `rpmsg_send_offchannel` should it be called,
`during`, `fin` and `left` describe the wait for the reply. -/
def rpmsg_omx_connect (omx : rpmsg_omx_instance) (rpdev : rpmsg_channel)
    (omxname : List Nat) (send_ret : Int) (during : List async_ev)
    (fin : wait_end) (left : Nat) : io_result :=
  if omx.state = OMX_CONNECTED then
    ⟨- EISCONN, omx, []⟩
  else if omx.state = OMX_FAIL then
    ⟨- ENXIO, omx, []⟩
  else
    let sent := [call.rpmsg_send_offchannel omx.ept rpdev.dst (connect_msg omxname)]
    if send_ret ≠ 0 then
      ⟨send_ret, omx, sent⟩
    else
      let w := wait_for_completion_interruptible_timeout omx during fin left
      let ret :=
        if w.omx.state = OMX_CONNECTED then 0
        else if w.omx.state = OMX_FAIL then - ENXIO
        else if w.ret ≠ 0 then - EIO
        else - ETIMEDOUT
      ⟨ret, w.omx, sent ++ w.calls⟩

/-! ## rpmsg_omx_read and rpmsg_omx_poll -/

/-- Result of a read: the C return value (`none` while the caller is still
asleep on `readq`), the instance afterwards, the kernel calls made and the
bytes copied to the caller. -/
structure read_result where
  ret : Option Int
  omx : rpmsg_omx_instance
  calls : List call
  buf : List Nat

/-- Sleep of `wait_event_interruptible(omx->readq, ...)` once the condition has
been found false: events are processed until the queue is non-empty or the
state is OMX_FAIL (result 0); when they run out the sleeper is either
interrupted by a signal (-ERESTARTSYS) or remains asleep (`none`). -/
def readq_sleep (signalled : Bool) :
    rpmsg_omx_instance → List async_ev → Option Int × rpmsg_omx_instance × List call
  | omx, [] => (if signalled then some (- ERESTARTSYS) else none, omx, [])
  | omx, e :: es =>
    let r := deliver omx e
    if r.1.queue ≠ [] ∨ r.1.state = OMX_FAIL then
      (some 0, r.1, r.2)
    else
      let w := readq_sleep signalled r.1 es
      (w.1, w.2.1, r.2 ++ w.2.2)

/-- Model of `wait_event_interruptible(omx->readq, !skb_queue_empty(&omx->queue) ||
omx->state == OMX_FAIL)`: no sleep when the condition already holds. -/
def wait_event_interruptible (omx : rpmsg_omx_instance) (during : List async_ev)
    (signalled : Bool) : Option Int × rpmsg_omx_instance × List call :=
  if omx.queue ≠ [] ∨ omx.state = OMX_FAIL then (some 0, omx, [])
  else readq_sleep signalled omx during

/-- Tail of `rpmsg_omx_read` from the `OMX_FAIL` test on (source lines 772-792). -/
def rpmsg_omx_read_dequeue (omx : rpmsg_omx_instance) (len : Nat) (copy_ok : Bool)
    (calls : List call) : read_result :=
  if omx.state = OMX_FAIL then
    ⟨some (- ENXIO), omx, calls, []⟩
  else
    match omx.queue with
    | [] => ⟨some (- EIO), omx, calls, []⟩
    | skb :: rest =>
      let use := min len skb.length
      if copy_ok then
        ⟨some (s32 use), { omx with queue := rest }, calls, skb.take use⟩
      else
        ⟨some (- EFAULT), { omx with queue := rest }, calls, []⟩

/-- Read `rpmsg_omx_read(filp, buf, len, offp)`.  `nonblock` is `filp->f_flags & O_NONBLOCK`,
`copy_ok` whether `copy_to_user` succeeds, `during` and `signalled` describe
the sleep on `readq` should it happen. -/
def rpmsg_omx_read (omx : rpmsg_omx_instance) (nonblock : Bool) (len : Nat)
    (copy_ok : Bool) (during : List async_ev) (signalled : Bool) : read_result :=
  if omx.state = OMX_UNCONNECTED then
    ⟨some (- ENOTCONN), omx, [], []⟩
  else if omx.queue = [] then
    if nonblock then
      ⟨some (- EAGAIN), omx, [], []⟩
    else
      let w := wait_event_interruptible omx during signalled
      match w.1 with
      | none => ⟨none, w.2.1, w.2.2, []⟩
      | some r =>
        if r ≠ 0 then ⟨some (- ERESTARTSYS), w.2.1, w.2.2, []⟩
        else rpmsg_omx_read_dequeue w.2.1 len copy_ok w.2.2
  else
    rpmsg_omx_read_dequeue omx len copy_ok []

def POLLIN : Nat := 0x0001
def POLLOUT : Nat := 0x0004
def POLLERR : Nat := 0x0008
def POLLRDNORM : Nat := 0x0040
def POLLWRNORM : Nat := 0x0100

/-- Readiness mask of `rpmsg_omx_poll(filp, wait)`. -/
def rpmsg_omx_poll (omx : rpmsg_omx_instance) : Nat :=
  let mask := 0
  let mask := if omx.queue ≠ [] then mask ||| (POLLIN ||| POLLRDNORM) else mask
  let mask := mask ||| (POLLOUT ||| POLLWRNORM)
  if omx.state = OMX_FAIL then POLLERR else mask

/-! ## address translation and payload patching -/

/-- Services of the buffer manager and of the remote processor the driver relies on:
`ion_phys h` is `some pa` when `ion_phys` resolves the handle `h`;
`rproc_pa_to_da pa` is the return value and the `u64` device address of the
processor-specific mapper. -/
structure ion_env where
  ion_phys : Nat → Option Nat
  rproc_pa_to_da : Nat → Int × Nat

/-- Physical to device address `_rpmsg_pa_to_da(omx, pa, da)`: the return value and the
value left in `*da`, which is `da0` when nothing is stored. -/
def _rpmsg_pa_to_da (e : ion_env) (omx : rpmsg_omx_instance) (pa : Nat) (da0 : Nat) :
    Int × Nat :=
  if omx.state = OMX_FAIL then (- ENXIO, da0)
  else
    let r := e.rproc_pa_to_da pa
    if r.1 ≠ 0 then (r.1, da0) else (0, r.2 % 4294967296)

/-- Membership test `_rpmsg_buffer_validate(omx, handle)`: `handle` is the address of a
wrapper on `omx->buffer_list`. -/
def _rpmsg_buffer_validate (omx : rpmsg_omx_instance) (handle : Nat) : Bool :=
  omx.buffer_list.any (fun b => b.addr = handle)

/-- Translation `_rpmsg_omx_buffer_lookup(omx, buffer, va)` in the CONFIG_ION_OMAP build:
the return value and `*va`.  After a successful validation `buf` is the
wrapper found at address `buffer`. -/
def _rpmsg_omx_buffer_lookup (e : ion_env) (omx : rpmsg_omx_instance) (buffer : Nat) :
    Int × Nat :=
  match e.ion_phys buffer with
  | some paddr => _rpmsg_pa_to_da e omx (paddr % 4294967296) 0
  | none =>
    if _rpmsg_buffer_validate omx buffer then
      match omx.buffer_list.find? (fun b => b.addr = buffer) with
      | some buf =>
        if buf.page_list.isSome then (0, buf.page_list_pa % 4294967296)
        else (- EIO, 0)
      | none => (- EIO, 0)
    else (- EIO, 0)

/-- Load of a 32-bit word at byte index `i` of the object `mem`; `none` when the
four bytes do not all lie inside the object. -/
def load32 (mem : List Nat) (i : Int) : Option Nat :=
  if 0 ≤ i ∧ i + 4 ≤ (mem.length : Int) then
    some (get_le32 (fun k => mem.getD k 0) i.toNat)
  else none

/-- Store of the 32-bit word `v` at byte index `i` of `mem`. -/
def store32 (mem : List Nat) (i : Nat) (v : Nat) : List Nat :=
  mem.take i ++ put_le32 v ++ mem.drop (i + 4)

/-- One of the blocks "get the 2nd / 3rd buffer's da" of `_rpmsg_omx_map_buf`
(source lines 317-323 and 328-333), entered with `ret = 0`: a zero slot is
left alone, any other value is looked up and overwritten on success. -/
def map_buf_next (e : ion_env) (omx : rpmsg_omx_instance) (mem : List Nat) (slot : Int) :
    Option (Int × List Nat) :=
  match load32 mem slot with
  | none => none
  | some b =>
    if b ≠ 0 then
      let r := _rpmsg_omx_buffer_lookup e omx b
      some (r.1, if r.1 = 0 then store32 mem slot.toNat r.2 else mem)
    else some (0, mem)

/-- Payload patching `_rpmsg_omx_map_buf(omx, packet)`.  The packet lives in the object
`mem` (the caller's `kbuf`) at byte index `packet`; the result is the return
value and the object afterwards.  `none` stands for a load or store outside
the object, whose effect C leaves undefined.  Slot addresses are computed
without wrap-around: the object is far smaller than the address space. -/
def _rpmsg_omx_map_buf (e : ion_env) (omx : rpmsg_omx_instance) (mem : List Nat)
    (packet : Nat) : Option (Int × List Nat) :=
  let data : Int := ((packet + sizeof_omx_packet : Nat) : Int)
  match load32 mem data with
  | none => none
  | some maptype =>
    if maptype = 0 then some (0, mem)
    else if maptype < 1 ∨ maptype > 3 then some (- EINVAL, mem)
    else
      match load32 mem (data + 4) with
      | none => none
      | some off =>
        let slot : Int := data + s32 off
        match load32 mem slot with
        | none => none
        | some b =>
          let r := _rpmsg_omx_buffer_lookup e omx b
          let mem1 := if r.1 = 0 then store32 mem slot.toNat r.2 else mem
          let second :=
            if r.1 = 0 ∧ maptype ≥ 2 then map_buf_next e omx mem1 (slot + 4)
            else some (r.1, mem1)
          match second with
          | none => none
          | some s2 =>
            if s2.1 = 0 ∧ maptype ≥ 3 then map_buf_next e omx s2.2 (slot + 8)
            else some s2

/-! ## rpmsg_omx_write -/

/-- The array `char kbuf[512]` on entry: whatever the stack holds. -/
def kbuf_init (stack : Nat → Nat) : List Nat := (List.range 512).map stack

/-- Write `rpmsg_omx_write(filp, ubuf, len, offp)`.  `ubuf` is the readable user memory at
the caller's pointer (`copy_from_user` faults when it is shorter than the
bytes requested), `stack` the bytes the stack array `kbuf` holds on entry,
`send_ret` the result of `rpmsg_send_offchannel` should it be called.
`none`: the payload patching went outside `kbuf`. -/
def rpmsg_omx_write (e : ion_env) (omx : rpmsg_omx_instance) (ubuf : List Nat) (len : Nat)
    (stack : Nat → Nat) (send_ret : Int) : Option io_result :=
  if omx.state = OMX_UNCONNECTED then
    some ⟨- ENOTCONN, omx, []⟩
  else
    let use := min (512 - sizeof_hdr) len
    if ubuf.length < use then
      some ⟨- EFAULT, omx, []⟩
    else
      let kbuf := kbuf_init stack
      let kbuf1 := kbuf.take sizeof_hdr ++ ubuf.take use ++ kbuf.drop (sizeof_hdr + use)
      match _rpmsg_omx_map_buf e omx kbuf1 sizeof_hdr with
      | none => none
      | some m =>
        if m.1 < 0 then
          some ⟨m.1, omx, []⟩
        else
          let kbuf2 := put_le32 OMX_RAW_MSG ++ put_le32 0 ++ put_le32 use
                         ++ m.2.drop sizeof_hdr
          if omx.state = OMX_FAIL then
            some ⟨- ENXIO, omx, []⟩
          else
            let sent := [call.rpmsg_send_offchannel omx.ept omx.dst
                           (kbuf2.take (use + sizeof_hdr))]
            if send_ret ≠ 0 then some ⟨send_ret, omx, sent⟩
            else some ⟨(use : Int), omx, sent⟩

/-! ## services and rpmsg_omx_remove -/

/-- Modelled from the spec: `enum rproc_state` of linux/remoteproc.h (not part
of the sources at hand); the driver only tests for `RPROC_CRASHED`, the
spec's remote-processor loss. -/
inductive rproc_state where
  | RPROC_OFFLINE
  | RPROC_SUSPENDED
  | RPROC_RUNNING
  | RPROC_LOADING
  | RPROC_CRASHED
  deriving DecidableEq, Repr

export rproc_state (RPROC_OFFLINE RPROC_SUSPENDED RPROC_RUNNING RPROC_LOADING RPROC_CRASHED)

/-- Mirror of `struct rpmsg_omx_service`.  `name` is `dev_name(omxserv->dev)`, `rpdev = none`
the NULL channel, `list` the instances linked on `omxserv->list`, `comp` the
`done` counter of the completion. -/
structure rpmsg_omx_service where
  name : List Nat
  rpdev : Option rpmsg_channel
  minor : Nat
  list : List rpmsg_omx_instance
  comp : Nat
  deriving DecidableEq, Repr

/-- The `list_for_each_entry` loop of `rpmsg_omx_remove` (source lines 982-991). -/
def rpmsg_omx_remove_list : List rpmsg_omx_instance → List rpmsg_omx_instance × List call
  | [] => ([], [])
  | omx :: rest =>
    let r := rpmsg_omx_remove_entry omx
    let rs := rpmsg_omx_remove_list rest
    (r.1 :: rs.1, r.2 ++ rs.2)

/-- Channel removal `rpmsg_omx_remove(rpdev)`.  `services` is the content of the idr
`rpmsg_omx_services`, `minor` identifies the service stored as driver data of
`rpdev`, `st` is `rproc->state`.  The result is the idr afterwards and the
kernel calls made on the instances. -/
def rpmsg_omx_remove (services : List rpmsg_omx_service) (minor : Nat) (st : rproc_state) :
    List rpmsg_omx_service × List call :=
  match services.find? (fun s => s.minor = minor) with
  | none => (services, [])
  | some omxserv =>
    if st ≠ RPROC_CRASHED then
      (services.filter (fun s => s.minor ≠ minor), [])
    else
      (services.map (fun s =>
          if s.minor = minor then
            { s with comp := 0, list := (rpmsg_omx_remove_list s.list).1, rpdev := none }
          else s),
       (rpmsg_omx_remove_list omxserv.list).2)

/-! ## sequences of operations on one instance -/

/-- The operations the claims quantify over, each with the arguments of its function. -/
inductive op where
  | connect (rpdev : rpmsg_channel) (omxname : List Nat) (send_ret : Int)
      (during : List async_ev) (fin : wait_end) (left : Nat)
  | cb (data : Nat → Nat) (len : Int) (alloc_ok : Bool)
  | read (nonblock : Bool) (len : Nat) (copy_ok : Bool) (during : List async_ev)
      (signalled : Bool)
  | write (e : ion_env) (ubuf : List Nat) (len : Nat) (stack : Nat → Nat) (send_ret : Int)
  | poll
  | crash

/-- Instance after one operation. -/
def step (omx : rpmsg_omx_instance) : op → rpmsg_omx_instance
  | .connect rpdev omxname send_ret during fin left =>
    (rpmsg_omx_connect omx rpdev omxname send_ret during fin left).omx
  | .cb data len alloc_ok => (rpmsg_omx_cb omx data len alloc_ok).1
  | .read nonblock len copy_ok during signalled =>
    (rpmsg_omx_read omx nonblock len copy_ok during signalled).omx
  | .write e ubuf len stack send_ret =>
    match rpmsg_omx_write e omx ubuf len stack send_ret with
    | some r => r.omx
    | none => omx
  | .poll => omx
  | .crash => (rpmsg_omx_remove_entry omx).1

/-- Instance after a sequence of operations. -/
def run (omx : rpmsg_omx_instance) (ops : List op) : rpmsg_omx_instance :=
  ops.foldl step omx

/-! ## test data -/

/-- Byte memory holding the bytes of `l`, zero beyond. -/
def mem_of (l : List Nat) : Nat → Nat := fun i => l.getD i 0

/-- Receive buffer holding a message with the given header fields and payload. -/
def rx_msg (type len : Nat) (payload : List Nat) : Nat → Nat :=
  mem_of (put_le32 type ++ put_le32 0 ++ put_le32 len ++ payload)

/-- A freshly opened instance with local endpoint address `ept`
(`rpmsg_omx_open`: zeroed allocation, state OMX_UNCONNECTED). -/
def fresh (ept : Nat) : rpmsg_omx_instance :=
  { queue := [], reply_arrived := 0, ept := ept, dst := 0,
    state := OMX_UNCONNECTED, buffer_list := [] }

/-- An `ion_env` in which no value is a buffer handle. -/
def no_ion : ion_env := ⟨fun _ => none, fun _ => (0, 0)⟩

/-- The receive callback treats the message as a connect response: it passes the
length test of source line 348, has type OMX_CONN_RSP and declares at least
`sizeof(struct omx_conn_rsp)` payload bytes. -/
def is_reply (data : Nat → Nat) (len : Int) : Prop :=
  ¬ (u32 len < sizeof_hdr ∨ get_le32 data 8 < u32 (len - sizeof_hdr)) ∧
    get_le32 data 0 = OMX_CONN_RSP ∧ ¬ get_le32 data 8 < sizeof_rsp

/-- An event that is neither a connect response nor the crash notification. -/
def no_reply : async_ev → Prop
  | .rx data len _ => ¬ is_reply data len
  | .crash => False

/-- A well-formed CONNECT_RESPONSE of `len` delivered bytes: type OMX_CONN_RSP, a
declared payload length equal to the delivered payload, which holds a whole
`struct omx_conn_rsp` with the given status and address. -/
def is_conn_rsp (data : Nat → Nat) (len : Int) (status addr : Nat) : Prop :=
  ((sizeof_hdr + sizeof_rsp : Nat) : Int) ≤ len ∧ len < 2147483648 ∧
    get_le32 data 0 = OMX_CONN_RSP ∧
    (get_le32 data 8 : Int) = len - sizeof_hdr ∧
    get_le32 data sizeof_hdr = status ∧ get_le32 data (sizeof_hdr + 4) = addr

/-- The receive callback queues the message: it passes the length test of source
line 348, has type OMX_RAW_MSG and `alloc_skb` succeeds. -/
def is_data (data : Nat → Nat) (len : Int) (alloc_ok : Bool) : Prop :=
  ¬ (u32 len < sizeof_hdr ∨ get_le32 data 8 < u32 (len - sizeof_hdr)) ∧
    get_le32 data 0 = OMX_RAW_MSG ∧ alloc_ok = true

/-- An event that queues nothing: a message the callback does not queue, or the
crash notification. -/
def no_data : async_ev → Prop
  | .rx data len alloc_ok => ¬ is_data data len alloc_ok
  | .crash => True

/-- Arguments of one `read` call. -/
structure read_args where
  nonblock : Bool
  len : Nat
  during : List async_ev
  signalled : Bool

/-- Delivery of the messages `msgs` (receive buffer and delivered length each), in
order, to the receive callback, every `alloc_skb` succeeding. -/
def rx_all (omx : rpmsg_omx_instance) (msgs : List ((Nat → Nat) × Int)) :
    rpmsg_omx_instance :=
  msgs.foldl (fun o m => (rpmsg_omx_cb o m.1 m.2 true).1) omx

/-- Consecutive reads by one reader, every `copy_to_user` succeeding: the return
value and the bytes of each read, and the instance after the last. -/
def read_all : rpmsg_omx_instance → List read_args →
    List (Option Int × List Nat) × rpmsg_omx_instance
  | omx, [] => ([], omx)
  | omx, a :: rest =>
    let r := rpmsg_omx_read omx a.nonblock a.len true a.during a.signalled
    let rs := read_all r.omx rest
    ((r.ret, r.buf) :: rs.1, rs.2)

/-- The declared payload of a message in the receive buffer `data`: the
`hdr->len` bytes that follow the header. -/
def raw_payload (data : Nat → Nat) : List Nat := hdr_data data (get_le32 data 8)

/-- An `ion_env` with one buffer handle, 4096, at physical address 0x80000000,
which the remote processor sees at 0xA0001000; every other physical address
maps to itself. -/
def one_ion : ion_env :=
  ⟨fun h => if h = 4096 then some 0x80000000 else none,
   fun pa => if pa = 0x80000000 then (0, 0xA0001000) else (0, pa)⟩

/-- An OMX_CONNECTED instance whose registry holds one wrapper, at address 8192, for the
handle 4096, with a two-page table at device address 20480. -/
def with_wrapper : rpmsg_omx_instance :=
  { queue := [], reply_arrived := 0, ept := 1024, dst := 66, state := OMX_CONNECTED,
    buffer_list := [⟨8192, 4096, 2, some [12288, 16384], 20480⟩] }

/-- The 32-bit word at byte index `j` of `mem` (bytes beyond the end read as 0). -/
def word (mem : List Nat) (j : Nat) : Nat := get_le32 (fun k => mem.getD k 0) j

/-- A packet for `_rpmsg_omx_map_buf`: the 20 bytes of the `omx_packet` header, then
the map type, the offset 8 and the reference slots `refs`, which therefore
start at offset 8 of the packet data. -/
def map_packet (maptype : Nat) (refs : List Nat) : List Nat :=
  List.replicate sizeof_omx_packet 0 ++ put_le32 maptype ++ put_le32 8
    ++ (refs.map put_le32).flatten

/-! ## buffer wrappers and the buffer commands of rpmsg_omx_ioctl -/

/-- Outcome of the allocations made while one handle is wrapped: the address
returned by `kzalloc` for the `rpmsg_buffer` (`none` = NULL), the scatter
list returned by `ion_map_dma` as the physical address of each entry (`none`
= NULL), and the DMA address of the table returned by `dma_alloc_coherent`
(`none` = NULL). -/
structure buffer_alloc where
  kzalloc : Option Nat
  sglist : Option (List Nat)
  dma : Option Nat

/-- Page table setup `_rpmsg_buffer_update_page_list(omx, buffer)`: the wrapper afterwards and
the calls made.  The function returns `void`: a failure leaves `page_list`
NULL and is only logged. -/
def _rpmsg_buffer_update_page_list (a : buffer_alloc) (buffer : rpmsg_buffer) :
    rpmsg_buffer × List call :=
  if buffer.page_list.isSome then (buffer, [])
  else
    match a.sglist with
    | none => (buffer, [])
    | some sg =>
      match a.dma with
      | none =>
        ({ buffer with n_pages := sg.length }, [call.ion_unmap_dma buffer.ion_handle])
      | some pa =>
        ({ buffer with n_pages := sg.length, page_list := some sg, page_list_pa := pa }, [])

/-- Test `_is_page_list(omx, ion_handle)`: `ion_phys` fails on the handle. -/
def _is_page_list (e : ion_env) (ion_handle : Nat) : Bool := (e.ion_phys ion_handle).isNone

/-- Wrapper creation `_rpmsg_buffer_new(omx, ion_handle)`: the pointer returned (`none` =
NULL), the instance afterwards and the calls made. -/
def _rpmsg_buffer_new (omx : rpmsg_omx_instance) (ion_handle : Nat) (a : buffer_alloc) :
    Option Nat × rpmsg_omx_instance × List call :=
  match a.kzalloc with
  | none => (none, omx, [])
  | some addr =>
    let r := _rpmsg_buffer_update_page_list a ⟨addr, ion_handle, 0, none, 0⟩
    (some addr, { omx with buffer_list := r.1 :: omx.buffer_list }, r.2)

/-- Wrapper release `_rpmsg_buffer_free(omx, buffer)`: the instance afterwards and the calls
made; `list_del` unlinks the wrapper at the address of `buffer`. -/
def _rpmsg_buffer_free (omx : rpmsg_omx_instance) (buffer : rpmsg_buffer) :
    rpmsg_omx_instance × List call :=
  ({ omx with buffer_list := omx.buffer_list.eraseP (fun b => b.addr = buffer.addr) },
   (if buffer.page_list.isSome then
      [call.dma_free_coherent buffer.page_list_pa, call.ion_unmap_dma buffer.ion_handle]
    else [])
   ++ (if buffer.ion_handle ≠ 0 then [call.ion_free buffer.ion_handle] else [])
   ++ [call.kfree buffer.addr])

/-- The buffer commands of `rpmsg_omx_ioctl`, with the argument read from user space. -/
inductive omx_ioc where
  | OMX_IOCIONREGISTER (fd : Int)
  | OMX_IOCPVRREGISTER (fd : Int)
  | OMX_IOCIONUNREGISTER (handle : Nat)

/-- What the kernel services called by the buffer commands return: whether
`copy_from_user` / `copy_to_user` succeed, the handle of `ion_import_fd`
(`none` when IS_ERR_OR_NULL), whether `fcheck` finds the descriptor, the
buffers of `omap_ion_share_fd_to_buffers` (`none` when it fails, else the
entries `ion_bufs[0 .. num_handles)`, `none` for an entry that is
IS_ERR_OR_NULL), the handle of `ion_import` for a buffer, and the allocation
outcomes for the i-th handle. -/
structure ioctl_env where
  copy_from_user_ok : Bool
  copy_to_user_ok : Bool
  ion_import_fd : Option Nat
  fcheck_ok : Bool
  share : Option (List (Option Nat))
  ion_import : Nat → Option Nat
  allocs : Nat → buffer_alloc

/-- Result of a buffer command: the return value, the instance afterwards, the
calls made and the handles copied back to the caller (0 = NULL; empty when
nothing is copied back). -/
structure ioctl_result where
  ret : Int
  omx : rpmsg_omx_instance
  calls : List call
  handles : List Nat

/-- Body of the `for` loop of OMX_IOCPVRREGISTER for entry `i` (source lines
532-544): the value stored in `data.handles[i]` (0 = NULL), the instance
afterwards and the calls made. -/
def pvrregister_entry (e : ion_env) (env : ioctl_env) (omx : rpmsg_omx_instance) (i : Nat)
    (ion_buf : Option Nat) : Nat × rpmsg_omx_instance × List call :=
  match ion_buf.bind env.ion_import with
  | none => (0, omx, [])
  | some handle =>
    if _is_page_list e handle then
      let r := _rpmsg_buffer_new omx handle (env.allocs i)
      (r.1.getD 0, r.2.1, r.2.2)
    else (handle, omx, [])

/-- The `for` loop of OMX_IOCPVRREGISTER over the entries `i, i + 1, ...`. -/
def pvrregister_loop (e : ion_env) (env : ioctl_env) :
    rpmsg_omx_instance → Nat → List (Option Nat) → List Nat × rpmsg_omx_instance × List call
  | omx, _, [] => ([], omx, [])
  | omx, i, b :: bs =>
    let r := pvrregister_entry e env omx i b
    let rs := pvrregister_loop e env r.2.1 (i + 1) bs
    (r.1 :: rs.1, rs.2.1, r.2.2 ++ rs.2.2)

/-- The cases OMX_IOCIONREGISTER, OMX_IOCPVRREGISTER and OMX_IOCIONUNREGISTER of
`rpmsg_omx_ioctl(filp, cmd, arg)` (source lines 486-580). -/
def rpmsg_omx_ioctl (e : ion_env) (env : ioctl_env) (omx : rpmsg_omx_instance) :
    omx_ioc → ioctl_result
  | .OMX_IOCIONREGISTER _ =>
    if ¬ env.copy_from_user_ok then ⟨- EFAULT, omx, [], []⟩
    else if ¬ env.copy_to_user_ok then ⟨- EFAULT, omx, [], []⟩
    else ⟨0, omx, [], [env.ion_import_fd.getD 0]⟩
  | .OMX_IOCPVRREGISTER _ =>
    if ¬ env.copy_from_user_ok then ⟨- EFAULT, omx, [], []⟩
    else if ¬ env.fcheck_ok then ⟨- EBADF, omx, [], []⟩
    else
      let bufs := (env.share.getD []).take 2
      let r := pvrregister_loop e env omx 0 bufs
      let handles := (r.1 ++ [0, 0]).take 2
      if ¬ env.copy_to_user_ok then ⟨- EFAULT, r.2.1, r.2.2, []⟩
      else ⟨0, r.2.1, r.2.2, handles⟩
  | .OMX_IOCIONUNREGISTER handle =>
    if ¬ env.copy_from_user_ok then ⟨- EFAULT, omx, [], []⟩
    else
      let r : rpmsg_omx_instance × List call :=
        if _rpmsg_buffer_validate omx handle then
          match omx.buffer_list.find? (fun b => b.addr = handle) with
          | some buffer => _rpmsg_buffer_free omx buffer
          | none => (omx, [])
        else (omx, [call.ion_free handle])
      if ¬ env.copy_to_user_ok then ⟨- EFAULT, r.1, r.2, []⟩
      else ⟨0, r.1, r.2, [handle]⟩

/-! ## rpmsg_omx_open and rpmsg_omx_release -/

/-- How the sleep of `rpmsg_omx_open` on `omxserv->comp` ends: a signal, a new channel bound
by `rpmsg_omx_probe` (which sets `rpdev` and calls `complete_all`), or not at
all. -/
inductive open_wait where
  | signal
  | rebound (rpdev : rpmsg_channel)
  | asleep

/-- Result of an open: the return value (`none` while the caller is asleep), the
service afterwards, the instance stored in `filp->private_data` (`none` when
the open fails) and the calls made. -/
structure open_result where
  ret : Option Int
  omxserv : rpmsg_omx_service
  omx : Option rpmsg_omx_instance
  calls : List call

/-- Open `rpmsg_omx_open(inode, filp)` on the service `omxserv`.  `kzalloc_ok`: the
instance can be allocated; `nonblock` is `filp->f_flags & O_NONBLOCK`; `wait`
is what happens if the caller sleeps for a channel (pending completions are
consumed before it sleeps); `ept` is the address assigned by
`rpmsg_create_ept` (`none` = NULL). -/
def rpmsg_omx_open (omxserv : rpmsg_omx_service) (nonblock : Bool) (kzalloc_ok : Bool)
    (wait : open_wait) (ept : Option Nat) : open_result :=
  if ¬ kzalloc_ok then ⟨some (- ENOMEM), omxserv, none, []⟩
  else if omxserv.rpdev.isNone ∧ nonblock then ⟨some (- EBUSY), omxserv, none, []⟩
  else
    let bound : Option Int × rpmsg_omx_service :=
      if omxserv.rpdev.isSome then (some 0, omxserv)
      else
        match wait with
        | .signal => (some (- ERESTARTSYS), { omxserv with comp := 0 })
        | .asleep => (none, { omxserv with comp := 0 })
        | .rebound rpdev =>
          (some 0, { omxserv with rpdev := some rpdev,
                                  comp := completion_complete_all 0 - 1 })
    match bound.1 with
    | none => ⟨none, bound.2, none, []⟩
    | some r =>
      if r ≠ 0 then ⟨some r, bound.2, none, []⟩
      else
        match ept with
        | none => ⟨some (- ENOMEM), bound.2, none, []⟩
        | some addr =>
          let omx : rpmsg_omx_instance :=
            { queue := [], reply_arrived := 0, ept := addr, dst := 0,
              state := OMX_UNCONNECTED, buffer_list := [] }
          ⟨some 0, { bound.2 with list := omx :: bound.2.list }, some omx,
           [call.rpmsg_create_ept addr, call.ion_client_create]⟩

/-- The `list_for_each_safe` loop of `rpmsg_omx_release` (source lines 725-729) over the
wrappers `bufs`: each is released by `_rpmsg_buffer_free`. -/
def release_buffers : rpmsg_omx_instance → List rpmsg_buffer → rpmsg_omx_instance × List call
  | omx, [] => (omx, [])
  | omx, buffer :: rest =>
    let r := _rpmsg_buffer_free omx buffer
    let rs := release_buffers r.1 rest
    (rs.1, r.2 ++ rs.2)

/-- Image of the DISCONNECT message built in `kbuf` by `rpmsg_omx_release`: the header
and the `omx_disc_req` holding `omx->dst`. -/
def disconnect_msg (dst : Nat) : List Nat :=
  put_le32 OMX_DISCONNECT ++ put_le32 0 ++ put_le32 sizeof_disc_req ++ put_le32 dst

/-- Close `rpmsg_omx_release(inode, filp)` of the instance `omx` of the service `omxserv`:
the return value, the service afterwards and the calls made; the result of
the send is only logged.  `none`: the instance is OMX_CONNECTED while
`omxserv->rpdev` is NULL, which the function dereferences. -/
def rpmsg_omx_release (omxserv : rpmsg_omx_service) (omx : rpmsg_omx_instance) :
    Option (Int × rpmsg_omx_service × List call) :=
  let sent : Option (List call) :=
    if omx.state = OMX_CONNECTED then
      match omxserv.rpdev with
      | none => none
      | some rpdev =>
        some [call.rpmsg_send_offchannel omx.ept rpdev.dst (disconnect_msg omx.dst)]
    else some []
  match sent with
  | none => none
  | some s =>
    some (0, { omxserv with list := omxserv.list.erase omx },
      s ++ (release_buffers omx omx.buffer_list).2 ++ [call.ion_client_destroy]
        ++ (if omx.state ≠ OMX_FAIL then [call.rpmsg_destroy_ept omx.ept] else []))

/-- An `ioctl_env` in which every copy succeeds, the descriptor is valid and
refers to the buffers `bufs`; buffer `b` is imported as handle `4089 + b`,
and `a i` is the outcome of the allocations for the i-th handle. -/
def pvr_env (bufs : List (Option Nat)) (a : Nat → buffer_alloc) : ioctl_env :=
  ⟨true, true, none, true, some bufs, fun b => some (4089 + b), a⟩

/-- A service named "o" with minor 0, bound to a channel whose connection broker
has address 60, and the connection list `l`. -/
def bound_service (l : List rpmsg_omx_instance) : rpmsg_omx_service :=
  ⟨[111], some ⟨[111], 1024, 60⟩, 0, l, 2147483647⟩

/-- A CONNECT_RESPONSE of 20 bytes with status 2 (a failure) and address 0. -/
def refusal : Nat → Nat := rx_msg OMX_CONN_RSP 8 (put_le32 2 ++ put_le32 0)

/-- Whether a kernel call is an `rpmsg_send_offchannel`. -/
def is_send : call → Bool
  | .rpmsg_send_offchannel _ _ _ => true
  | _ => false

/-- An OMX_CONNECTED instance with local endpoint 1024 and remote address 66. -/
def connected_instance : rpmsg_omx_instance :=
  { queue := [], reply_arrived := 0, ept := 1024, dst := 66, state := OMX_CONNECTED,
    buffer_list := [] }

/-- A well-formed CONNECT_RESPONSE of 20 bytes with status 0 and address 66. -/
def acceptance : Nat → Nat := rx_msg OMX_CONN_RSP 8 (put_le32 0 ++ put_le32 66)

/-- An instance that was connected (remote address 66), received the two-byte
message 7, 9 and then lost its remote processor. -/
def failed_with_data : rpmsg_omx_instance :=
  run (fresh 1024)
    [op.cb acceptance 20 true, op.cb (rx_msg OMX_RAW_MSG 2 [7, 9]) 14 true, op.crash]

/-- Whether a kernel call sends a CONNECT_REQUEST: an `rpmsg_send_offchannel` whose
message header has type OMX_CONN_REQ. -/
def is_conn_req : call → Bool
  | .rpmsg_send_offchannel _ _ data => get_le32 (mem_of data) 0 = OMX_CONN_REQ
  | _ => false

/-- A write payload of 28 bytes: a zeroed `omx_packet` header, then the map type
and the offset field. -/
def short_packet (maptype off : Nat) : List Nat :=
  List.replicate sizeof_omx_packet 0 ++ put_le32 maptype ++ put_le32 off

/-- A stack whose bytes under `kbuf[132 .. 136)` hold the word 4096 and which is
zero elsewhere. -/
def stack_with_handle : Nat → Nat := fun i => if i = 133 then 16 else 0

/-- The array `kbuf` of `rpmsg_omx_write` after `copy_from_user` has stored the first `use`
bytes of `ubuf` behind the header. -/
def kbuf_copied (stack : Nat → Nat) (ubuf : List Nat) (use : Nat) : List Nat :=
  (kbuf_init stack).take sizeof_hdr ++ ubuf.take use
    ++ (kbuf_init stack).drop (sizeof_hdr + use)

/-! ## rpmsg_omx_probe -/

/-- The C string held in `s`: the bytes before the first NUL. -/
def cstr (s : List Nat) : List Nat := s.takeWhile (fun c => c ≠ 0)

/-- Callback `_match_omx_service(id, p, data)` of the idr walk: non-zero exactly when
`strcmp(dev_name(omxserv->dev), data)` is 0. -/
def _match_omx_service (omxserv : rpmsg_omx_service) (data : List Nat) : Bool :=
  cstr omxserv.name = cstr data

/-- Outcome of the allocations and registrations `rpmsg_omx_probe` asks for: whether
`idr_pre_get` and `kzalloc` succeed, the return value of `idr_get_new` and the
minor it assigns, the return value of `cdev_add`, and the name of the device
made by `device_create` (which formats `rpdev->id.name`) or the error it
encodes in the pointer. -/
structure probe_env where
  idr_pre_get : Bool
  kzalloc : Bool
  idr_get_new : Int × Nat
  cdev_add : Int
  device_create : Except Int (List Nat)

/-- Result of a probe: the return value, the idr afterwards, and the minor of the
service stored as driver data of the channel (`none` on the failure paths,
where the service is freed again). -/
structure probe_result where
  ret : Int
  services : List rpmsg_omx_service
  drvdata : Option Nat

/-- Channel registration `rpmsg_omx_probe(rpdev)`.  `services` is the content of the idr
`rpmsg_omx_services` in the order of `idr_for_each`; a service is identified
by its minor, the key of the idr. -/
def rpmsg_omx_probe (services : List rpmsg_omx_service) (rpdev : rpmsg_channel)
    (env : probe_env) : probe_result :=
  match services.find? (fun s => _match_omx_service s rpdev.name) with
  | some omxserv =>
    ⟨0,
     services.map (fun s =>
       if s.minor = omxserv.minor then
         { s with rpdev := some rpdev, comp := completion_complete_all s.comp }
       else s),
     some omxserv.minor⟩
  | none =>
    if ¬ env.idr_pre_get then ⟨- ENOMEM, services, none⟩
    else if ¬ env.kzalloc then ⟨- ENOMEM, services, none⟩
    else
      let minor := env.idr_get_new.2
      if env.idr_get_new.1 ≠ 0 then ⟨env.idr_get_new.1, services, none⟩
      else if env.cdev_add ≠ 0 then ⟨env.cdev_add, services, none⟩
      else
        match env.device_create with
        | .error ret => ⟨ret, services, none⟩
        | .ok name =>
          ⟨0,
           services ++ [⟨name, some rpdev, minor, [], completion_complete_all 0⟩],
           some minor⟩

/-- A `probe_env` in which everything succeeds: the new service gets the minor
`minor` and its device the name `name`. -/
def probe_ok (minor : Nat) (name : List Nat) : probe_env :=
  ⟨true, true, (0, minor), 0, .ok name⟩

/-! ## notle_pcb_sensor.c: adc_to_temp_conversion -/

/-- Value of a C `int` expression whose mathematical result is `x`: reduction
to 32 bits, two's complement. -/
def int32 (x : Int) : Int := (x + 2147483648) % 4294967296 - 2147483648

def TWL6030_ADC_START_VALUE : Int := 0
def TWL6030_ADC_END_VALUE : Int := 1536

/-- The table `c[6]` of `adc_to_temp_conversion`: each `v` is the `(int)` cast (truncation
toward zero) of the constant expression written next to it, `s` the shift
applied to the matching power. -/
def adc_c : List (Int × Nat) :=
  [(55548, 8),      -- (int)( 5.554894978e+1*1000*(1LL<<0))
   (-647, 0),       -- (int)(-8.099170543e-2*1000*(1LL<<3))
   (-236, 0),       -- (int)(-1.440793512e-5*1000*(1LL<<14))
   (-1140, 0),      -- (int)(-3.400326093e-8*1000*(1LL<<25))
   (34060, 0),      -- (int)(+4.956437005e-10*1000*(1LL<<36))
   (-111066, 0)]    -- (int)(-7.891731528e-13*1000*(1LL<<47))

/-- The array `p` of `adc_to_temp_conversion`: `p[0] = 1<<17`, `p[i] = (adc_val*p[i-1])>>11`. -/
def adc_p (adc_val : Int) : Nat → Int
  | 0 => 131072
  | i + 1 => int32 (adc_val * adc_p adc_val i) >>> (11 : Nat)

/-- One round of the summation loop of `adc_to_temp_conversion`: `r = i/2`,
`t = (c[i].v>>r)*(p[i]>>c[i].s)`, `s += t>>(5-r)`. -/
def adc_term (adc_val : Int) (s : Int) (i : Nat) : Int :=
  let r := i / 2
  let t := int32 (((adc_c.getD i (0, 0)).1 >>> r)
    * (adc_p adc_val i >>> (adc_c.getD i (0, 0)).2))
  int32 (s + (t >>> (5 - r)))

/-- Conversion `adc_to_temp_conversion(adc_val)` of an ADC reading to milli-degrees, in 32-bit
`int` arithmetic with arithmetic right shifts. -/
def adc_to_temp_conversion (adc_val : Int) : Int :=
  let adc_val :=
    if adc_val < TWL6030_ADC_START_VALUE then TWL6030_ADC_START_VALUE
    else if adc_val > TWL6030_ADC_END_VALUE then TWL6030_ADC_END_VALUE
    else adc_val
  let adc_val := int32 (adc_val - 555)
  let s := (List.range 6).foldl (adc_term adc_val) 0
  s >>> (4 : Nat)

/-- The reference `d_adc_to_temp_conversion(adc_val)` of the residual test, the fitted polynomial
in degrees, evaluated over the rationals instead of `double`. -/
def d_adc_to_temp_conversion (adc_val : Int) : ℚ :=
  let x : ℚ := ((adc_val - 555 : Int) : ℚ)
  55.54894978 + -8.099170543e-2 * x + -1.440793512e-5 * x ^ 2 + -3.400326093e-8 * x ^ 3
    + 4.956437005e-10 * x ^ 4 + -7.891731528e-13 * x ^ 5

/-- The integer `1000 * 10^22 * d_adc_to_temp_conversion(adc_val)`. -/
def scaled_reference (adc_val : Int) : Int :=
  let x := adc_val - 555
  555489497800000000000000000 + -809917054300000000000000 * x
    + -144079351200000000000 * x ^ 2 + -340032609300000000 * x ^ 3
    + 4956437005000000 * x ^ 4 + -7891731528000 * x ^ 5

/-- The residual test on the reading `j`, over the integers: the result and 1000
times the reference, both scaled by 10^22, differ by at most 400 * 10^22. -/
def residual_ok (j : Nat) : Bool :=
  decide (-4000000000000000000000000
      ≤ adc_to_temp_conversion j * 10000000000000000000000 - scaled_reference j ∧
    adc_to_temp_conversion j * 10000000000000000000000 - scaled_reference j
      ≤ 4000000000000000000000000)

/-! ## panel-notle-dpi.c: the brightness scale -/

/-- Scale `range_expand(v)`, in 32-bit `int` arithmetic. -/
def range_expand (v : Int) : Int :=
  if v ≤ 223 then int32 (v * 293) >>> (8 : Nat)
  else int32 (int32 (v * 16) - (255 * 16 - 255 * 3))

/-- Scale `range_reduce(v)`; the division of two `int` truncates toward zero. -/
def range_reduce (v : Int) : Int :=
  if v ≤ 255 then Int.tdiv (int32 (int32 (v * 256) + 292)) 293
  else int32 (v + (255 * 16 - 255 * 3)) >>> (4 : Nat)

/-- The fields `brightness` and `brightness_limit` of `struct led_config`, both
`unsigned`. -/
structure led_config where
  brightness : Nat
  brightness_limit : Nat
  deriving DecidableEq, Repr

/-- The number `brightness_show` prints. -/
def brightness_show (led : led_config) : Int := range_reduce (s32 led.brightness)

/-- Attribute write `brightness_store(notle_data, buf, size)`: the return value and `led_config`
afterwards.  `kstrtoint` is the result of parsing `buf` (return value and
number), `supported` is `notle_version_supported()`.  The write to the
backlight hardware that follows changes neither. -/
def brightness_store (led : led_config) (kstrtoint : Int × Int) (supported : Bool)
    (size : Nat) : Int × led_config :=
  if kstrtoint.1 ≠ 0 then (kstrtoint.1, led)
  else if kstrtoint.2 < 0 then (- EINVAL, led)
  else
    let led1 := { led with brightness := u32 (range_expand kstrtoint.2) }
    if ¬ supported then (- EINVAL, led1)
    else ((size : Int), led1)

/-- The number `brightness_limit_show` prints. -/
def brightness_limit_show (led : led_config) : Int :=
  range_reduce (s32 led.brightness_limit)

/-- Attribute write `brightness_limit_store(notle_data, buf, size)`, as `brightness_store` on the
field `brightness_limit`. -/
def brightness_limit_store (led : led_config) (kstrtoint : Int × Int) (supported : Bool)
    (size : Nat) : Int × led_config :=
  if kstrtoint.1 ≠ 0 then (kstrtoint.1, led)
  else if kstrtoint.2 < 0 then (- EINVAL, led)
  else
    let led1 := { led with brightness_limit := u32 (range_expand kstrtoint.2) }
    if ¬ supported then (- EINVAL, led1)
    else ((size : Int), led1)

/-- The service of `bound_service` after the crash path of `rpmsg_omx_remove`: no channel
(`rpdev` NULL), completion reset, connection list `l`. -/
def unbound_service (l : List rpmsg_omx_instance) : rpmsg_omx_service :=
  ⟨[111], none, 0, l, 0⟩

/-- The instance `connected_instance` after the crash path of `rpmsg_omx_remove`. -/
def crash_failed_instance : rpmsg_omx_instance :=
  (rpmsg_omx_remove_entry connected_instance).1

/-! ## the receive callback and the states -/

theorem rpmsg_omx_cb_fail (omx : rpmsg_omx_instance) (data : Nat → Nat) (len : Int)
    (alloc_ok : Bool) (h : omx.state = OMX_FAIL) :
    (rpmsg_omx_cb omx data len alloc_ok).1.state = OMX_FAIL := by
  unfold rpmsg_omx_cb
  simp only []
  split_ifs <;> simp_all

theorem deliver_fail (omx : rpmsg_omx_instance) (ev : async_ev) (h : omx.state = OMX_FAIL) :
    (deliver omx ev).1.state = OMX_FAIL := by
  cases ev with
  | rx data len alloc_ok => exact rpmsg_omx_cb_fail omx data len alloc_ok h
  | crash => rfl

theorem rpmsg_omx_write_omx (e : ion_env) (omx : rpmsg_omx_instance) (ubuf : List Nat)
    (len : Nat) (stack : Nat → Nat) (send_ret : Int) (r : io_result)
    (h : rpmsg_omx_write e omx ubuf len stack send_ret = some r) : r.omx = omx := by
  unfold rpmsg_omx_write at h
  by_cases h1 : omx.state = OMX_UNCONNECTED
  · rw [if_pos h1] at h
    rw [← Option.some.inj h]
  · rw [if_neg h1] at h
    dsimp only at h
    by_cases h2 : ubuf.length < min (512 - sizeof_hdr) len
    · rw [if_pos h2] at h
      rw [← Option.some.inj h]
    · rw [if_neg h2] at h
      revert h
      generalize _rpmsg_omx_map_buf e omx _ _ = m
      cases m with
      | none => intro h; exact Option.noConfusion h
      | some m =>
        intro h
        dsimp only at h
        split_ifs at h <;> rw [← Option.some.inj h]

theorem step_fail (omx : rpmsg_omx_instance) (o : op) (h : omx.state = OMX_FAIL) :
    (step omx o).state = OMX_FAIL := by
  cases o with
  | connect rpdev omxname send_ret during fin left =>
    simp [step, rpmsg_omx_connect, h]
  | cb data len alloc_ok => exact rpmsg_omx_cb_fail omx data len alloc_ok h
  | read nonblock len copy_ok during signalled =>
    simp only [step, rpmsg_omx_read, wait_event_interruptible, rpmsg_omx_read_dequeue, h]
    split_ifs <;> simp_all
  | write e ubuf len stack send_ret =>
    simp only [step]
    split
    · next r hr => rw [rpmsg_omx_write_omx e omx ubuf len stack send_ret r hr]; exact h
    · exact h
  | poll => exact h
  | crash => rfl

/-- C1: FAILED is absorbing.  From an instance in state OMX_FAIL, every
sequence of connect calls, receive callbacks (any message), reads, writes,
polls and crash notifications ends in state OMX_FAIL; as every prefix of a
sequence is a sequence, every later state is OMX_FAIL. -/
theorem failed_is_absorbing (omx : rpmsg_omx_instance) (ops : List op)
    (h : omx.state = OMX_FAIL) : (run omx ops).state = OMX_FAIL := by
  induction ops generalizing omx with
  | nil => exact h
  | cons o os ih => exact ih (step omx o) (step_fail omx o h)

theorem failed_is_absorbing_witness :
    (rpmsg_omx_remove_entry (fresh 1024)).1.state = OMX_FAIL ∧
    (run (rpmsg_omx_remove_entry (fresh 1024)).1
      [op.cb (rx_msg OMX_CONN_RSP 8 (put_le32 0 ++ put_le32 66)) 20 true,
       op.connect ⟨[], 1024, 60⟩ [111, 109, 120, 0] 0 [] wait_end.timeout 0,
       op.read false 16 true [] false,
       op.write no_ion [] 0 (fun _ => 0) 0,
       op.poll]).state = OMX_FAIL :=
  ⟨rfl, failed_is_absorbing _ _ rfl⟩

/-- C2, the code at the failing input: the channel delivers 12 bytes (a bare
header) whose header is of type OMX_CONN_RSP and declares 8 payload bytes,
more than the 0 delivered.  The callback does not reject it: it takes status
0 and address 66 from the memory behind the delivered bytes, moves the
instance to OMX_CONNECTED, sets `dst` and completes `reply_arrived`. -/
theorem rpmsg_omx_cb_accepts_undelivered_payload :
    rpmsg_omx_cb (fresh 1024) (rx_msg OMX_CONN_RSP 8 (put_le32 0 ++ put_le32 66)) 12 true
      = ({ fresh 1024 with dst := 66, state := OMX_CONNECTED, reply_arrived := 1 },
         [call.complete 1024]) := by
  decide

/-- C6: connect on an instance that is OMX_CONNECTED returns -EISCONN and on one
that is OMX_FAIL returns -ENXIO; in both cases no kernel call is made (no
CONNECT_REQUEST is sent), no event of the wait is processed and the instance
(state, `dst`, completion counter) is returned as it was. -/
theorem connect_rejected_in_invalid_state (omx : rpmsg_omx_instance)
    (rpdev : rpmsg_channel) (omxname : List Nat) (send_ret : Int)
    (during : List async_ev) (fin : wait_end) (left : Nat)
    (h : omx.state = OMX_CONNECTED ∨ omx.state = OMX_FAIL) :
    rpmsg_omx_connect omx rpdev omxname send_ret during fin left
      = ⟨if omx.state = OMX_CONNECTED then - EISCONN else - ENXIO, omx, []⟩ := by
  rcases h with h | h <;> simp [rpmsg_omx_connect, h]

theorem connect_rejected_in_invalid_state_witness :
    (rpmsg_omx_connect { fresh 1024 with state := OMX_CONNECTED, dst := 66 } ⟨[], 1024, 60⟩
        [111, 109, 120, 0] 0 [async_ev.crash] wait_end.timeout 0).ret = - EISCONN ∧
    (rpmsg_omx_connect { fresh 1024 with state := OMX_FAIL } ⟨[], 1024, 60⟩
        [111, 109, 120, 0] 0 [] wait_end.signal 0).ret = - ENXIO := by
  constructor
  · rw [connect_rejected_in_invalid_state _ _ _ _ _ _ _ (Or.inl rfl)]; rfl
  · rw [connect_rejected_in_invalid_state _ _ _ _ _ _ _ (Or.inr rfl)]; rfl

/-! ## no completion is pending while an instance is unconnected -/

theorem rpmsg_omx_cb_pending (omx : rpmsg_omx_instance) (data : Nat → Nat) (len : Int)
    (alloc_ok : Bool) (h : omx.state = OMX_UNCONNECTED → omx.reply_arrived = 0) :
    (rpmsg_omx_cb omx data len alloc_ok).1.state = OMX_UNCONNECTED →
      (rpmsg_omx_cb omx data len alloc_ok).1.reply_arrived = 0 := by
  unfold rpmsg_omx_cb
  simp only []
  split_ifs <;> simp_all

theorem deliver_pending (omx : rpmsg_omx_instance) (ev : async_ev)
    (h : omx.state = OMX_UNCONNECTED → omx.reply_arrived = 0) :
    (deliver omx ev).1.state = OMX_UNCONNECTED → (deliver omx ev).1.reply_arrived = 0 := by
  cases ev with
  | rx data len alloc_ok => exact rpmsg_omx_cb_pending omx data len alloc_ok h
  | crash => intro hc; exact absurd hc (by simp [deliver, rpmsg_omx_remove_entry])

theorem completion_sleep_pending (left : Nat) (fin : wait_end) :
    ∀ (during : List async_ev) (omx : rpmsg_omx_instance),
      (omx.state = OMX_UNCONNECTED → omx.reply_arrived = 0) →
      (completion_sleep left fin omx during).omx.state = OMX_UNCONNECTED →
        (completion_sleep left fin omx during).omx.reply_arrived = 0 := by
  intro during
  induction during with
  | nil => intro omx h; cases fin <;> exact h
  | cons ev es ih =>
    intro omx h
    have hd := deliver_pending omx ev h
    simp only [completion_sleep]
    by_cases hp : 0 < (deliver omx ev).1.reply_arrived
    · rw [if_pos hp]
      intro hs
      have := hd hs
      omega
    · rw [if_neg hp]
      exact ih _ hd

theorem readq_sleep_pending (signalled : Bool) :
    ∀ (during : List async_ev) (omx : rpmsg_omx_instance),
      (omx.state = OMX_UNCONNECTED → omx.reply_arrived = 0) →
      (readq_sleep signalled omx during).2.1.state = OMX_UNCONNECTED →
        (readq_sleep signalled omx during).2.1.reply_arrived = 0 := by
  intro during
  induction during with
  | nil => intro omx h; exact h
  | cons ev es ih =>
    intro omx h
    have hd := deliver_pending omx ev h
    simp only [readq_sleep]
    by_cases hp : (deliver omx ev).1.queue ≠ [] ∨ (deliver omx ev).1.state = OMX_FAIL
    · rw [if_pos hp]
      exact hd
    · rw [if_neg hp]
      exact ih _ hd

theorem rpmsg_omx_read_dequeue_pending (omx : rpmsg_omx_instance) (len : Nat)
    (copy_ok : Bool) (calls : List call)
    (h : omx.state = OMX_UNCONNECTED → omx.reply_arrived = 0) :
    (rpmsg_omx_read_dequeue omx len copy_ok calls).omx.state = OMX_UNCONNECTED →
      (rpmsg_omx_read_dequeue omx len copy_ok calls).omx.reply_arrived = 0 := by
  unfold rpmsg_omx_read_dequeue
  by_cases hf : omx.state = OMX_FAIL
  · rw [if_pos hf]
    exact h
  · rw [if_neg hf]
    cases omx.queue with
    | nil => exact h
    | cons skb rest => cases copy_ok <;> exact h

theorem step_pending (omx : rpmsg_omx_instance) (o : op)
    (h : omx.state = OMX_UNCONNECTED → omx.reply_arrived = 0) :
    (step omx o).state = OMX_UNCONNECTED → (step omx o).reply_arrived = 0 := by
  cases o with
  | connect rpdev omxname send_ret during fin left =>
    simp only [step, rpmsg_omx_connect]
    by_cases h1 : omx.state = OMX_CONNECTED
    · rw [if_pos h1]; exact h
    · rw [if_neg h1]
      by_cases h2 : omx.state = OMX_FAIL
      · rw [if_pos h2]; exact h
      · rw [if_neg h2]
        by_cases h3 : send_ret ≠ 0
        · rw [if_pos h3]; exact h
        · rw [if_neg h3]
          simp only [wait_for_completion_interruptible_timeout]
          by_cases h4 : 0 < omx.reply_arrived
          · rw [if_pos h4]
            intro hs
            have := h hs
            omega
          · rw [if_neg h4]
            exact completion_sleep_pending left fin during omx h
  | cb data len alloc_ok => exact rpmsg_omx_cb_pending omx data len alloc_ok h
  | read nonblock len copy_ok during signalled =>
    simp only [step, rpmsg_omx_read]
    by_cases h1 : omx.state = OMX_UNCONNECTED
    · rw [if_pos h1]; exact h
    by_cases h2 : omx.queue = []
    swap
    · rw [if_neg h1, if_neg h2]
      exact rpmsg_omx_read_dequeue_pending omx len copy_ok [] h
    rw [if_neg h1, if_pos h2]
    cases nonblock with
    | true => exact h
    | false =>
      have hw : (wait_event_interruptible omx during signalled).2.1.state = OMX_UNCONNECTED →
          (wait_event_interruptible omx during signalled).2.1.reply_arrived = 0 := by
        unfold wait_event_interruptible
        by_cases hc : omx.queue ≠ [] ∨ omx.state = OMX_FAIL
        · rw [if_pos hc]; exact h
        · rw [if_neg hc]; exact readq_sleep_pending signalled during omx h
      simp only [Bool.false_eq_true, if_false]
      cases hret : (wait_event_interruptible omx during signalled).1 with
      | none => exact hw
      | some r =>
        by_cases hr : r ≠ 0
        · simp only [if_pos hr]; exact hw
        · simp only [if_neg hr]
          exact rpmsg_omx_read_dequeue_pending _ len copy_ok _ hw
  | write e ubuf len stack send_ret =>
    simp only [step]
    split
    · next r hr => rw [rpmsg_omx_write_omx e omx ubuf len stack send_ret r hr]; exact h
    · exact h
  | poll => exact h
  | crash => intro hc; exact absurd hc (by simp [step, rpmsg_omx_remove_entry])

theorem unconnected_has_no_pending_reply (ept : Nat) (ops : List op) :
    (run (fresh ept) ops).state = OMX_UNCONNECTED →
      (run (fresh ept) ops).reply_arrived = 0 := by
  have key : ∀ (ops : List op) (omx : rpmsg_omx_instance),
      (omx.state = OMX_UNCONNECTED → omx.reply_arrived = 0) →
      (run omx ops).state = OMX_UNCONNECTED → (run omx ops).reply_arrived = 0 := by
    intro ops
    induction ops with
    | nil => intro omx h; exact h
    | cons o os ih => intro omx h; exact ih (step omx o) (step_pending omx o h)
  exact key ops (fresh ept) (fun _ => rfl)

/-! ## the connect handshake -/

theorem rpmsg_omx_cb_no_reply (omx : rpmsg_omx_instance) (data : Nat → Nat) (len : Int)
    (alloc_ok : Bool) (h : ¬ is_reply data len) :
    (rpmsg_omx_cb omx data len alloc_ok).1.state = omx.state ∧
    (rpmsg_omx_cb omx data len alloc_ok).1.dst = omx.dst ∧
    (rpmsg_omx_cb omx data len alloc_ok).1.reply_arrived = omx.reply_arrived ∧
    (rpmsg_omx_cb omx data len alloc_ok).1.ept = omx.ept := by
  unfold is_reply at h
  unfold rpmsg_omx_cb
  simp only []
  split_ifs <;> simp_all

theorem rpmsg_omx_cb_conn_rsp (omx : rpmsg_omx_instance) (data : Nat → Nat) (len : Int)
    (alloc_ok : Bool) (status addr : Nat) (h : is_conn_rsp data len status addr) :
    rpmsg_omx_cb omx data len alloc_ok =
      ({ omx with dst := addr,
                  state := if status ≠ 0 then OMX_FAIL
                           else if omx.state ≠ OMX_FAIL then OMX_CONNECTED else omx.state,
                  reply_arrived := completion_complete omx.reply_arrived },
       [call.complete omx.ept]) := by
  obtain ⟨h1, h2, h3, h4, h5, h6⟩ := h
  have ha : ¬ (u32 len < sizeof_hdr ∨ get_le32 data 8 < u32 (len - sizeof_hdr)) := by
    simp only [u32, sizeof_hdr, sizeof_rsp] at *
    omega
  have hb : ¬ get_le32 data 8 < sizeof_rsp := by
    simp only [sizeof_hdr, sizeof_rsp] at *
    omega
  unfold rpmsg_omx_cb
  simp only [ha, hb, h3, h5, h6, if_false, if_true]

theorem completion_sleep_no_reply (left : Nat) (fin : wait_end) (rest : List async_ev) :
    ∀ (pre : List async_ev) (omx : rpmsg_omx_instance),
      omx.reply_arrived = 0 → (∀ ev ∈ pre, no_reply ev) →
      ∃ (omx1 : rpmsg_omx_instance) (calls1 : List call),
        omx1.state = omx.state ∧ omx1.dst = omx.dst ∧ omx1.reply_arrived = 0 ∧
        omx1.ept = omx.ept ∧
        completion_sleep left fin omx (pre ++ rest) =
          ⟨(completion_sleep left fin omx1 rest).ret,
           (completion_sleep left fin omx1 rest).omx,
           calls1 ++ (completion_sleep left fin omx1 rest).calls⟩ := by
  intro pre
  induction pre with
  | nil =>
    intro omx h0 _
    exact ⟨omx, [], rfl, rfl, h0, rfl, rfl⟩
  | cons ev es ih =>
    intro omx h0 hq
    have hev : no_reply ev := hq ev (List.mem_cons_self _ _)
    have hes : ∀ x ∈ es, no_reply x := fun x hx => hq x (List.mem_cons_of_mem _ hx)
    cases ev with
    | crash => exact absurd hev (by simp [no_reply])
    | rx data len alloc_ok =>
      obtain ⟨c1, c2, c3, c4⟩ := rpmsg_omx_cb_no_reply omx data len alloc_ok hev
      have hz : (rpmsg_omx_cb omx data len alloc_ok).1.reply_arrived = 0 := by rw [c3, h0]
      obtain ⟨omx1, calls1, e1, e2, e3, e4, e5⟩ :=
        ih (rpmsg_omx_cb omx data len alloc_ok).1 hz hes
      refine ⟨omx1, (rpmsg_omx_cb omx data len alloc_ok).2 ++ calls1,
        by rw [e1, c1], by rw [e2, c2], e3, by rw [e4, c4], ?_⟩
      simp only [List.cons_append, completion_sleep, deliver, hz, lt_irrefl, if_false]
      rw [show es.append rest = es ++ rest from rfl, e5]
      simp only [List.append_assoc]

/-- C3: on an instance that is OMX_UNCONNECTED with no completion pending (as is
every unconnected instance reached from open, `unconnected_has_no_pending_reply`), a
connect call whose CONNECT_REQUEST is sent (the send returns 0) and whose
wait sees, after any messages that are not connect responses, a well-formed
CONNECT_RESPONSE with status 0 and address `a`, returns 0 and leaves the
instance OMX_CONNECTED with `dst = a`; the request is the first kernel call. -/
theorem connect_success (omx : rpmsg_omx_instance) (rpdev : rpmsg_channel)
    (omxname : List Nat) (pre post : List async_ev) (data : Nat → Nat) (len : Int)
    (alloc_ok : Bool) (fin : wait_end) (left a : Nat)
    (hs : omx.state = OMX_UNCONNECTED) (h0 : omx.reply_arrived = 0)
    (hpre : ∀ ev ∈ pre, no_reply ev) (hrsp : is_conn_rsp data len 0 a) :
    (rpmsg_omx_connect omx rpdev omxname 0
        (pre ++ async_ev.rx data len alloc_ok :: post) fin left).ret = 0 ∧
    (rpmsg_omx_connect omx rpdev omxname 0
        (pre ++ async_ev.rx data len alloc_ok :: post) fin left).omx.state = OMX_CONNECTED ∧
    (rpmsg_omx_connect omx rpdev omxname 0
        (pre ++ async_ev.rx data len alloc_ok :: post) fin left).omx.dst = a ∧
    (rpmsg_omx_connect omx rpdev omxname 0
        (pre ++ async_ev.rx data len alloc_ok :: post) fin left).calls.head?
      = some (call.rpmsg_send_offchannel omx.ept rpdev.dst (connect_msg omxname)) := by
  obtain ⟨omx1, calls1, e1, e2, e3, e4, e5⟩ :=
    completion_sleep_no_reply left fin (async_ev.rx data len alloc_ok :: post) pre omx h0 hpre
  have hcb := rpmsg_omx_cb_conn_rsp omx1 data len alloc_ok 0 a hrsp
  have hw : completion_sleep left fin omx1 (async_ev.rx data len alloc_ok :: post) =
      ⟨if left = 0 then 1 else (left : Int),
       { omx1 with dst := a, state := OMX_CONNECTED, reply_arrived := 0 },
       [call.complete omx1.ept]⟩ := by
    simp [completion_sleep, deliver, hcb, e3, e1, hs, completion_complete]
  rw [hw] at e5
  simp [rpmsg_omx_connect, hs, wait_for_completion_interruptible_timeout, h0, e5]

theorem connect_success_witness :
    (rpmsg_omx_connect (fresh 1024) ⟨[], 1024, 60⟩ [111, 109, 120, 0] 0
        ([async_ev.rx (rx_msg OMX_RAW_MSG 4 [1, 2, 3, 4]) 16 true] ++
          async_ev.rx (rx_msg OMX_CONN_RSP 8 (put_le32 0 ++ put_le32 66)) 20 true :: [])
        wait_end.timeout 7).ret = 0 ∧
    (rpmsg_omx_connect (fresh 1024) ⟨[], 1024, 60⟩ [111, 109, 120, 0] 0
        ([async_ev.rx (rx_msg OMX_RAW_MSG 4 [1, 2, 3, 4]) 16 true] ++
          async_ev.rx (rx_msg OMX_CONN_RSP 8 (put_le32 0 ++ put_le32 66)) 20 true :: [])
        wait_end.timeout 7).omx.state = OMX_CONNECTED ∧
    (rpmsg_omx_connect (fresh 1024) ⟨[], 1024, 60⟩ [111, 109, 120, 0] 0
        ([async_ev.rx (rx_msg OMX_RAW_MSG 4 [1, 2, 3, 4]) 16 true] ++
          async_ev.rx (rx_msg OMX_CONN_RSP 8 (put_le32 0 ++ put_le32 66)) 20 true :: [])
        wait_end.timeout 7).omx.dst = 66 ∧
    (rpmsg_omx_connect (fresh 1024) ⟨[], 1024, 60⟩ [111, 109, 120, 0] 0
        ([async_ev.rx (rx_msg OMX_RAW_MSG 4 [1, 2, 3, 4]) 16 true] ++
          async_ev.rx (rx_msg OMX_CONN_RSP 8 (put_le32 0 ++ put_le32 66)) 20 true :: [])
        wait_end.timeout 7).calls.head?
      = some (call.rpmsg_send_offchannel (fresh 1024).ept
          (⟨[], 1024, 60⟩ : rpmsg_channel).dst (connect_msg [111, 109, 120, 0])) :=
  connect_success (fresh 1024) ⟨[], 1024, 60⟩ [111, 109, 120, 0]
    [async_ev.rx (rx_msg OMX_RAW_MSG 4 [1, 2, 3, 4]) 16 true] []
    (rx_msg OMX_CONN_RSP 8 (put_le32 0 ++ put_le32 66)) 20 true wait_end.timeout 7 66
    rfl rfl
    (by
      intro ev hev
      rw [List.mem_singleton] at hev
      subst hev
      unfold no_reply is_reply
      decide)
    (by unfold is_conn_rsp; decide)

/-- C4: on an instance that is OMX_UNCONNECTED with no completion pending, a
connect call whose request is sent and whose wait sees no connect response,
no crash and no signal before the timeout returns -ETIMEDOUT and leaves the
instance OMX_UNCONNECTED with `dst` unchanged. -/
theorem connect_timeout (omx : rpmsg_omx_instance) (rpdev : rpmsg_channel)
    (omxname : List Nat) (during : List async_ev) (left : Nat)
    (hs : omx.state = OMX_UNCONNECTED) (h0 : omx.reply_arrived = 0)
    (hq : ∀ ev ∈ during, no_reply ev) :
    (rpmsg_omx_connect omx rpdev omxname 0 during wait_end.timeout left).ret
      = - ETIMEDOUT ∧
    (rpmsg_omx_connect omx rpdev omxname 0 during wait_end.timeout left).omx.state
      = OMX_UNCONNECTED ∧
    (rpmsg_omx_connect omx rpdev omxname 0 during wait_end.timeout left).omx.dst
      = omx.dst := by
  obtain ⟨omx1, calls1, e1, e2, e3, e4, e5⟩ :=
    completion_sleep_no_reply left wait_end.timeout [] during omx h0 hq
  rw [List.append_nil] at e5
  simp [rpmsg_omx_connect, hs, wait_for_completion_interruptible_timeout, h0, e5,
    completion_sleep, e1, e2]

theorem connect_timeout_witness :
    (rpmsg_omx_connect (fresh 1024) ⟨[], 1024, 60⟩ [111, 109, 120, 0] 0
        [async_ev.rx (rx_msg OMX_RAW_MSG 4 [1, 2, 3, 4]) 16 true]
        wait_end.timeout 0).ret = - ETIMEDOUT ∧
    (rpmsg_omx_connect (fresh 1024) ⟨[], 1024, 60⟩ [111, 109, 120, 0] 0
        [async_ev.rx (rx_msg OMX_RAW_MSG 4 [1, 2, 3, 4]) 16 true]
        wait_end.timeout 0).omx.state = OMX_UNCONNECTED ∧
    (rpmsg_omx_connect (fresh 1024) ⟨[], 1024, 60⟩ [111, 109, 120, 0] 0
        [async_ev.rx (rx_msg OMX_RAW_MSG 4 [1, 2, 3, 4]) 16 true]
        wait_end.timeout 0).omx.dst = (fresh 1024).dst :=
  connect_timeout (fresh 1024) ⟨[], 1024, 60⟩ [111, 109, 120, 0]
    [async_ev.rx (rx_msg OMX_RAW_MSG 4 [1, 2, 3, 4]) 16 true] 0 rfl rfl
    (by
      intro ev hev
      rw [List.mem_singleton] at hev
      subst hev
      unfold no_reply is_reply
      decide)

/-- C5: on an instance that is OMX_UNCONNECTED with no completion pending, a
connect call whose request is sent and whose wait sees, after any messages
that are not connect responses, a well-formed CONNECT_RESPONSE with a
non-zero status returns -ENXIO (an error, not 0), leaves the instance in
OMX_FAIL, and `complete(&omx->reply_arrived)` has been called. -/
theorem connect_refused (omx : rpmsg_omx_instance) (rpdev : rpmsg_channel)
    (omxname : List Nat) (pre post : List async_ev) (data : Nat → Nat) (len : Int)
    (alloc_ok : Bool) (fin : wait_end) (left status a : Nat)
    (hs : omx.state = OMX_UNCONNECTED) (h0 : omx.reply_arrived = 0)
    (hpre : ∀ ev ∈ pre, no_reply ev) (hstatus : status ≠ 0)
    (hrsp : is_conn_rsp data len status a) :
    (rpmsg_omx_connect omx rpdev omxname 0
        (pre ++ async_ev.rx data len alloc_ok :: post) fin left).ret = - ENXIO ∧
    (rpmsg_omx_connect omx rpdev omxname 0
        (pre ++ async_ev.rx data len alloc_ok :: post) fin left).ret ≠ 0 ∧
    (rpmsg_omx_connect omx rpdev omxname 0
        (pre ++ async_ev.rx data len alloc_ok :: post) fin left).omx.state = OMX_FAIL ∧
    call.complete omx.ept ∈
      (rpmsg_omx_connect omx rpdev omxname 0
        (pre ++ async_ev.rx data len alloc_ok :: post) fin left).calls := by
  obtain ⟨omx1, calls1, e1, e2, e3, e4, e5⟩ :=
    completion_sleep_no_reply left fin (async_ev.rx data len alloc_ok :: post) pre omx h0 hpre
  have hcb := rpmsg_omx_cb_conn_rsp omx1 data len alloc_ok status a hrsp
  have hw : completion_sleep left fin omx1 (async_ev.rx data len alloc_ok :: post) =
      ⟨if left = 0 then 1 else (left : Int),
       { omx1 with dst := a, state := OMX_FAIL, reply_arrived := 0 },
       [call.complete omx1.ept]⟩ := by
    simp [completion_sleep, deliver, hcb, e3, hstatus, completion_complete]
  rw [hw] at e5
  simp [rpmsg_omx_connect, hs, wait_for_completion_interruptible_timeout, h0, e5, e4, ENXIO]

theorem connect_refused_witness :
    (rpmsg_omx_connect (fresh 1024) ⟨[], 1024, 60⟩ [111, 109, 120, 0] 0
        ([] ++ async_ev.rx (rx_msg OMX_CONN_RSP 8 (put_le32 2 ++ put_le32 0)) 20 true :: [])
        wait_end.timeout 7).ret = - ENXIO ∧
    (rpmsg_omx_connect (fresh 1024) ⟨[], 1024, 60⟩ [111, 109, 120, 0] 0
        ([] ++ async_ev.rx (rx_msg OMX_CONN_RSP 8 (put_le32 2 ++ put_le32 0)) 20 true :: [])
        wait_end.timeout 7).ret ≠ 0 ∧
    (rpmsg_omx_connect (fresh 1024) ⟨[], 1024, 60⟩ [111, 109, 120, 0] 0
        ([] ++ async_ev.rx (rx_msg OMX_CONN_RSP 8 (put_le32 2 ++ put_le32 0)) 20 true :: [])
        wait_end.timeout 7).omx.state = OMX_FAIL ∧
    call.complete (fresh 1024).ept ∈
      (rpmsg_omx_connect (fresh 1024) ⟨[], 1024, 60⟩ [111, 109, 120, 0] 0
        ([] ++ async_ev.rx (rx_msg OMX_CONN_RSP 8 (put_le32 2 ++ put_le32 0)) 20 true :: [])
        wait_end.timeout 7).calls :=
  connect_refused (fresh 1024) ⟨[], 1024, 60⟩ [111, 109, 120, 0] [] []
    (rx_msg OMX_CONN_RSP 8 (put_le32 2 ++ put_le32 0)) 20 true wait_end.timeout 7 2 0
    rfl rfl (by intro ev hev; cases hev) (by decide)
    (by unfold is_conn_rsp; decide)

/-! ## write -/

theorem kbuf_init_length (stack : Nat → Nat) : (kbuf_init stack).length = 512 := by
  simp [kbuf_init]

theorem frame_length (K ubuf : List Nat) (use : Nat) (hK : K.length = 512)
    (hu : use ≤ ubuf.length) (h500 : use ≤ 512 - sizeof_hdr) :
    (K.take sizeof_hdr ++ ubuf.take use ++ K.drop (sizeof_hdr + use)).length = 512 := by
  rw [List.length_append, List.length_append, List.length_take, List.length_take,
    List.length_drop, hK]
  unfold sizeof_hdr at *
  omega

theorem frame_getD (K ubuf : List Nat) (use k : Nat) (hK : K.length = 512)
    (hu : use ≤ ubuf.length) (hk : k < use) :
    (K.take sizeof_hdr ++ ubuf.take use ++ K.drop (sizeof_hdr + use)).getD (sizeof_hdr + k) 0
      = ubuf.getD k 0 := by
  have hl : (K.take sizeof_hdr).length = sizeof_hdr := by
    rw [List.length_take, hK]; unfold sizeof_hdr; omega
  have h1 : k < (ubuf.take use).length := by
    rw [List.length_take]; omega
  rw [List.append_assoc, List.getD_eq_getElem?_getD, List.getD_eq_getElem?_getD,
    List.getElem?_append_right (by omega), hl, Nat.add_sub_cancel_left,
    List.getElem?_append_left h1, List.getElem?_take_of_lt hk]

theorem frame_maptype (K ubuf : List Nat) (use : Nat) (hK : K.length = 512)
    (hu : use ≤ ubuf.length) (h24 : sizeof_omx_packet + 4 ≤ use)
    (h500 : use ≤ 512 - sizeof_hdr) :
    load32 (K.take sizeof_hdr ++ ubuf.take use ++ K.drop (sizeof_hdr + use))
        ((sizeof_hdr + sizeof_omx_packet : Nat) : Int)
      = some (get_le32 (fun k => ubuf.getD k 0) sizeof_omx_packet) := by
  unfold load32
  rw [frame_length K ubuf use hK hu h500, if_pos (by unfold sizeof_hdr sizeof_omx_packet; omega)]
  unfold sizeof_omx_packet at h24
  unfold get_le32
  rw [Int.toNat_ofNat]
  simp only [Nat.add_assoc]
  rw [frame_getD K ubuf use sizeof_omx_packet hK hu (by unfold sizeof_omx_packet; omega),
    frame_getD K ubuf use (sizeof_omx_packet + 1) hK hu (by unfold sizeof_omx_packet; omega),
    frame_getD K ubuf use (sizeof_omx_packet + 2) hK hu (by unfold sizeof_omx_packet; omega),
    frame_getD K ubuf use (sizeof_omx_packet + 3) hK hu (by unfold sizeof_omx_packet; omega)]

theorem rpmsg_omx_map_buf_none (e : ion_env) (omx : rpmsg_omx_instance) (mem : List Nat)
    (packet : Nat)
    (h : load32 mem ((packet + sizeof_omx_packet : Nat) : Int) = some 0) :
    _rpmsg_omx_map_buf e omx mem packet = some (0, mem) := by
  unfold _rpmsg_omx_map_buf
  simp only [h, if_true]

theorem rpmsg_omx_write_calls (e : ion_env) (omx : rpmsg_omx_instance) (ubuf : List Nat)
    (len : Nat) (stack : Nat → Nat) (send_ret : Int) (r : io_result)
    (h : rpmsg_omx_write e omx ubuf len stack send_ret = some r) :
    r.calls = [] ∨
      (omx.state = OMX_CONNECTED ∧
        ∃ msg : List Nat, msg.length ≤ min (512 - sizeof_hdr) len + sizeof_hdr ∧
          r.calls = [call.rpmsg_send_offchannel omx.ept omx.dst msg]) := by
  unfold rpmsg_omx_write at h
  by_cases h1 : omx.state = OMX_UNCONNECTED
  · rw [if_pos h1] at h
    rw [← Option.some.inj h]; exact Or.inl rfl
  · rw [if_neg h1] at h
    dsimp only at h
    by_cases h2 : ubuf.length < min (512 - sizeof_hdr) len
    · rw [if_pos h2] at h
      rw [← Option.some.inj h]; exact Or.inl rfl
    · rw [if_neg h2] at h
      revert h
      generalize _rpmsg_omx_map_buf e omx _ _ = m
      cases m with
      | none => intro h; exact Option.noConfusion h
      | some m =>
        intro h
        dsimp only at h
        have hc : omx.state ≠ OMX_FAIL → omx.state = OMX_CONNECTED := by
          intro h3
          cases hst : omx.state with
          | OMX_UNCONNECTED => exact absurd hst h1
          | OMX_CONNECTED => rfl
          | OMX_FAIL => exact absurd hst h3
        split_ifs at h with h3 h4 h5
        · rw [← Option.some.inj h]; exact Or.inl rfl
        · rw [← Option.some.inj h]; exact Or.inl rfl
        · rw [← Option.some.inj h]
          exact Or.inr ⟨hc h4, _, List.length_take_le _ _, rfl⟩
        · rw [← Option.some.inj h]
          exact Or.inr ⟨hc h4, _, List.length_take_le _ _, rfl⟩

/-- C7 (amended): a write of more than 500 bytes (512 minus the header) on an
OMX_CONNECTED instance is not rejected for its length.  It is carried out
exactly as a write of 500 bytes from the same buffer: the payload is cut to
its first 500 bytes.  The instance is unchanged, and what is sent is nothing
or one message of at most 512 bytes; when the first 500 bytes are readable,
their map type is RPC_OMX_MAP_INFO_NONE and the send succeeds, the write
sends the 512-byte OMX_RAW_MSG frame holding those 500 bytes and returns
500. -/
theorem write_truncates_oversize_payload (e : ion_env) (omx : rpmsg_omx_instance)
    (ubuf : List Nat) (len : Nat) (stack : Nat → Nat) (send_ret : Int)
    (hc : omx.state = OMX_CONNECTED) (hlen : 512 - sizeof_hdr < len) :
    rpmsg_omx_write e omx ubuf len stack send_ret
      = rpmsg_omx_write e omx ubuf (512 - sizeof_hdr) stack send_ret ∧
    (∀ r, rpmsg_omx_write e omx ubuf len stack send_ret = some r →
      r.omx = omx ∧
      (r.calls = [] ∨ ∃ msg : List Nat, msg.length ≤ 512 ∧
        r.calls = [call.rpmsg_send_offchannel omx.ept omx.dst msg])) ∧
    (512 - sizeof_hdr ≤ ubuf.length →
      get_le32 (fun k => ubuf.getD k 0) sizeof_omx_packet = 0 →
      rpmsg_omx_write e omx ubuf len stack 0
        = some ⟨500, omx, [call.rpmsg_send_offchannel omx.ept omx.dst
            (put_le32 OMX_RAW_MSG ++ put_le32 0 ++ put_le32 500 ++ ubuf.take 500)]⟩) := by
  have hmin : min (512 - sizeof_hdr) len = 512 - sizeof_hdr := Nat.min_eq_left (le_of_lt hlen)
  refine ⟨?_, ?_, ?_⟩
  · unfold rpmsg_omx_write
    rw [hmin, Nat.min_self]
  · intro r hr
    refine ⟨rpmsg_omx_write_omx e omx ubuf len stack send_ret r hr, ?_⟩
    rcases rpmsg_omx_write_calls e omx ubuf len stack send_ret r hr with h | ⟨_, msg, hm, hcalls⟩
    · exact Or.inl h
    · refine Or.inr ⟨msg, ?_, hcalls⟩
      rw [hmin] at hm
      unfold sizeof_hdr at hm
      omega
  · intro hu hz
    have hK := kbuf_init_length stack
    have hmap := rpmsg_omx_map_buf_none e omx _ sizeof_hdr
      ((frame_maptype (kbuf_init stack) ubuf (512 - sizeof_hdr) hK hu
        (by unfold sizeof_omx_packet sizeof_hdr; omega) (le_refl _)).trans (by rw [hz]))
    unfold rpmsg_omx_write
    rw [if_neg (by rw [hc]; decide), hmin]
    dsimp only
    rw [if_neg (by omega), hmap]
    dsimp only
    rw [if_neg (by decide), if_neg (by rw [hc]; decide), if_neg (by decide)]
    have hl : ((kbuf_init stack).take sizeof_hdr).length = sizeof_hdr := by
      rw [List.length_take, hK]; unfold sizeof_hdr; omega
    have hd : (kbuf_init stack).drop (sizeof_hdr + (512 - sizeof_hdr)) = [] := by
      apply List.drop_eq_nil_of_le
      rw [hK]; unfold sizeof_hdr; omega
    have hU : (ubuf.take (512 - sizeof_hdr)).length = 500 := by
      rw [List.length_take]; unfold sizeof_hdr at *; omega
    rw [hd, List.append_nil, List.drop_left' hl]
    have h500 : (512 - sizeof_hdr) = 500 := by unfold sizeof_hdr; rfl
    rw [List.take_of_length_le (by
      rw [List.length_append, hU]
      simp only [put_le32, List.length_append, List.length_cons, List.length_nil, sizeof_hdr]
      omega)]
    rw [h500]
    rfl


set_option maxRecDepth 100000 in
/-- C7 (counterexample): a write of 600 zero bytes on an OMX_CONNECTED instance
(local endpoint 1024, `dst` 66) is not rejected: it returns 500 and sends a
512-byte frame, the header followed by the first 500 payload bytes. -/
theorem write_oversize_is_sent :
    (rpmsg_omx_write no_ion { fresh 1024 with state := OMX_CONNECTED, dst := 66 }
        (List.replicate 600 0) 600 (fun _ => 0) 0).map (fun r => (r.ret, r.calls))
      = some (500, [call.rpmsg_send_offchannel 1024 66
          (put_le32 OMX_RAW_MSG ++ put_le32 0 ++ put_le32 500 ++ List.replicate 500 0)]) := by
  decide

theorem write_truncates_oversize_payload_witness :
    rpmsg_omx_write no_ion { fresh 1024 with state := OMX_CONNECTED, dst := 66 }
        (List.replicate 600 7) 600 (fun _ => 0) 0
      = rpmsg_omx_write no_ion { fresh 1024 with state := OMX_CONNECTED, dst := 66 }
        (List.replicate 600 7) (512 - sizeof_hdr) (fun _ => 0) 0 :=
  (write_truncates_oversize_payload no_ion
    { fresh 1024 with state := OMX_CONNECTED, dst := 66 } (List.replicate 600 7) 600
    (fun _ => 0) 0 rfl (by decide)).1

/-! ## read and write on a failed instance -/

/-- C8 (counterexample): a non-blocking read on an OMX_FAIL instance with an
empty queue returns -EAGAIN, not -ENXIO. -/
theorem read_failed_nonblock_empty_is_eagain :
    (rpmsg_omx_read { fresh 1024 with state := OMX_FAIL } true 16 true [] false).ret
      = some (- EAGAIN) ∧ - EAGAIN ≠ - ENXIO := by
  decide

/-- C8 (amended): on an OMX_FAIL instance every read returns at once, removes
nothing from the queue, makes no kernel call and copies no byte; it returns
-EAGAIN when it is non-blocking and the queue is empty, and -ENXIO in every
other case (blocking or not, queue empty or not). -/
theorem read_when_failed (omx : rpmsg_omx_instance) (nonblock : Bool) (len : Nat)
    (copy_ok : Bool) (during : List async_ev) (signalled : Bool)
    (h : omx.state = OMX_FAIL) :
    rpmsg_omx_read omx nonblock len copy_ok during signalled
      = ⟨some (if nonblock = true ∧ omx.queue = [] then - EAGAIN else - ENXIO),
         omx, [], []⟩ := by
  unfold rpmsg_omx_read wait_event_interruptible rpmsg_omx_read_dequeue
  by_cases hq : omx.queue = [] <;> cases nonblock <;> simp [h, hq]

theorem read_when_failed_witness :
    rpmsg_omx_read { fresh 1024 with state := OMX_FAIL, queue := [[1, 2, 3]] } false 16 true
        [async_ev.crash] false
      = ⟨some (if false = true ∧
            ({ fresh 1024 with state := OMX_FAIL, queue := [[1, 2, 3]] } :
              rpmsg_omx_instance).queue = [] then - EAGAIN else - ENXIO),
         { fresh 1024 with state := OMX_FAIL, queue := [[1, 2, 3]] }, [], []⟩ :=
  read_when_failed { fresh 1024 with state := OMX_FAIL, queue := [[1, 2, 3]] } false 16 true
    [async_ev.crash] false rfl

theorem buffer_lookup_failed (e : ion_env) (omx : rpmsg_omx_instance) (buffer : Nat)
    (h : omx.state = OMX_FAIL) :
    (_rpmsg_omx_buffer_lookup e omx buffer).1 = 0 ∨
    (_rpmsg_omx_buffer_lookup e omx buffer).1 = - EIO ∨
    (_rpmsg_omx_buffer_lookup e omx buffer).1 = - ENXIO := by
  unfold _rpmsg_omx_buffer_lookup _rpmsg_pa_to_da
  split
  · simp [h]
  · split_ifs
    · split
      · split_ifs <;> simp
      · simp
    · simp

theorem map_buf_next_failed (e : ion_env) (omx : rpmsg_omx_instance) (mem : List Nat)
    (slot : Int) (r : Int × List Nat) (h : omx.state = OMX_FAIL)
    (hr : map_buf_next e omx mem slot = some r) :
    r.1 = 0 ∨ r.1 = - EIO ∨ r.1 = - ENXIO := by
  unfold map_buf_next at hr
  split at hr
  · exact Option.noConfusion hr
  · split_ifs at hr
    · rw [← Option.some.inj hr]
      exact buffer_lookup_failed e omx _ h
    · rw [← Option.some.inj hr]
      exact Or.inl rfl

theorem rpmsg_omx_map_buf_failed (e : ion_env) (omx : rpmsg_omx_instance) (mem : List Nat)
    (packet : Nat) (r : Int × List Nat) (h : omx.state = OMX_FAIL)
    (hr : _rpmsg_omx_map_buf e omx mem packet = some r) :
    r.1 = 0 ∨ r.1 = - EINVAL ∨ r.1 = - EIO ∨ r.1 = - ENXIO := by
  unfold _rpmsg_omx_map_buf at hr
  dsimp only at hr
  split at hr
  · exact Option.noConfusion hr
  · split_ifs at hr
    · rw [← Option.some.inj hr]; exact Or.inl rfl
    · rw [← Option.some.inj hr]; exact Or.inr (Or.inl rfl)
    · split at hr
      · exact Option.noConfusion hr
      · split at hr
        · exact Option.noConfusion hr
        · next b _ =>
          have hl := buffer_lookup_failed e omx b h
          split at hr
          · exact Option.noConfusion hr
          · next s2 hs2 =>
            have h2 : s2.1 = 0 ∨ s2.1 = - EIO ∨ s2.1 = - ENXIO := by
              split_ifs at hs2 <;>
                first
                | exact map_buf_next_failed e omx _ _ s2 h hs2
                | (rw [← Option.some.inj hs2]; exact hl)
            split_ifs at hr
            · rcases map_buf_next_failed e omx _ _ r h hr with h3 | h3 | h3
              · exact Or.inl h3
              · exact Or.inr (Or.inr (Or.inl h3))
              · exact Or.inr (Or.inr (Or.inr h3))
            · rw [← Option.some.inj hr]
              rcases h2 with h3 | h3 | h3
              · exact Or.inl h3
              · exact Or.inr (Or.inr (Or.inl h3))
              · exact Or.inr (Or.inr (Or.inr h3))

set_option maxRecDepth 100000 in
/-- C9 (counterexample): a write on an OMX_FAIL instance whose payload carries
the map type 7 returns -EINVAL, not -ENXIO (and sends nothing). -/
theorem write_failed_bad_maptype_is_einval :
    (rpmsg_omx_write no_ion { fresh 1024 with state := OMX_FAIL }
        (List.replicate 20 0 ++ [7, 0, 0, 0]) 24 (fun _ => 0) 0).map
          (fun r => (r.ret, r.calls))
      = some (- EINVAL, []) ∧ - EINVAL ≠ - ENXIO := by
  decide

/-- C9 (amended): on an OMX_FAIL instance a write never calls into the channel
and never succeeds.  Whatever the payload, a write that returns has made no
kernel call, left the instance unchanged and returned -EFAULT (payload not
readable), -EINVAL (map type outside 0..3), -EIO (a reference that is not a
registered wrapper with a page table) or -ENXIO; and it returns -ENXIO
whenever the payload is readable, at least 24 bytes long and of map type
RPC_OMX_MAP_INFO_NONE. -/
theorem write_when_failed (e : ion_env) (omx : rpmsg_omx_instance) (ubuf : List Nat)
    (len : Nat) (stack : Nat → Nat) (send_ret : Int) (h : omx.state = OMX_FAIL) :
    (∀ r, rpmsg_omx_write e omx ubuf len stack send_ret = some r →
      r.calls = [] ∧ r.omx = omx ∧
      (r.ret = - EFAULT ∨ r.ret = - EINVAL ∨ r.ret = - EIO ∨ r.ret = - ENXIO)) ∧
    (min (512 - sizeof_hdr) len ≤ ubuf.length → sizeof_omx_packet + 4 ≤ len →
      get_le32 (fun k => ubuf.getD k 0) sizeof_omx_packet = 0 →
      rpmsg_omx_write e omx ubuf len stack send_ret = some ⟨- ENXIO, omx, []⟩) := by
  constructor
  · intro r hr
    refine ⟨?_, rpmsg_omx_write_omx e omx ubuf len stack send_ret r hr, ?_⟩
    · rcases rpmsg_omx_write_calls e omx ubuf len stack send_ret r hr with hc | ⟨hc, _⟩
      · exact hc
      · rw [h] at hc; exact absurd hc (by decide)
    · unfold rpmsg_omx_write at hr
      rw [if_neg (by rw [h]; decide)] at hr
      dsimp only at hr
      by_cases h2 : ubuf.length < min (512 - sizeof_hdr) len
      · rw [if_pos h2] at hr
        rw [← Option.some.inj hr]; exact Or.inl rfl
      · rw [if_neg h2] at hr
        revert hr
        cases hm : _rpmsg_omx_map_buf e omx _ _ with
        | none => intro hr; exact Option.noConfusion hr
        | some m =>
          intro hr
          dsimp only at hr
          have hmap := rpmsg_omx_map_buf_failed e omx _ _ m h hm
          by_cases h3 : m.1 < 0
          · rw [if_pos h3] at hr
            rw [← Option.some.inj hr]
            rcases hmap with h4 | h4 | h4 | h4
            · rw [h4] at h3; exact absurd h3 (by decide)
            · exact Or.inr (Or.inl h4)
            · exact Or.inr (Or.inr (Or.inl h4))
            · exact Or.inr (Or.inr (Or.inr h4))
          · rw [if_neg h3, if_pos h] at hr
            rw [← Option.some.inj hr]
            exact Or.inr (Or.inr (Or.inr rfl))
  · intro hu h24 hz
    have hK := kbuf_init_length stack
    have huse : sizeof_omx_packet + 4 ≤ min (512 - sizeof_hdr) len := by
      unfold sizeof_omx_packet sizeof_hdr at *
      omega
    have hmap := rpmsg_omx_map_buf_none e omx _ sizeof_hdr
      ((frame_maptype (kbuf_init stack) ubuf (min (512 - sizeof_hdr) len) hK hu huse
        (Nat.min_le_left _ _)).trans (by rw [hz]))
    unfold rpmsg_omx_write
    rw [if_neg (by rw [h]; decide)]
    dsimp only
    rw [if_neg (by omega), hmap]
    dsimp only
    rw [if_neg (by decide), if_pos h]

set_option maxRecDepth 100000 in
theorem write_when_failed_witness :
    rpmsg_omx_write no_ion { fresh 1024 with state := OMX_FAIL }
        (List.replicate 24 0) 24 (fun _ => 255) 0
      = some ⟨- ENXIO, { fresh 1024 with state := OMX_FAIL }, []⟩ :=
  (write_when_failed no_ion { fresh 1024 with state := OMX_FAIL } (List.replicate 24 0) 24
    (fun _ => 255) 0 rfl).2 (by decide) (by decide) (by decide)

/-! ## remote-processor loss -/

theorem rpmsg_omx_remove_list_fst (l : List rpmsg_omx_instance) :
    (rpmsg_omx_remove_list l).1 =
      l.map (fun omx => { omx with state := OMX_FAIL,
                                   reply_arrived := completion_complete_all omx.reply_arrived }) := by
  induction l with
  | nil => rfl
  | cons omx rest ih =>
    simp only [rpmsg_omx_remove_list, rpmsg_omx_remove_entry, List.map_cons, ih]

theorem rpmsg_omx_remove_list_calls (l : List rpmsg_omx_instance) (omx : rpmsg_omx_instance)
    (h : omx ∈ l) :
    call.complete_all omx.ept ∈ (rpmsg_omx_remove_list l).2 ∧
    call.wake_up_interruptible omx.ept ∈ (rpmsg_omx_remove_list l).2 ∧
    call.rpmsg_destroy_ept omx.ept ∈ (rpmsg_omx_remove_list l).2 := by
  induction l with
  | nil => cases h
  | cons o rest ih =>
    simp only [rpmsg_omx_remove_list, rpmsg_omx_remove_entry]
    rcases List.mem_cons.mp h with h1 | h1
    · subst h1
      simp
    · obtain ⟨a, b, c⟩ := ih h1
      simp [a, b, c]

theorem find_after_crash (minor : Nat) (g : rpmsg_omx_service → rpmsg_omx_service)
    (hg : ∀ s, (g s).minor = s.minor) :
    ∀ (services : List rpmsg_omx_service) (omxserv : rpmsg_omx_service),
      services.find? (fun s => s.minor = minor) = some omxserv →
      (services.map (fun s => if s.minor = minor then g s else s)).find?
          (fun s => s.minor = minor) = some (g omxserv) := by
  intro services
  induction services with
  | nil => intro omxserv h; cases h
  | cons s rest ih =>
    intro omxserv h
    by_cases hs : s.minor = minor
    · have h1 : s = omxserv := by
        simpa [List.find?_cons, hs] using h
      subst h1
      simp [List.find?_cons, hs, hg]
    · have h1 : rest.find? (fun s => s.minor = minor) = some omxserv := by
        simpa [List.find?_cons, hs] using h
      simp [List.find?_cons, hs, ih omxserv h1]

/-- C10: processing the crash notification for a registered service
(`rpmsg_omx_remove` with the remote processor in state RPROC_CRASHED) keeps
the registry (same minors and names, in the same order); the service is still
found under its minor, with its channel NULL and its connection list the old
list, instance by instance, each now in OMX_FAIL with `complete_all` applied
to `reply_arrived`; every instance of the list is OMX_FAIL afterwards, and
for each of them `complete_all`, `wake_up_interruptible` and
`rpmsg_destroy_ept` have been called. -/
theorem remove_on_crash (services : List rpmsg_omx_service) (minor : Nat)
    (omxserv : rpmsg_omx_service)
    (hfind : services.find? (fun s => s.minor = minor) = some omxserv) :
    (rpmsg_omx_remove services minor RPROC_CRASHED).1.map (fun s => (s.minor, s.name))
      = services.map (fun s => (s.minor, s.name)) ∧
    (rpmsg_omx_remove services minor RPROC_CRASHED).1.find? (fun s => s.minor = minor)
      = some { omxserv with
          comp := 0, rpdev := none,
          list := omxserv.list.map (fun omx =>
            { omx with state := OMX_FAIL,
                       reply_arrived := completion_complete_all omx.reply_arrived }) } ∧
    (∀ s ∈ (rpmsg_omx_remove services minor RPROC_CRASHED).1, s.minor = minor →
      s.rpdev = none ∧ ∀ omx ∈ s.list, omx.state = OMX_FAIL) ∧
    (∀ omx ∈ omxserv.list,
      call.complete_all omx.ept ∈ (rpmsg_omx_remove services minor RPROC_CRASHED).2 ∧
      call.wake_up_interruptible omx.ept ∈ (rpmsg_omx_remove services minor RPROC_CRASHED).2 ∧
      call.rpmsg_destroy_ept omx.ept ∈ (rpmsg_omx_remove services minor RPROC_CRASHED).2) := by
  have hrem : rpmsg_omx_remove services minor RPROC_CRASHED =
      (services.map (fun s =>
          if s.minor = minor then
            { s with comp := 0, list := (rpmsg_omx_remove_list s.list).1, rpdev := none }
          else s),
       (rpmsg_omx_remove_list omxserv.list).2) := by
    unfold rpmsg_omx_remove
    rw [hfind]
    simp
  rw [hrem]
  refine ⟨?_, ?_, ?_, ?_⟩
  · rw [List.map_map]
    apply List.map_congr_left
    intro s _
    by_cases hs : s.minor = minor <;> simp [hs]
  · have := find_after_crash minor
      (fun s => { s with comp := 0, list := (rpmsg_omx_remove_list s.list).1, rpdev := none })
      (fun _ => rfl) services omxserv hfind
    rw [this]
    dsimp only
    rw [rpmsg_omx_remove_list_fst]
  · intro s hs hm
    obtain ⟨s0, _, hs0⟩ := List.mem_map.mp hs
    by_cases h0 : s0.minor = minor
    · rw [if_pos h0] at hs0
      subst hs0
      refine ⟨rfl, ?_⟩
      intro omx homx
      simp only [rpmsg_omx_remove_list_fst] at homx
      obtain ⟨o, _, ho⟩ := List.mem_map.mp homx
      rw [← ho]
    · rw [if_neg h0] at hs0
      subst hs0
      exact absurd hm h0
  · intro omx homx
    exact rpmsg_omx_remove_list_calls omxserv.list omx homx

theorem remove_on_crash_witness :
    (rpmsg_omx_remove
        [⟨[111], some ⟨[111], 1024, 60⟩, 0,
          [{ fresh 1025 with state := OMX_CONNECTED, dst := 66 },
           { fresh 1026 with state := OMX_CONNECTED, dst := 67 },
           { fresh 1027 with state := OMX_CONNECTED, dst := 68 }], 1⟩]
        0 RPROC_CRASHED).1.find? (fun s => s.minor = 0)
      = some ⟨[111], none, 0,
          [{ fresh 1025 with state := OMX_FAIL, dst := 66, reply_arrived := 2147483647 },
           { fresh 1026 with state := OMX_FAIL, dst := 67, reply_arrived := 2147483647 },
           { fresh 1027 with state := OMX_FAIL, dst := 68, reply_arrived := 2147483647 }],
          0⟩ :=
  (remove_on_crash
    [⟨[111], some ⟨[111], 1024, 60⟩, 0,
      [{ fresh 1025 with state := OMX_CONNECTED, dst := 66 },
       { fresh 1026 with state := OMX_CONNECTED, dst := 67 },
       { fresh 1027 with state := OMX_CONNECTED, dst := 68 }], 1⟩]
    0 _ rfl).2.1


/-! ## the delivery queue -/

theorem rpmsg_omx_cb_no_data (omx : rpmsg_omx_instance) (data : Nat → Nat) (len : Int)
    (alloc_ok : Bool) (h : ¬ is_data data len alloc_ok) :
    (rpmsg_omx_cb omx data len alloc_ok).1.queue = omx.queue := by
  unfold is_data at h
  unfold rpmsg_omx_cb
  simp only []
  split_ifs <;> simp_all

theorem rpmsg_omx_remove_entry_queue (omx : rpmsg_omx_instance) :
    (rpmsg_omx_remove_entry omx).1.queue = omx.queue := by
  cases omx
  rfl

theorem deliver_no_data (omx : rpmsg_omx_instance) (ev : async_ev) (h : no_data ev) :
    (deliver omx ev).1.queue = omx.queue := by
  cases ev with
  | rx data len alloc_ok =>
    have h1 : ¬ is_data data len alloc_ok := by
      unfold no_data at h
      exact h
    exact rpmsg_omx_cb_no_data omx data len alloc_ok h1
  | crash => exact rpmsg_omx_remove_entry_queue omx

theorem readq_sleep_crash (signalled : Bool) (post : List async_ev) :
    ∀ (pre : List async_ev) (omx : rpmsg_omx_instance),
      omx.queue = [] → (∀ ev ∈ pre, no_data ev) →
      (readq_sleep signalled omx (pre ++ async_ev.crash :: post)).1 = some 0 ∧
      (readq_sleep signalled omx (pre ++ async_ev.crash :: post)).2.1.queue = [] ∧
      (readq_sleep signalled omx (pre ++ async_ev.crash :: post)).2.1.state = OMX_FAIL := by
  intro pre
  induction pre with
  | nil =>
    intro omx hq _
    have hq1 : (deliver omx async_ev.crash).1.queue = [] := by
      rw [deliver_no_data omx async_ev.crash trivial, hq]
    have hs1 : (deliver omx async_ev.crash).1.state = OMX_FAIL := rfl
    rw [List.nil_append]
    simp only [readq_sleep]
    rw [if_pos (Or.inr hs1)]
    exact ⟨rfl, hq1, hs1⟩
  | cons ev es ih =>
    intro omx hq hpre
    have hev : no_data ev := hpre ev (List.mem_cons_self _ _)
    have hes : ∀ x ∈ es, no_data x := fun x hx => hpre x (List.mem_cons_of_mem _ hx)
    have hq1 : (deliver omx ev).1.queue = [] := by rw [deliver_no_data omx ev hev, hq]
    rw [List.cons_append]
    simp only [readq_sleep]
    by_cases hc : (deliver omx ev).1.queue ≠ [] ∨ (deliver omx ev).1.state = OMX_FAIL
    · rw [if_pos hc]
      rcases hc with hc | hc
      · exact absurd hq1 hc
      · exact ⟨rfl, hq1, hc⟩
    · rw [if_neg hc]
      exact ih _ hq1 hes

/-- C11: a blocking read on an OMX_CONNECTED instance with an empty queue, during
whose sleep the crash notification is processed after events that queue
nothing, returns (the sleeper resumes) with -ENXIO; no byte is delivered, the
queue is still empty and the instance is OMX_FAIL. -/
theorem blocked_read_fails_on_crash (omx : rpmsg_omx_instance) (pre post : List async_ev)
    (len : Nat) (copy_ok : Bool) (signalled : Bool)
    (hs : omx.state = OMX_CONNECTED) (hq : omx.queue = [])
    (hpre : ∀ ev ∈ pre, no_data ev) :
    (rpmsg_omx_read omx false len copy_ok (pre ++ async_ev.crash :: post) signalled).ret
      = some (- ENXIO) ∧
    (rpmsg_omx_read omx false len copy_ok (pre ++ async_ev.crash :: post) signalled).buf
      = [] ∧
    (rpmsg_omx_read omx false len copy_ok (pre ++ async_ev.crash :: post) signalled).omx.queue
      = [] ∧
    (rpmsg_omx_read omx false len copy_ok (pre ++ async_ev.crash :: post) signalled).omx.state
      = OMX_FAIL := by
  obtain ⟨h1, h2, h3⟩ := readq_sleep_crash signalled post pre omx hq hpre
  simp [rpmsg_omx_read, wait_event_interruptible, rpmsg_omx_read_dequeue, hs, hq, h1, h2, h3]

theorem blocked_read_fails_on_crash_witness :
    (rpmsg_omx_read { fresh 1024 with state := OMX_CONNECTED, dst := 66 } false 16 true
      ([async_ev.rx (rx_msg OMX_RAW_MSG 4 [1, 2, 3, 4]) 16 false] ++ async_ev.crash :: [])
      false).ret = some (- ENXIO) ∧
    (rpmsg_omx_read { fresh 1024 with state := OMX_CONNECTED, dst := 66 } false 16 true
      ([async_ev.rx (rx_msg OMX_RAW_MSG 4 [1, 2, 3, 4]) 16 false] ++ async_ev.crash :: [])
      false).buf = [] ∧
    (rpmsg_omx_read { fresh 1024 with state := OMX_CONNECTED, dst := 66 } false 16 true
      ([async_ev.rx (rx_msg OMX_RAW_MSG 4 [1, 2, 3, 4]) 16 false] ++ async_ev.crash :: [])
      false).omx.queue = [] ∧
    (rpmsg_omx_read { fresh 1024 with state := OMX_CONNECTED, dst := 66 } false 16 true
      ([async_ev.rx (rx_msg OMX_RAW_MSG 4 [1, 2, 3, 4]) 16 false] ++ async_ev.crash :: [])
      false).omx.state = OMX_FAIL :=
  blocked_read_fails_on_crash { fresh 1024 with state := OMX_CONNECTED, dst := 66 }
    [async_ev.rx (rx_msg OMX_RAW_MSG 4 [1, 2, 3, 4]) 16 false] [] 16 true false rfl rfl
    (by
      intro ev hev
      rw [List.mem_singleton] at hev
      subst hev
      unfold no_data is_data
      decide)

/-- C13 (counterexample): an instance that has been connected and is now OMX_FAIL,
with one message queued: a blocking read does not dequeue; it returns -ENXIO
and the queue is as before. -/
theorem read_failed_does_not_dequeue :
    (rpmsg_omx_read { fresh 1024 with state := OMX_FAIL, queue := [[1, 2, 3]] } false 16 true
        [] false).ret = some (- ENXIO) ∧
    (rpmsg_omx_read { fresh 1024 with state := OMX_FAIL, queue := [[1, 2, 3]] } false 16 true
        [] false).buf = [] ∧
    (rpmsg_omx_read { fresh 1024 with state := OMX_FAIL, queue := [[1, 2, 3]] } false 16 true
        [] false).omx.queue = [[1, 2, 3]] := by
  decide

/-- C13 (amended): on an OMX_CONNECTED instance whose queue is `skb :: rest`, a
read dequeues at once, blocking or not and whatever would arrive during a
sleep: no kernel call is made, the queue afterwards is `rest` and nothing
else of the instance changes; when the copy to the caller succeeds the read
returns `min(len, skb.length)` (as an `int`) and delivers that many leading
bytes of `skb`, the whole payload when the buffer is large enough. -/
theorem read_connected_dequeues_head (omx : rpmsg_omx_instance) (nonblock : Bool) (len : Nat)
    (copy_ok : Bool) (during : List async_ev) (signalled : Bool)
    (skb : List Nat) (rest : List (List Nat))
    (hs : omx.state = OMX_CONNECTED) (hq : omx.queue = skb :: rest) :
    (rpmsg_omx_read omx nonblock len copy_ok during signalled).omx
      = { omx with queue := rest } ∧
    (rpmsg_omx_read omx nonblock len copy_ok during signalled).calls = [] ∧
    (copy_ok = true →
      (rpmsg_omx_read omx nonblock len copy_ok during signalled).ret
        = some (s32 (min len skb.length)) ∧
      (rpmsg_omx_read omx nonblock len copy_ok during signalled).buf
        = skb.take (min len skb.length) ∧
      (skb.length ≤ len →
        (rpmsg_omx_read omx nonblock len copy_ok during signalled).buf = skb)) := by
  have hr : rpmsg_omx_read omx nonblock len copy_ok during signalled
      = rpmsg_omx_read_dequeue omx len copy_ok [] := by
    unfold rpmsg_omx_read
    rw [if_neg (by rw [hs]; decide), if_neg (by rw [hq]; exact List.cons_ne_nil _ _)]
  have hd : rpmsg_omx_read_dequeue omx len copy_ok []
      = if copy_ok then
          ⟨some (s32 (min len skb.length)), { omx with queue := rest }, [],
            skb.take (min len skb.length)⟩
        else ⟨some (- EFAULT), { omx with queue := rest }, [], []⟩ := by
    unfold rpmsg_omx_read_dequeue
    rw [if_neg (by rw [hs]; decide), hq]
  rw [hr, hd]
  cases copy_ok with
  | false => exact ⟨rfl, rfl, fun h => absurd h (by decide)⟩
  | true =>
    refine ⟨rfl, rfl, fun _ => ⟨rfl, rfl, fun hl => ?_⟩⟩
    show skb.take (min len skb.length) = skb
    rw [Nat.min_eq_right hl, List.take_length]

theorem read_connected_dequeues_head_witness :
    (rpmsg_omx_read { fresh 1024 with state := OMX_CONNECTED, queue := [[1, 2, 3], [4]] }
        true 16 true [] false).omx
      = { ({ fresh 1024 with state := OMX_CONNECTED, queue := [[1, 2, 3], [4]] } :
            rpmsg_omx_instance) with queue := [[4]] } :=
  (read_connected_dequeues_head
    { fresh 1024 with state := OMX_CONNECTED, queue := [[1, 2, 3], [4]] }
    true 16 true [] false [1, 2, 3] [[4]] rfl rfl).1

theorem rpmsg_omx_read_dequeue_success (omx : rpmsg_omx_instance) (len : Nat)
    (copy_ok : Bool) (calls : List call) (r : Int) (hlen : len < 4294967296)
    (hret : (rpmsg_omx_read_dequeue omx len copy_ok calls).ret = some r) (hr : 0 ≤ r) :
    ∃ (skb : List Nat) (rest : List (List Nat)),
      omx.queue = skb :: rest ∧ r = ((min len skb.length : Nat) : Int) ∧
      (rpmsg_omx_read_dequeue omx len copy_ok calls).buf = skb.take (min len skb.length) ∧
      (rpmsg_omx_read_dequeue omx len copy_ok calls).omx.queue = rest := by
  unfold rpmsg_omx_read_dequeue at hret ⊢
  by_cases hf : omx.state = OMX_FAIL
  · rw [if_pos hf] at hret
    have := Option.some.inj hret
    unfold ENXIO at this
    omega
  · rw [if_neg hf] at hret ⊢
    cases hq : omx.queue with
    | nil =>
      rw [hq] at hret
      have := Option.some.inj hret
      unfold EIO at this
      omega
    | cons skb rest =>
      rw [hq] at hret
      refine ⟨skb, rest, rfl, ?_⟩
      cases copy_ok with
      | false =>
        have := Option.some.inj hret
        unfold EFAULT at this
        omega
      | true =>
        have h1 : s32 (min len skb.length) = r := Option.some.inj hret
        have h2 : min len skb.length < 4294967296 := lt_of_le_of_lt (Nat.min_le_left _ _) hlen
        refine ⟨?_, rfl, rfl⟩
        unfold s32 at h1
        rw [Nat.mod_eq_of_lt h2] at h1
        split_ifs at h1 <;> omega

/-- C14: every read that succeeds (returns `r ≥ 0`) with a caller buffer of `len`
bytes (`len` a `size_t`) took the head `skb` of the queue as it stood when
the reader dequeued (the queue at the call when that was not empty):
`r = min(len, n)` with `n` the payload length of `skb`, the bytes delivered
are the first `min(len, n)` bytes of `skb`, and the queue afterwards is the
rest, so exactly that message is gone and bytes beyond `len` are dropped. -/
theorem read_success_returns_head_prefix (omx : rpmsg_omx_instance) (nonblock : Bool)
    (len : Nat) (copy_ok : Bool) (during : List async_ev) (signalled : Bool) (r : Int)
    (hlen : len < 4294967296)
    (hret : (rpmsg_omx_read omx nonblock len copy_ok during signalled).ret = some r)
    (hr : 0 ≤ r) :
    ∃ (skb : List Nat) (rest : List (List Nat)),
      (wait_event_interruptible omx during signalled).2.1.queue = skb :: rest ∧
      (omx.queue ≠ [] → omx.queue = skb :: rest) ∧
      r = ((min len skb.length : Nat) : Int) ∧
      (rpmsg_omx_read omx nonblock len copy_ok during signalled).buf
        = skb.take (min len skb.length) ∧
      (rpmsg_omx_read omx nonblock len copy_ok during signalled).omx.queue = rest := by
  unfold rpmsg_omx_read at hret ⊢
  by_cases h1 : omx.state = OMX_UNCONNECTED
  · rw [if_pos h1] at hret
    have := Option.some.inj hret
    unfold ENOTCONN at this
    omega
  rw [if_neg h1] at hret ⊢
  by_cases h2 : omx.queue = []
  · rw [if_pos h2] at hret ⊢
    cases nonblock with
    | true =>
      have := Option.some.inj hret
      unfold EAGAIN at this
      omega
    | false =>
      simp only [Bool.false_eq_true, if_false] at hret ⊢
      cases hw : (wait_event_interruptible omx during signalled).1 with
      | none =>
        rw [hw] at hret
        exact Option.noConfusion hret
      | some x =>
        rw [hw] at hret
        simp only [] at hret ⊢
        by_cases hx : x ≠ 0
        · rw [if_pos hx] at hret
          have := Option.some.inj hret
          unfold ERESTARTSYS at this
          omega
        · rw [if_neg hx] at hret ⊢
          obtain ⟨skb, rest, e1, e2, e3, e4⟩ :=
            rpmsg_omx_read_dequeue_success _ len copy_ok _ r hlen hret hr
          exact ⟨skb, rest, e1, fun hne => absurd h2 hne, e2, e3, e4⟩
  · rw [if_neg h2] at hret ⊢
    obtain ⟨skb, rest, e1, e2, e3, e4⟩ :=
      rpmsg_omx_read_dequeue_success omx len copy_ok [] r hlen hret hr
    refine ⟨skb, rest, ?_, fun _ => e1, e2, e3, e4⟩
    unfold wait_event_interruptible
    rw [if_pos (Or.inl h2)]
    exact e1

theorem read_success_returns_head_prefix_witness :
    ∃ (skb : List Nat) (rest : List (List Nat)),
      (wait_event_interruptible
        { fresh 1024 with state := OMX_CONNECTED, queue := [[1, 2, 3, 4, 5], [6]] }
        [] false).2.1.queue = skb :: rest ∧
      (({ fresh 1024 with state := OMX_CONNECTED, queue := [[1, 2, 3, 4, 5], [6]] } :
          rpmsg_omx_instance).queue ≠ [] →
        ({ fresh 1024 with state := OMX_CONNECTED, queue := [[1, 2, 3, 4, 5], [6]] } :
          rpmsg_omx_instance).queue = skb :: rest) ∧
      (3 : Int) = ((min 3 skb.length : Nat) : Int) ∧
      (rpmsg_omx_read
        { fresh 1024 with state := OMX_CONNECTED, queue := [[1, 2, 3, 4, 5], [6]] }
        true 3 true [] false).buf = skb.take (min 3 skb.length) ∧
      (rpmsg_omx_read
        { fresh 1024 with state := OMX_CONNECTED, queue := [[1, 2, 3, 4, 5], [6]] }
        true 3 true [] false).omx.queue = rest :=
  read_success_returns_head_prefix
    { fresh 1024 with state := OMX_CONNECTED, queue := [[1, 2, 3, 4, 5], [6]] }
    true 3 true [] false 3 (by decide) (by decide) (by decide)

theorem rpmsg_omx_cb_data (omx : rpmsg_omx_instance) (data : Nat → Nat) (len : Int)
    (h : is_data data len true) :
    rpmsg_omx_cb omx data len true
      = ({ omx with queue := omx.queue ++ [raw_payload data] },
         [call.wake_up_interruptible omx.ept]) := by
  obtain ⟨h1, h2, _⟩ := h
  have h3 : ¬ OMX_RAW_MSG = OMX_CONN_RSP := by decide
  unfold rpmsg_omx_cb raw_payload
  simp only [h1, h2, h3, if_false, if_true]

theorem rx_all_queue :
    ∀ (msgs : List ((Nat → Nat) × Int)) (omx : rpmsg_omx_instance),
      (∀ m ∈ msgs, is_data m.1 m.2 true) →
      rx_all omx msgs
        = { omx with queue := omx.queue ++ msgs.map (fun m => raw_payload m.1) } := by
  intro msgs
  induction msgs with
  | nil =>
    intro omx _
    cases omx
    simp [rx_all]
  | cons m ms ih =>
    intro omx h
    have hm : is_data m.1 m.2 true := h m (List.mem_cons_self _ _)
    have hms : ∀ x ∈ ms, is_data x.1 x.2 true := fun x hx => h x (List.mem_cons_of_mem _ hx)
    have hstep : rx_all omx (m :: ms) = rx_all (rpmsg_omx_cb omx m.1 m.2 true).1 ms := rfl
    rw [hstep, rpmsg_omx_cb_data omx m.1 m.2 hm, ih _ hms]
    cases omx
    simp

theorem rpmsg_omx_read_connected_head (omx : rpmsg_omx_instance) (a : read_args)
    (skb : List Nat) (rest : List (List Nat))
    (hs : omx.state = OMX_CONNECTED) (hq : omx.queue = skb :: rest) :
    rpmsg_omx_read omx a.nonblock a.len true a.during a.signalled
      = ⟨some (s32 (min a.len skb.length)), { omx with queue := rest }, [],
          skb.take (min a.len skb.length)⟩ := by
  unfold rpmsg_omx_read
  rw [if_neg (by rw [hs]; decide), if_neg (by rw [hq]; exact List.cons_ne_nil _ _)]
  unfold rpmsg_omx_read_dequeue
  rw [if_neg (by rw [hs]; decide), hq]
  rfl

theorem read_all_connected :
    ∀ (q : List (List Nat)) (reads : List read_args) (omx : rpmsg_omx_instance),
      omx.state = OMX_CONNECTED → omx.queue = q →
      List.Forall₂ (fun (a : read_args) (p : List Nat) => p.length ≤ a.len) reads q →
      (read_all omx reads).1 = q.map (fun p => (some (s32 p.length), p)) ∧
      (read_all omx reads).2.queue = [] ∧
      (read_all omx reads).2.state = OMX_CONNECTED := by
  intro q
  induction q with
  | nil =>
    intro reads omx hs hq h
    cases h
    exact ⟨rfl, hq, hs⟩
  | cons p ps ih =>
    intro reads omx hs hq h
    cases h with
    | cons hap hrest =>
      rename_i a as
      have hread := rpmsg_omx_read_connected_head omx a p ps hs hq
      have hmin : min a.len p.length = p.length := Nat.min_eq_right hap
      obtain ⟨i1, i2, i3⟩ := ih as { omx with queue := ps } hs rfl hrest
      simp only [read_all, hread, hmin, List.take_length, List.map_cons]
      exact ⟨by rw [i1], i2, i3⟩

/-- C12: FIFO delivery.  On an OMX_CONNECTED instance, delivering accepted
OMX_RAW_MSG messages `msgs` in order leaves the queue equal to the old queue
followed by their declared payloads, in that order (each accepted message
adds exactly one entry, a copy of its declared payload, at the tail); then
as many consecutive reads of one reader as there are entries, each with a
buffer at least as large as its entry, return exactly these payloads in that
order, each with its length as return value, and leave the queue empty. -/
theorem fifo_delivery (omx : rpmsg_omx_instance) (msgs : List ((Nat → Nat) × Int))
    (reads : List read_args) (hs : omx.state = OMX_CONNECTED)
    (hmsg : ∀ m ∈ msgs, is_data m.1 m.2 true)
    (hreads : List.Forall₂ (fun (a : read_args) (p : List Nat) => p.length ≤ a.len) reads
      (omx.queue ++ msgs.map (fun m => raw_payload m.1))) :
    (rx_all omx msgs).queue = omx.queue ++ msgs.map (fun m => raw_payload m.1) ∧
    (∀ (o : rpmsg_omx_instance) (m : (Nat → Nat) × Int), is_data m.1 m.2 true →
      (rpmsg_omx_cb o m.1 m.2 true).1.queue = o.queue ++ [raw_payload m.1]) ∧
    (read_all (rx_all omx msgs) reads).1.map Prod.snd
      = omx.queue ++ msgs.map (fun m => raw_payload m.1) ∧
    (read_all (rx_all omx msgs) reads).1.map Prod.fst
      = (omx.queue ++ msgs.map (fun m => raw_payload m.1)).map
          (fun p => some (s32 p.length)) ∧
    (read_all (rx_all omx msgs) reads).2.queue = [] := by
  have hrx := rx_all_queue msgs omx hmsg
  have hq : (rx_all omx msgs).queue = omx.queue ++ msgs.map (fun m => raw_payload m.1) := by
    rw [hrx]
  have hst : (rx_all omx msgs).state = OMX_CONNECTED := by
    rw [hrx]; exact hs
  obtain ⟨i1, i2, _⟩ := read_all_connected _ reads (rx_all omx msgs) hst hq hreads
  refine ⟨hq, ?_, ?_, ?_, i2⟩
  · intro o m hm
    rw [rpmsg_omx_cb_data o m.1 m.2 hm]
  · rw [i1, List.map_map]
    exact List.map_id _
  · rw [i1, List.map_map]
    rfl

theorem fifo_delivery_witness :
    (read_all
      (rx_all { fresh 1024 with state := OMX_CONNECTED, dst := 66 }
        [(rx_msg OMX_RAW_MSG 2 [7, 8], 14), (rx_msg OMX_RAW_MSG 3 [9, 10, 11], 15)])
      [⟨true, 16, [], false⟩, ⟨false, 3, [], false⟩]).1.map Prod.snd
      = ({ fresh 1024 with state := OMX_CONNECTED, dst := 66 } : rpmsg_omx_instance).queue ++
          [(rx_msg OMX_RAW_MSG 2 [7, 8], (14 : Int)),
           (rx_msg OMX_RAW_MSG 3 [9, 10, 11], (15 : Int))].map (fun m => raw_payload m.1) :=
  (fifo_delivery { fresh 1024 with state := OMX_CONNECTED, dst := 66 }
    [(rx_msg OMX_RAW_MSG 2 [7, 8], 14), (rx_msg OMX_RAW_MSG 3 [9, 10, 11], 15)]
    [⟨true, 16, [], false⟩, ⟨false, 3, [], false⟩] rfl
    (by
      intro m hm
      simp only [List.mem_cons, List.mem_singleton, List.not_mem_nil, or_false] at hm
      rcases hm with hm | hm <;> subst hm <;> unfold is_data <;> decide)
    (by
      refine List.Forall₂.cons (by decide) (List.Forall₂.cons (by decide) List.Forall₂.nil))).2.2.1

/-! ## address translation -/

/-- C17 (counterexample): on an OMX_FAIL instance the value 4096 is resolved by the
buffer manager and the mapper would translate its physical address without
error, yet the lookup returns -ENXIO with output address 0: neither the
mapping nor an error of the mapper. -/
theorem buffer_lookup_failed_instance_is_enxio :
    one_ion.ion_phys 4096 = some 0x80000000 ∧
    one_ion.rproc_pa_to_da 0x80000000 = (0, 0xA0001000) ∧
    _rpmsg_omx_buffer_lookup one_ion { fresh 1024 with state := OMX_FAIL } 4096
      = (- ENXIO, 0) := by
  decide

theorem find_none_of_not_validate (omx : rpmsg_omx_instance) (v : Nat)
    (h : _rpmsg_buffer_validate omx v = false) :
    omx.buffer_list.find? (fun b => b.addr = v) = none := by
  unfold _rpmsg_buffer_validate at h
  rw [List.find?_eq_none]
  intro b hb
  have := (List.any_eq_false.mp h) b hb
  simpa using this

/-- C17 (amended): the order of `_rpmsg_omx_buffer_lookup`.  (1) When the buffer
manager resolves `v` to a physical address, the result does not depend on the
wrapper registry: it is -ENXIO on an OMX_FAIL instance (the mapper is not
called), otherwise the mapper's non-zero return value, or 0 with the mapped
device address.  (2) Otherwise the lookup succeeds exactly when the registry
holds a wrapper at address `v` that has a page table, and then yields the
device address of that table as it is.  (3) Otherwise it returns -EIO.
Whenever the return value is not 0 the output address is 0. -/
theorem buffer_lookup_order (e : ion_env) (omx : rpmsg_omx_instance) (v : Nat) :
    (∀ pa, e.ion_phys v = some pa →
      (∀ l, _rpmsg_omx_buffer_lookup e { omx with buffer_list := l } v
              = _rpmsg_omx_buffer_lookup e omx v) ∧
      (omx.state = OMX_FAIL → _rpmsg_omx_buffer_lookup e omx v = (- ENXIO, 0)) ∧
      (omx.state ≠ OMX_FAIL → (e.rproc_pa_to_da (pa % 4294967296)).1 ≠ 0 →
        _rpmsg_omx_buffer_lookup e omx v = ((e.rproc_pa_to_da (pa % 4294967296)).1, 0)) ∧
      (omx.state ≠ OMX_FAIL → (e.rproc_pa_to_da (pa % 4294967296)).1 = 0 →
        _rpmsg_omx_buffer_lookup e omx v
          = (0, (e.rproc_pa_to_da (pa % 4294967296)).2 % 4294967296))) ∧
    (e.ion_phys v = none →
      ((_rpmsg_omx_buffer_lookup e omx v).1 = 0 ↔
        ∃ buf, omx.buffer_list.find? (fun b => b.addr = v) = some buf ∧
          buf.page_list.isSome = true) ∧
      (∀ buf, omx.buffer_list.find? (fun b => b.addr = v) = some buf →
        buf.page_list.isSome = true →
        _rpmsg_omx_buffer_lookup e omx v = (0, buf.page_list_pa % 4294967296)) ∧
      ((¬ ∃ buf, omx.buffer_list.find? (fun b => b.addr = v) = some buf ∧
          buf.page_list.isSome = true) →
        _rpmsg_omx_buffer_lookup e omx v = (- EIO, 0))) ∧
    ((_rpmsg_omx_buffer_lookup e omx v).1 ≠ 0 → (_rpmsg_omx_buffer_lookup e omx v).2 = 0) := by
  refine ⟨?_, ?_, ?_⟩
  · intro pa hpa
    unfold _rpmsg_omx_buffer_lookup _rpmsg_pa_to_da
    simp only [hpa]
    refine ⟨fun _ => trivial, ?_, ?_, ?_⟩
    · intro hf; rw [if_pos hf]
    · intro hf hr; rw [if_neg hf, if_pos hr]
    · intro hf hr; rw [if_neg hf, if_neg (not_not.mpr hr)]
  · intro hnone
    have hneg : (- EIO : Int) ≠ 0 := by decide
    have key : _rpmsg_omx_buffer_lookup e omx v =
        match omx.buffer_list.find? (fun b => b.addr = v) with
        | some buf => if buf.page_list.isSome then (0, buf.page_list_pa % 4294967296)
                      else (- EIO, 0)
        | none => (- EIO, 0) := by
      unfold _rpmsg_omx_buffer_lookup
      simp only [hnone]
      cases hv : _rpmsg_buffer_validate omx v with
      | true => simp
      | false => simp [find_none_of_not_validate omx v hv]
    rw [key]
    cases hfind : omx.buffer_list.find? (fun b => b.addr = v) with
    | none => simp [hneg]
    | some buf =>
      cases hpl : buf.page_list with
      | some l => simp [hpl]
      | none => simp [hpl, hneg]
  · unfold _rpmsg_omx_buffer_lookup _rpmsg_pa_to_da
    split
    · by_cases hf : omx.state = OMX_FAIL
      · simp [hf]
      · rw [if_neg hf]
        dsimp only
        split_ifs with hr
        · intro _; rfl
        · intro h0; exact absurd rfl h0
    · split_ifs
      · split
        · split_ifs
          · intro h0; exact absurd rfl h0
          · intro _; rfl
        · intro _; rfl
      · intro _; rfl

theorem buffer_lookup_order_witness :
    (_rpmsg_omx_buffer_lookup no_ion with_wrapper 8192).1 = 0 ↔
      ∃ buf, with_wrapper.buffer_list.find? (fun b => b.addr = 8192) = some buf ∧
        buf.page_list.isSome = true :=
  ((buffer_lookup_order no_ion with_wrapper 8192).2.1 rfl).1

/-! ## payload patching -/

theorem load32_eq_word (mem : List Nat) (j : Nat) (h : j + 4 ≤ mem.length) :
    load32 mem (j : Int) = some (word mem j) := by
  unfold load32 word
  rw [if_pos ⟨by omega, by omega⟩, Int.toNat_ofNat]

theorem store32_length (mem : List Nat) (i v : Nat) (h : i + 4 ≤ mem.length) :
    (store32 mem i v).length = mem.length := by
  unfold store32 put_le32
  rw [List.length_append, List.length_append, List.length_take, List.length_drop]
  simp only [List.length_cons, List.length_nil]
  omega

theorem store32_getD_out (mem : List Nat) (i v k : Nat) (h : i + 4 ≤ mem.length)
    (hk : k < i ∨ i + 4 ≤ k) : (store32 mem i v).getD k 0 = mem.getD k 0 := by
  have hl : (mem.take i).length = i := by rw [List.length_take]; omega
  have hp : (put_le32 v).length = 4 := rfl
  unfold store32
  rw [List.getD_eq_getElem?_getD, List.getD_eq_getElem?_getD, List.append_assoc]
  congr 1
  rcases hk with hk | hk
  · rw [List.getElem?_append_left (by omega), List.getElem?_take_of_lt hk]
  · rw [List.getElem?_append_right (by omega), List.getElem?_append_right (by omega),
      List.getElem?_drop, hl, hp]
    congr 1
    omega

theorem store32_getD_in (mem : List Nat) (i v j : Nat) (h : i + 4 ≤ mem.length) (hj : j < 4) :
    (store32 mem i v).getD (i + j) 0 = (put_le32 v).getD j 0 := by
  have hl : (mem.take i).length = i := by rw [List.length_take]; omega
  have hp : (put_le32 v).length = 4 := rfl
  unfold store32
  rw [List.getD_eq_getElem?_getD, List.getD_eq_getElem?_getD, List.append_assoc,
    List.getElem?_append_right (by omega), hl, Nat.add_sub_cancel_left,
    List.getElem?_append_left (by omega)]

theorem store32_word_same (mem : List Nat) (i v : Nat) (h : i + 4 ≤ mem.length) :
    word (store32 mem i v) i = v % 4294967296 := by
  have b0 := store32_getD_in mem i v 0 h (by omega)
  have b1 := store32_getD_in mem i v 1 h (by omega)
  have b2 := store32_getD_in mem i v 2 h (by omega)
  have b3 := store32_getD_in mem i v 3 h (by omega)
  rw [Nat.add_zero] at b0
  unfold word get_le32
  simp only [b0, b1, b2, b3, put_le32, List.getD_cons_zero, List.getD_cons_succ]
  omega

theorem word_congr (m1 m2 : List Nat) (j : Nat)
    (h : ∀ k, j ≤ k → k < j + 4 → m1.getD k 0 = m2.getD k 0) : word m1 j = word m2 j := by
  unfold word get_le32
  simp only []
  rw [h j (by omega) (by omega), h (j + 1) (by omega) (by omega),
    h (j + 2) (by omega) (by omega), h (j + 3) (by omega) (by omega)]

theorem store32_word_other (mem : List Nat) (i v j : Nat) (h : i + 4 ≤ mem.length)
    (hj : j + 4 ≤ i ∨ i + 4 ≤ j) : word (store32 mem i v) j = word mem j := by
  apply word_congr
  intro k hk1 hk2
  exact store32_getD_out mem i v k h (by omega)

theorem buffer_lookup_lt (e : ion_env) (omx : rpmsg_omx_instance) (v : Nat) :
    (_rpmsg_omx_buffer_lookup e omx v).2 < 4294967296 := by
  have h0 : (0 : Nat) < 4294967296 := by omega
  unfold _rpmsg_omx_buffer_lookup _rpmsg_pa_to_da
  split
  · by_cases hf : omx.state = OMX_FAIL
    · rw [if_pos hf]; exact h0
    · rw [if_neg hf]
      dsimp only
      split_ifs
      · exact h0
      · exact Nat.mod_lt _ h0
  · split_ifs
    · split
      · split_ifs
        · exact Nat.mod_lt _ h0
        · exact h0
      · exact h0
    · exact h0

theorem map_buf_next_eq (e : ion_env) (omx : rpmsg_omx_instance) (mem : List Nat) (j : Nat)
    (hj : j + 4 ≤ mem.length)
    (hres : word mem j ≠ 0 → (_rpmsg_omx_buffer_lookup e omx (word mem j)).1 = 0) :
    map_buf_next e omx mem (j : Int)
      = some (0, if word mem j ≠ 0 then
                   store32 mem j (_rpmsg_omx_buffer_lookup e omx (word mem j)).2
                 else mem) := by
  unfold map_buf_next
  rw [load32_eq_word mem j hj]
  dsimp only
  by_cases hz : word mem j ≠ 0
  · rw [if_pos hz, if_pos hz, hres hz, if_pos rfl, Int.toNat_ofNat]
  · rw [if_neg hz, if_neg hz]

theorem patch_step (m : List Nat) (j d : Nat) (c : Prop) [Decidable c]
    (hj : c → j + 4 ≤ m.length) (hd : d < 4294967296) :
    (if c then store32 m j d else m).length = m.length ∧
    (c → word (if c then store32 m j d else m) j = d) ∧
    (¬ c → (if c then store32 m j d else m) = m) ∧
    (∀ i, (c → i + 4 ≤ j ∨ j + 4 ≤ i) → word (if c then store32 m j d else m) i = word m i) ∧
    (∀ k, (c → k < j ∨ j + 4 ≤ k) → (if c then store32 m j d else m).getD k 0 = m.getD k 0) := by
  by_cases hc : c
  · rw [if_pos hc]
    refine ⟨store32_length m j d (hj hc), fun _ => ?_, fun h => absurd hc h, ?_, ?_⟩
    · rw [store32_word_same m j d (hj hc), Nat.mod_eq_of_lt hd]
    · intro i hi
      exact store32_word_other m j d i (hj hc) (hi hc)
    · intro k hk
      exact store32_getD_out m j d k (hj hc) (hk hc)
  · rw [if_neg hc]
    exact ⟨rfl, fun h => absurd h hc, fun _ => rfl, fun _ _ => rfl, fun _ _ => rfl⟩

theorem rpmsg_omx_map_buf_eq (e : ion_env) (omx : rpmsg_omx_instance) (mem : List Nat)
    (packet t o slot : Nat)
    (hmt : load32 mem ((packet + sizeof_omx_packet : Nat) : Int) = some t)
    (ht : 1 ≤ t ∧ t ≤ 3)
    (hoff : load32 mem (((packet + sizeof_omx_packet : Nat) : Int) + 4) = some o)
    (hslot : (slot : Int) = ((packet + sizeof_omx_packet : Nat) : Int) + s32 o)
    (hin : slot + 4 * t ≤ mem.length)
    (h1 : (_rpmsg_omx_buffer_lookup e omx (word mem slot)).1 = 0)
    (h2 : 2 ≤ t → word mem (slot + 4) ≠ 0 →
      (_rpmsg_omx_buffer_lookup e omx (word mem (slot + 4))).1 = 0)
    (h3 : 3 ≤ t → word mem (slot + 8) ≠ 0 →
      (_rpmsg_omx_buffer_lookup e omx (word mem (slot + 8))).1 = 0) :
    _rpmsg_omx_map_buf e omx mem packet
      = some (0,
          if 3 ≤ t ∧ word mem (slot + 8) ≠ 0 then
            store32
              (if 2 ≤ t ∧ word mem (slot + 4) ≠ 0 then
                 store32 (store32 mem slot (_rpmsg_omx_buffer_lookup e omx (word mem slot)).2)
                   (slot + 4) (_rpmsg_omx_buffer_lookup e omx (word mem (slot + 4))).2
               else store32 mem slot (_rpmsg_omx_buffer_lookup e omx (word mem slot)).2)
              (slot + 8) (_rpmsg_omx_buffer_lookup e omx (word mem (slot + 8))).2
          else
            if 2 ≤ t ∧ word mem (slot + 4) ≠ 0 then
              store32 (store32 mem slot (_rpmsg_omx_buffer_lookup e omx (word mem slot)).2)
                (slot + 4) (_rpmsg_omx_buffer_lookup e omx (word mem (slot + 4))).2
            else store32 mem slot (_rpmsg_omx_buffer_lookup e omx (word mem slot)).2) := by
  have hl1 : (store32 mem slot (_rpmsg_omx_buffer_lookup e omx (word mem slot)).2).length
      = mem.length := store32_length mem slot _ (by omega)
  have c4 : ((slot : Int) + 4) = ((slot + 4 : Nat) : Int) := by push_cast; rfl
  have c8 : ((slot : Int) + 8) = ((slot + 8 : Nat) : Int) := by push_cast; rfl
  unfold _rpmsg_omx_map_buf
  dsimp only
  rw [hmt]
  dsimp only
  rw [if_neg (by omega), if_neg (by omega), hoff]
  dsimp only
  rw [← hslot, load32_eq_word mem slot (by omega)]
  dsimp only
  rw [h1, Int.toNat_ofNat]
  simp only [if_true, true_and]
  have hd1 := buffer_lookup_lt e omx (word mem slot)
  have ht3 : t = 1 ∨ t = 2 ∨ t = 3 := by omega
  rcases ht3 with ht1 | ht1 | ht1
  · subst ht1
    simp
  · subst ht1
    have hw2 : word (store32 mem slot (_rpmsg_omx_buffer_lookup e omx (word mem slot)).2)
        (slot + 4) = word mem (slot + 4) :=
      store32_word_other mem slot _ (slot + 4) (by omega) (Or.inr (le_refl _))
    have hn := map_buf_next_eq e omx
      (store32 mem slot (_rpmsg_omx_buffer_lookup e omx (word mem slot)).2) (slot + 4)
      (by rw [hl1]; omega) (by rw [hw2]; exact h2 (le_refl _))
    rw [hw2] at hn
    rw [if_pos (by omega), c4, hn]
    simp
  · subst ht1
    have hw2 : word (store32 mem slot (_rpmsg_omx_buffer_lookup e omx (word mem slot)).2)
        (slot + 4) = word mem (slot + 4) :=
      store32_word_other mem slot _ (slot + 4) (by omega) (Or.inr (le_refl _))
    have hn := map_buf_next_eq e omx
      (store32 mem slot (_rpmsg_omx_buffer_lookup e omx (word mem slot)).2) (slot + 4)
      (by rw [hl1]; omega) (by rw [hw2]; exact h2 (by omega))
    rw [hw2] at hn
    rw [if_pos (by omega), c4, hn]
    dsimp only
    rw [if_pos ⟨rfl, le_refl _⟩, c8]
    have hp := patch_step (store32 mem slot (_rpmsg_omx_buffer_lookup e omx (word mem slot)).2)
      (slot + 4) (_rpmsg_omx_buffer_lookup e omx (word mem (slot + 4))).2
      (word mem (slot + 4) ≠ 0) (fun _ => by rw [hl1]; omega)
      (buffer_lookup_lt e omx _)
    obtain ⟨p1, _, _, p4, _⟩ := hp
    have hw3 : word (if word mem (slot + 4) ≠ 0 then
          store32 (store32 mem slot (_rpmsg_omx_buffer_lookup e omx (word mem slot)).2)
            (slot + 4) (_rpmsg_omx_buffer_lookup e omx (word mem (slot + 4))).2
        else store32 mem slot (_rpmsg_omx_buffer_lookup e omx (word mem slot)).2) (slot + 8)
        = word mem (slot + 8) := by
      rw [p4 (slot + 8) (fun _ => Or.inr (by omega))]
      exact store32_word_other mem slot _ (slot + 8) (by omega) (Or.inr (by omega))
    have hn3 := map_buf_next_eq e omx _ (slot + 8) (by rw [p1, hl1]; omega)
      (by rw [hw3]; exact h3 (le_refl _))
    rw [hw3] at hn3
    rw [hn3]
    simp

/-- C16: payload patching.  Let the map type `t` of the packet be ONE_BUF, TWO_BUF
or THREE_BUF (1, 2, 3), let the `t` reference slots at the declared offset
lie inside the buffer, and let every reference that is present resolve: the
first slot, and each of the 2nd / 3rd slots covered by `t` whose value is not
zero.  Then `_rpmsg_omx_map_buf` returns 0; afterwards the first slot holds the device
address of its reference, a covered 2nd / 3rd slot holds the device address
of its reference when it was not zero and is still zero when it was zero
(whether or not a lookup of 0 would succeed), the buffer has its old length
and every byte outside the `t` slots is unchanged. -/
theorem map_buf_patches (e : ion_env) (omx : rpmsg_omx_instance) (mem : List Nat)
    (packet t o slot : Nat)
    (hmt : load32 mem ((packet + sizeof_omx_packet : Nat) : Int) = some t)
    (ht : 1 ≤ t ∧ t ≤ 3)
    (hoff : load32 mem (((packet + sizeof_omx_packet : Nat) : Int) + 4) = some o)
    (hslot : (slot : Int) = ((packet + sizeof_omx_packet : Nat) : Int) + s32 o)
    (hin : slot + 4 * t ≤ mem.length)
    (h1 : (_rpmsg_omx_buffer_lookup e omx (word mem slot)).1 = 0)
    (h2 : 2 ≤ t → word mem (slot + 4) ≠ 0 →
      (_rpmsg_omx_buffer_lookup e omx (word mem (slot + 4))).1 = 0)
    (h3 : 3 ≤ t → word mem (slot + 8) ≠ 0 →
      (_rpmsg_omx_buffer_lookup e omx (word mem (slot + 8))).1 = 0) :
    ∃ mem1 : List Nat,
      _rpmsg_omx_map_buf e omx mem packet = some (0, mem1) ∧
      mem1.length = mem.length ∧
      word mem1 slot = (_rpmsg_omx_buffer_lookup e omx (word mem slot)).2 ∧
      (2 ≤ t → word mem1 (slot + 4) =
        if word mem (slot + 4) = 0 then 0
        else (_rpmsg_omx_buffer_lookup e omx (word mem (slot + 4))).2) ∧
      (3 ≤ t → word mem1 (slot + 8) =
        if word mem (slot + 8) = 0 then 0
        else (_rpmsg_omx_buffer_lookup e omx (word mem (slot + 8))).2) ∧
      (∀ k, k < slot ∨ slot + 4 * t ≤ k → mem1.getD k 0 = mem.getD k 0) := by
  have heq := rpmsg_omx_map_buf_eq e omx mem packet t o slot hmt ht hoff hslot hin h1 h2 h3
  have hs1 : slot + 4 ≤ mem.length := by omega
  have hl1 : (store32 mem slot (_rpmsg_omx_buffer_lookup e omx (word mem slot)).2).length
      = mem.length := store32_length mem slot _ hs1
  obtain ⟨p1, p2, p3, p4, p5⟩ :=
    patch_step (store32 mem slot (_rpmsg_omx_buffer_lookup e omx (word mem slot)).2)
      (slot + 4) (_rpmsg_omx_buffer_lookup e omx (word mem (slot + 4))).2
      (2 ≤ t ∧ word mem (slot + 4) ≠ 0) (fun hc => by rw [hl1]; omega)
      (buffer_lookup_lt e omx _)
  obtain ⟨q1, q2, q3, q4, q5⟩ :=
    patch_step
      (if 2 ≤ t ∧ word mem (slot + 4) ≠ 0 then
         store32 (store32 mem slot (_rpmsg_omx_buffer_lookup e omx (word mem slot)).2)
           (slot + 4) (_rpmsg_omx_buffer_lookup e omx (word mem (slot + 4))).2
       else store32 mem slot (_rpmsg_omx_buffer_lookup e omx (word mem slot)).2)
      (slot + 8) (_rpmsg_omx_buffer_lookup e omx (word mem (slot + 8))).2
      (3 ≤ t ∧ word mem (slot + 8) ≠ 0) (fun hc => by rw [p1, hl1]; omega)
      (buffer_lookup_lt e omx _)
  refine ⟨_, heq, ?_, ?_, ?_, ?_, ?_⟩
  · rw [q1, p1, hl1]
  · rw [q4 slot (fun _ => Or.inl (by omega)), p4 slot (fun _ => Or.inl (le_refl _)),
      store32_word_same mem slot _ hs1, Nat.mod_eq_of_lt (buffer_lookup_lt e omx _)]
  · intro ht2
    rw [q4 (slot + 4) (fun _ => Or.inl (by omega))]
    by_cases hz : word mem (slot + 4) = 0
    · rw [if_pos hz, p3 (fun hc => hc.2 hz),
        store32_word_other mem slot _ (slot + 4) hs1 (Or.inr (le_refl _)), hz]
    · rw [if_neg hz, p2 ⟨ht2, hz⟩]
  · intro ht3
    by_cases hz : word mem (slot + 8) = 0
    · rw [if_pos hz, q3 (fun hc => hc.2 hz), p4 (slot + 8) (fun _ => Or.inr (by omega)),
        store32_word_other mem slot _ (slot + 8) hs1 (Or.inr (by omega)), hz]
    · rw [if_neg hz, q2 ⟨ht3, hz⟩]
  · intro k hk
    rw [q5 k (fun hc => by omega), p5 k (fun hc => by omega),
      store32_getD_out mem slot _ k hs1 (by omega)]

theorem map_buf_patches_witness :
    ∃ mem1 : List Nat,
      _rpmsg_omx_map_buf one_ion with_wrapper (map_packet 2 [4096, 0]) 0 = some (0, mem1) ∧
      mem1.length = (map_packet 2 [4096, 0]).length ∧
      word mem1 28 = (_rpmsg_omx_buffer_lookup one_ion with_wrapper
        (word (map_packet 2 [4096, 0]) 28)).2 ∧
      (2 ≤ 2 → word mem1 (28 + 4) =
        if word (map_packet 2 [4096, 0]) (28 + 4) = 0 then 0
        else (_rpmsg_omx_buffer_lookup one_ion with_wrapper
          (word (map_packet 2 [4096, 0]) (28 + 4))).2) ∧
      (3 ≤ 2 → word mem1 (28 + 8) =
        if word (map_packet 2 [4096, 0]) (28 + 8) = 0 then 0
        else (_rpmsg_omx_buffer_lookup one_ion with_wrapper
          (word (map_packet 2 [4096, 0]) (28 + 8))).2) ∧
      (∀ k, k < 28 ∨ 28 + 4 * 2 ≤ k →
        mem1.getD k 0 = (map_packet 2 [4096, 0]).getD k 0) :=
  map_buf_patches one_ion with_wrapper (map_packet 2 [4096, 0]) 0 2 8 28
    (by decide) (by decide) (by decide) (by decide) (by decide) (by decide)
    (fun _ h => absurd (by decide) h) (fun h => absurd h (by decide))

/-- The scenario of C16, evaluated: TWO_BUF with the slots at offset 8, the
first reference the handle 4096 that resolves to 0xA0001000, the second slot
zero.  The result is 0, the first slot holds 0xA0001000, the second is still
zero and the rest of the packet is as before. -/
theorem map_buf_two_buf_scenario :
    _rpmsg_omx_map_buf one_ion with_wrapper (map_packet 2 [4096, 0]) 0
      = some (0, map_packet 2 [0xA0001000, 0]) := by
  decide

/-! ## open -/

/-- C15: on a service whose channel is NULL, an open with O_NONBLOCK whose
instance can be allocated returns -EBUSY; and whether or not the allocation
succeeds the open returns without sleeping (whatever `wait` would bring),
leaves the service, its connection list included, unchanged, stores no
instance and makes no kernel call, so no endpoint is created. -/
theorem open_nonblock_without_channel (omxserv : rpmsg_omx_service) (kzalloc_ok : Bool)
    (wait : open_wait) (ept : Option Nat) (h : omxserv.rpdev = none) :
    (kzalloc_ok = true →
      rpmsg_omx_open omxserv true kzalloc_ok wait ept
        = ⟨some (- EBUSY), omxserv, none, []⟩) ∧
    (rpmsg_omx_open omxserv true kzalloc_ok wait ept).ret ≠ none ∧
    (rpmsg_omx_open omxserv true kzalloc_ok wait ept).omxserv = omxserv ∧
    (rpmsg_omx_open omxserv true kzalloc_ok wait ept).omx = none ∧
    (rpmsg_omx_open omxserv true kzalloc_ok wait ept).calls = [] := by
  unfold rpmsg_omx_open
  cases kzalloc_ok with
  | false => simp
  | true => simp [h]

theorem open_nonblock_without_channel_witness :
    rpmsg_omx_open ⟨[111], none, 0, [{ fresh 1025 with state := OMX_FAIL }], 0⟩ true true
        (open_wait.rebound ⟨[111], 1024, 60⟩) (some 1026)
      = ⟨some (- EBUSY), ⟨[111], none, 0, [{ fresh 1025 with state := OMX_FAIL }], 0⟩,
          none, []⟩ :=
  (open_nonblock_without_channel
    ⟨[111], none, 0, [{ fresh 1025 with state := OMX_FAIL }], 0⟩ true
    (open_wait.rebound ⟨[111], 1024, 60⟩) (some 1026) rfl).1 rfl

/-! ## buffer wrappers -/

/-- C18 (counterexample): OMX_IOCPVRREGISTER of a descriptor with one
page-scattered buffer whose scatter list is unavailable.  The command returns
0 and hands out the wrapper address 8192 as handle; the registry, empty
before, now holds that wrapper, without a page table. -/
theorem pvrregister_keeps_wrapper_without_page_table :
    (rpmsg_omx_ioctl no_ion (pvr_env [some 7] (fun _ => ⟨some 8192, none, none⟩))
        (fresh 1024) (omx_ioc.OMX_IOCPVRREGISTER 3)).ret = 0 ∧
    (rpmsg_omx_ioctl no_ion (pvr_env [some 7] (fun _ => ⟨some 8192, none, none⟩))
        (fresh 1024) (omx_ioc.OMX_IOCPVRREGISTER 3)).handles = [8192, 0] ∧
    (rpmsg_omx_ioctl no_ion (pvr_env [some 7] (fun _ => ⟨some 8192, none, none⟩))
        (fresh 1024) (omx_ioc.OMX_IOCPVRREGISTER 3)).omx.buffer_list
      = [⟨8192, 4096, 0, none, 0⟩] ∧
    (fresh 1024).buffer_list = [] := by
  decide

/-- C18 (amended): `_rpmsg_buffer_new` leaves the registry unchanged and returns NULL only
when the wrapper object cannot be allocated.  When the wrapper is allocated
at `addr` and the scatter list is unavailable or the page table cannot be
allocated, the wrapper is put at the head of the registry without a page
table and `addr` is returned as the handle; a later lookup of that handle
(which the buffer manager does not resolve) returns -EIO with address 0. -/
theorem buffer_new_on_failure (omx : rpmsg_omx_instance) (ion_handle : Nat)
    (a : buffer_alloc) :
    (a.kzalloc = none → _rpmsg_buffer_new omx ion_handle a = (none, omx, [])) ∧
    (∀ addr, a.kzalloc = some addr → (a.sglist = none ∨ a.dma = none) →
      (_rpmsg_buffer_new omx ion_handle a).1 = some addr ∧
      (∃ n, (_rpmsg_buffer_new omx ion_handle a).2.1.buffer_list
          = ⟨addr, ion_handle, n, none, 0⟩ :: omx.buffer_list) ∧
      (∀ e : ion_env, e.ion_phys addr = none →
        _rpmsg_omx_buffer_lookup e (_rpmsg_buffer_new omx ion_handle a).2.1 addr
          = (- EIO, 0))) := by
  constructor
  · intro hk
    unfold _rpmsg_buffer_new
    rw [hk]
  · intro addr hk hfail
    have hupd : ∃ n, (_rpmsg_buffer_update_page_list a ⟨addr, ion_handle, 0, none, 0⟩).1
        = ⟨addr, ion_handle, n, none, 0⟩ := by
      unfold _rpmsg_buffer_update_page_list
      rcases hfail with hf | hf
      · rw [hf]
        exact ⟨0, rfl⟩
      · rw [hf]
        cases a.sglist with
        | none => exact ⟨0, rfl⟩
        | some sg => exact ⟨sg.length, rfl⟩
    obtain ⟨n, hn⟩ := hupd
    have hnew : _rpmsg_buffer_new omx ion_handle a
        = (some addr,
           { omx with buffer_list := ⟨addr, ion_handle, n, none, 0⟩ :: omx.buffer_list },
           (_rpmsg_buffer_update_page_list a ⟨addr, ion_handle, 0, none, 0⟩).2) := by
      unfold _rpmsg_buffer_new
      rw [hk]
      dsimp only
      rw [hn]
    rw [hnew]
    refine ⟨rfl, ⟨n, rfl⟩, ?_⟩
    intro e he
    unfold _rpmsg_omx_buffer_lookup _rpmsg_buffer_validate
    simp [he]

theorem buffer_new_on_failure_witness :
    (_rpmsg_buffer_new (fresh 1024) 4096 ⟨some 8192, some [12288, 16384], none⟩).1
        = some 8192 ∧
    (∃ n, (_rpmsg_buffer_new (fresh 1024) 4096
            ⟨some 8192, some [12288, 16384], none⟩).2.1.buffer_list
        = ⟨8192, 4096, n, none, 0⟩ :: (fresh 1024).buffer_list) ∧
    (∀ e : ion_env, e.ion_phys 8192 = none →
      _rpmsg_omx_buffer_lookup e
          (_rpmsg_buffer_new (fresh 1024) 4096
            ⟨some 8192, some [12288, 16384], none⟩).2.1 8192
        = (- EIO, 0)) :=
  (buffer_new_on_failure (fresh 1024) 4096 ⟨some 8192, some [12288, 16384], none⟩).2
    8192 rfl (Or.inr rfl)

/-- C19 (counterexample): OMX_IOCPVRREGISTER of a descriptor with two
page-scattered buffers succeeds and returns the wrapper handles 8192 and
8256.  After OMX_IOCIONUNREGISTER of the first handle the registry, empty
before the registration, still holds the second wrapper, and the memory
handle 4097 of that wrapper has not been released. -/
theorem unregister_one_of_two_wrappers_leaves_one :
    (fresh 1024).buffer_list = [] ∧
    (rpmsg_omx_ioctl no_ion
        (pvr_env [some 7, some 8] (fun i => ⟨some (8192 + 64 * i), some [12288], some 20480⟩))
        (fresh 1024) (omx_ioc.OMX_IOCPVRREGISTER 3)).ret = 0 ∧
    (rpmsg_omx_ioctl no_ion
        (pvr_env [some 7, some 8] (fun i => ⟨some (8192 + 64 * i), some [12288], some 20480⟩))
        (fresh 1024) (omx_ioc.OMX_IOCPVRREGISTER 3)).handles = [8192, 8256] ∧
    (rpmsg_omx_ioctl no_ion (pvr_env [] (fun _ => ⟨none, none, none⟩))
        (rpmsg_omx_ioctl no_ion
          (pvr_env [some 7, some 8]
            (fun i => ⟨some (8192 + 64 * i), some [12288], some 20480⟩))
          (fresh 1024) (omx_ioc.OMX_IOCPVRREGISTER 3)).omx
        (omx_ioc.OMX_IOCIONUNREGISTER 8192)).omx.buffer_list
      = [⟨8256, 4097, 1, some [12288], 20480⟩] ∧
    call.ion_free 4097 ∉
      (rpmsg_omx_ioctl no_ion (pvr_env [] (fun _ => ⟨none, none, none⟩))
        (rpmsg_omx_ioctl no_ion
          (pvr_env [some 7, some 8]
            (fun i => ⟨some (8192 + 64 * i), some [12288], some 20480⟩))
          (fresh 1024) (omx_ioc.OMX_IOCPVRREGISTER 3)).omx
        (omx_ioc.OMX_IOCIONUNREGISTER 8192)).calls := by
  decide

theorem pvrregister_single (e : ion_env) (env : ioctl_env) (omx : rpmsg_omx_instance)
    (fd : Int) (b : Nat)
    (hcf : env.copy_from_user_ok = true) (hct : env.copy_to_user_ok = true)
    (hfc : env.fcheck_ok = true) (hshare : env.share = some [some b]) :
    rpmsg_omx_ioctl e env omx (omx_ioc.OMX_IOCPVRREGISTER fd)
      = ⟨0, (pvrregister_entry e env omx 0 (some b)).2.1,
          (pvrregister_entry e env omx 0 (some b)).2.2,
          [(pvrregister_entry e env omx 0 (some b)).1, 0]⟩ := by
  unfold rpmsg_omx_ioctl
  simp [hcf, hct, hfc, hshare, pvrregister_loop]

theorem unregister_wrapper_at_head (e : ion_env) (env2 : ioctl_env)
    (omx : rpmsg_omx_instance) (w : rpmsg_buffer) (old : List rpmsg_buffer)
    (hcf2 : env2.copy_from_user_ok = true) (hl : omx.buffer_list = w :: old) :
    (rpmsg_omx_ioctl e env2 omx (omx_ioc.OMX_IOCIONUNREGISTER w.addr)).omx.buffer_list = old ∧
    (rpmsg_omx_ioctl e env2 omx (omx_ioc.OMX_IOCIONUNREGISTER w.addr)).calls
      = (if w.page_list.isSome then
           [call.dma_free_coherent w.page_list_pa, call.ion_unmap_dma w.ion_handle]
         else [])
        ++ (if w.ion_handle ≠ 0 then [call.ion_free w.ion_handle] else [])
        ++ [call.kfree w.addr] := by
  have hv : _rpmsg_buffer_validate omx w.addr = true := by
    unfold _rpmsg_buffer_validate
    rw [hl]
    simp
  have hf : omx.buffer_list.find? (fun b => b.addr = w.addr) = some w := by
    rw [hl]
    simp
  have he : omx.buffer_list.eraseP (fun b => b.addr = w.addr) = old := by
    rw [hl]
    simp
  unfold rpmsg_omx_ioctl
  simp only [hcf2, hv, hf, _rpmsg_buffer_free, he]
  cases env2.copy_to_user_ok <;> simp

theorem unregister_plain_handle (e : ion_env) (env2 : ioctl_env)
    (omx : rpmsg_omx_instance) (h : Nat)
    (hcf2 : env2.copy_from_user_ok = true) (hv : _rpmsg_buffer_validate omx h = false) :
    (rpmsg_omx_ioctl e env2 omx (omx_ioc.OMX_IOCIONUNREGISTER h)).omx = omx ∧
    (rpmsg_omx_ioctl e env2 omx (omx_ioc.OMX_IOCIONUNREGISTER h)).calls
      = [call.ion_free h] := by
  unfold rpmsg_omx_ioctl
  simp only [hcf2, hv]
  cases env2.copy_to_user_ok <;> simp

/-- C19 (amended): round trip of a registration that returns one handle, followed
at once by OMX_IOCIONUNREGISTER of that handle.  (1) OMX_IOCIONREGISTER
returns the imported handle `h` and does not touch the registry;
unregistering `h` (not the address of a wrapper) leaves the registry as it
was and calls `ion_free(h)` once and nothing else.  (2) OMX_IOCPVRREGISTER of
a descriptor with one buffer, imported as `hd`: when `hd` is directly
mappable it is returned itself and the round trip is as in (1); when it is
page-scattered and the wrapper is allocated at `addr`, `addr` is returned,
and unregistering it restores the registry to its content before the
registration, releases the page table (`dma_free_coherent`,
`ion_unmap_dma`) exactly once if one was allocated and not otherwise, and
calls `ion_free(hd)` exactly once. -/
theorem register_unregister_round_trip (e : ion_env) (env env2 : ioctl_env)
    (omx : rpmsg_omx_instance) (fd : Int)
    (hcf : env.copy_from_user_ok = true) (hct : env.copy_to_user_ok = true)
    (hcf2 : env2.copy_from_user_ok = true) :
    (∀ h, env.ion_import_fd = some h → _rpmsg_buffer_validate omx h = false →
      (rpmsg_omx_ioctl e env omx (omx_ioc.OMX_IOCIONREGISTER fd)).ret = 0 ∧
      (rpmsg_omx_ioctl e env omx (omx_ioc.OMX_IOCIONREGISTER fd)).handles = [h] ∧
      (rpmsg_omx_ioctl e env omx (omx_ioc.OMX_IOCIONREGISTER fd)).omx = omx ∧
      (rpmsg_omx_ioctl e env2
          (rpmsg_omx_ioctl e env omx (omx_ioc.OMX_IOCIONREGISTER fd)).omx
          (omx_ioc.OMX_IOCIONUNREGISTER h)).omx.buffer_list = omx.buffer_list ∧
      (rpmsg_omx_ioctl e env2
          (rpmsg_omx_ioctl e env omx (omx_ioc.OMX_IOCIONREGISTER fd)).omx
          (omx_ioc.OMX_IOCIONUNREGISTER h)).calls = [call.ion_free h]) ∧
    (∀ b hd, env.fcheck_ok = true → env.share = some [some b] →
      env.ion_import b = some hd → hd ≠ 0 →
      (_is_page_list e hd = false → _rpmsg_buffer_validate omx hd = false →
        (rpmsg_omx_ioctl e env omx (omx_ioc.OMX_IOCPVRREGISTER fd)).ret = 0 ∧
        (rpmsg_omx_ioctl e env omx (omx_ioc.OMX_IOCPVRREGISTER fd)).handles = [hd, 0] ∧
        (rpmsg_omx_ioctl e env2
            (rpmsg_omx_ioctl e env omx (omx_ioc.OMX_IOCPVRREGISTER fd)).omx
            (omx_ioc.OMX_IOCIONUNREGISTER hd)).omx.buffer_list = omx.buffer_list ∧
        (rpmsg_omx_ioctl e env2
            (rpmsg_omx_ioctl e env omx (omx_ioc.OMX_IOCPVRREGISTER fd)).omx
            (omx_ioc.OMX_IOCIONUNREGISTER hd)).calls = [call.ion_free hd]) ∧
      (∀ addr, _is_page_list e hd = true → (env.allocs 0).kzalloc = some addr →
        (rpmsg_omx_ioctl e env omx (omx_ioc.OMX_IOCPVRREGISTER fd)).ret = 0 ∧
        (rpmsg_omx_ioctl e env omx (omx_ioc.OMX_IOCPVRREGISTER fd)).handles = [addr, 0] ∧
        (rpmsg_omx_ioctl e env2
            (rpmsg_omx_ioctl e env omx (omx_ioc.OMX_IOCPVRREGISTER fd)).omx
            (omx_ioc.OMX_IOCIONUNREGISTER addr)).omx.buffer_list = omx.buffer_list ∧
        (rpmsg_omx_ioctl e env2
            (rpmsg_omx_ioctl e env omx (omx_ioc.OMX_IOCPVRREGISTER fd)).omx
            (omx_ioc.OMX_IOCIONUNREGISTER addr)).calls
          = (match (env.allocs 0).sglist, (env.allocs 0).dma with
             | some _, some pa => [call.dma_free_coherent pa, call.ion_unmap_dma hd]
             | _, _ => [])
            ++ [call.ion_free hd, call.kfree addr])) := by
  constructor
  · intro h himp hv
    have hreg : rpmsg_omx_ioctl e env omx (omx_ioc.OMX_IOCIONREGISTER fd)
        = ⟨0, omx, [], [h]⟩ := by
      unfold rpmsg_omx_ioctl
      simp [hcf, hct, himp]
    rw [hreg]
    obtain ⟨u1, u2⟩ := unregister_plain_handle e env2 omx h hcf2 hv
    exact ⟨rfl, rfl, rfl, by rw [u1], u2⟩
  · intro b hd hfc hshare himp hnn
    have hreg := pvrregister_single e env omx fd b hcf hct hfc hshare
    constructor
    · intro hpl hv
      have hent : pvrregister_entry e env omx 0 (some b) = (hd, omx, []) := by
        unfold pvrregister_entry
        simp [himp, hpl]
      rw [hreg, hent]
      obtain ⟨u1, u2⟩ := unregister_plain_handle e env2 omx hd hcf2 hv
      exact ⟨rfl, rfl, by rw [u1], u2⟩
    · intro addr hpl hk
      have hent : pvrregister_entry e env omx 0 (some b)
          = (addr,
             { omx with buffer_list :=
                 (_rpmsg_buffer_update_page_list (env.allocs 0) ⟨addr, hd, 0, none, 0⟩).1
                   :: omx.buffer_list },
             (_rpmsg_buffer_update_page_list (env.allocs 0) ⟨addr, hd, 0, none, 0⟩).2) := by
        unfold pvrregister_entry _rpmsg_buffer_new
        simp [himp, hpl, hk]
      rw [hreg, hent]
      dsimp only
      have hw : ∃ w : rpmsg_buffer,
          (_rpmsg_buffer_update_page_list (env.allocs 0) ⟨addr, hd, 0, none, 0⟩).1 = w ∧
          w.addr = addr ∧ w.ion_handle = hd ∧
          (if w.page_list.isSome then
             [call.dma_free_coherent w.page_list_pa, call.ion_unmap_dma w.ion_handle]
           else [])
            = (match (env.allocs 0).sglist, (env.allocs 0).dma with
               | some _, some pa => [call.dma_free_coherent pa, call.ion_unmap_dma hd]
               | _, _ => []) := by
        unfold _rpmsg_buffer_update_page_list
        cases (env.allocs 0).sglist with
        | none => exact ⟨_, rfl, rfl, rfl, rfl⟩
        | some sg =>
          cases (env.allocs 0).dma with
          | none => exact ⟨_, rfl, rfl, rfl, rfl⟩
          | some pa => exact ⟨_, rfl, rfl, rfl, rfl⟩
      obtain ⟨w, hw1, hw2, hw3, hw4⟩ := hw
      rw [hw1]
      obtain ⟨u1, u2⟩ := unregister_wrapper_at_head e env2
        { omx with buffer_list := w :: omx.buffer_list } w omx.buffer_list hcf2 rfl
      rw [hw2] at u1 u2
      refine ⟨rfl, rfl, u1, ?_⟩
      rw [u2, hw4, hw3, if_pos hnn]
      simp

theorem register_unregister_round_trip_witness :
    (rpmsg_omx_ioctl no_ion (pvr_env [] (fun _ => ⟨none, none, none⟩))
        (rpmsg_omx_ioctl no_ion
          (pvr_env [some 7] (fun _ => ⟨some 8256, some [12288], some 24576⟩))
          with_wrapper (omx_ioc.OMX_IOCPVRREGISTER 3)).omx
        (omx_ioc.OMX_IOCIONUNREGISTER 8256)).omx.buffer_list = with_wrapper.buffer_list :=
  (((register_unregister_round_trip no_ion
      (pvr_env [some 7] (fun _ => ⟨some 8256, some [12288], some 24576⟩))
      (pvr_env [] (fun _ => ⟨none, none, none⟩)) with_wrapper 3 rfl rfl rfl).2
    7 4096 rfl rfl rfl (by decide)).2 8256 rfl rfl).2.2.1

/-! ## close -/

/-- C20, the code at the failing input: an instance is opened on a bound service
(local endpoint 1024 created), the remote side answers its connect request
with a failure status, so the callback moves it to OMX_FAIL, and it is
closed.  The close returns 0 and unlinks the instance, but over the whole
lifetime (open, callback, close) `rpmsg_destroy_ept` is never called for the
endpoint that `rpmsg_create_ept` created. -/
theorem close_after_refused_connect_never_destroys_endpoint :
    (rpmsg_omx_open (bound_service []) false true open_wait.asleep (some 1024)).omx
      = some (fresh 1024) ∧
    (rpmsg_omx_open (bound_service []) false true open_wait.asleep (some 1024)).omxserv
      = bound_service [fresh 1024] ∧
    (rpmsg_omx_cb (fresh 1024) refusal 20 true).1.state = OMX_FAIL ∧
    (rpmsg_omx_release (bound_service [(rpmsg_omx_cb (fresh 1024) refusal 20 true).1])
        (rpmsg_omx_cb (fresh 1024) refusal 20 true).1).map
      (fun r =>
        (r.1, r.2.1.list,
         ((rpmsg_omx_open (bound_service []) false true open_wait.asleep (some 1024)).calls
            ++ (rpmsg_omx_cb (fresh 1024) refusal 20 true).2 ++ r.2.2).count
           (call.rpmsg_create_ept 1024),
         ((rpmsg_omx_open (bound_service []) false true open_wait.asleep (some 1024)).calls
            ++ (rpmsg_omx_cb (fresh 1024) refusal 20 true).2 ++ r.2.2).count
           (call.rpmsg_destroy_ept 1024)))
      = some (0, [], 1, 0) := by
  decide

theorem release_buffers_no_send (bufs : List rpmsg_buffer) (omx : rpmsg_omx_instance) :
    (release_buffers omx bufs).2.filter is_send = [] := by
  induction bufs generalizing omx with
  | nil => rfl
  | cons b rest ih =>
    simp only [release_buffers, List.filter_append, ih, List.append_nil]
    simp only [_rpmsg_buffer_free]
    by_cases h1 : b.page_list.isSome = true <;> by_cases h2 : b.ion_handle ≠ 0 <;>
      simp [h1, h2, is_send]

theorem disconnect_msg_fields (dst : Nat) :
    (disconnect_msg dst).length = sizeof_hdr + sizeof_disc_req ∧
    get_le32 (mem_of (disconnect_msg dst)) 0 = OMX_DISCONNECT ∧
    get_le32 (mem_of (disconnect_msg dst)) 4 = 0 ∧
    get_le32 (mem_of (disconnect_msg dst)) 8 = sizeof_disc_req ∧
    get_le32 (mem_of (disconnect_msg dst)) sizeof_hdr = dst % 4294967296 := by
  refine ⟨rfl, rfl, rfl, rfl, ?_⟩
  simp only [get_le32, mem_of, disconnect_msg, put_le32, sizeof_hdr, OMX_DISCONNECT,
    sizeof_disc_req]
  simp
  omega

/-- C21: the calls to `rpmsg_send_offchannel` made by a close.  When the state is
OMX_UNCONNECTED or OMX_FAIL the close returns 0 and sends nothing, whether
the service is bound to a channel or not (after a crash `rpdev` is NULL).
When the state is OMX_CONNECTED and the service is bound to the channel
`rpdev`, the close returns 0 and sends exactly one message, from the local
endpoint address `omx.ept` to the address `rpdev.dst` of the connection
service: 16 bytes whose header has type OMX_DISCONNECT, flags 0 and length 4
and whose payload is the 32-bit value `omx.dst`.  So whenever the close
returns, the number of messages it sent is one if and only if the state is
OMX_CONNECTED; it fails to return only for an OMX_CONNECTED instance of an
unbound service, where the send dereferences the NULL `rpdev`. -/
theorem release_sends_disconnect_iff_connected (omxserv : rpmsg_omx_service)
    (omx : rpmsg_omx_instance) :
    (omx.state ≠ OMX_CONNECTED →
      ∃ r, rpmsg_omx_release omxserv omx = some r ∧ r.1 = 0 ∧
        r.2.2.filter is_send = []) ∧
    (∀ rpdev, omxserv.rpdev = some rpdev → omx.state = OMX_CONNECTED →
      ∃ r, rpmsg_omx_release omxserv omx = some r ∧ r.1 = 0 ∧
        ∃ msg, r.2.2.filter is_send = [call.rpmsg_send_offchannel omx.ept rpdev.dst msg] ∧
          msg.length = sizeof_hdr + sizeof_disc_req ∧
          get_le32 (mem_of msg) 0 = OMX_DISCONNECT ∧
          get_le32 (mem_of msg) 4 = 0 ∧
          get_le32 (mem_of msg) 8 = sizeof_disc_req ∧
          get_le32 (mem_of msg) sizeof_hdr = omx.dst % 4294967296 ∧
          (omx.dst < 4294967296 → get_le32 (mem_of msg) sizeof_hdr = omx.dst)) ∧
    (∀ r, rpmsg_omx_release omxserv omx = some r →
      ((r.2.2.filter is_send).length = 1 ↔ omx.state = OMX_CONNECTED)) ∧
    (rpmsg_omx_release omxserv omx = none ↔
      omx.state = OMX_CONNECTED ∧ omxserv.rpdev = none) := by
  have hidle : omx.state ≠ OMX_CONNECTED →
      rpmsg_omx_release omxserv omx =
        some (0, { omxserv with list := omxserv.list.erase omx },
          [] ++ (release_buffers omx omx.buffer_list).2 ++ [call.ion_client_destroy]
            ++ (if omx.state ≠ OMX_FAIL then [call.rpmsg_destroy_ept omx.ept] else [])) := by
    intro hc
    simp only [rpmsg_omx_release, if_neg hc]
  have hconn : ∀ rpdev, omxserv.rpdev = some rpdev → omx.state = OMX_CONNECTED →
      rpmsg_omx_release omxserv omx =
        some (0, { omxserv with list := omxserv.list.erase omx },
          [call.rpmsg_send_offchannel omx.ept rpdev.dst (disconnect_msg omx.dst)]
            ++ (release_buffers omx omx.buffer_list).2 ++ [call.ion_client_destroy]
            ++ (if omx.state ≠ OMX_FAIL then [call.rpmsg_destroy_ept omx.ept] else [])) := by
    intro rpdev hdev hc
    simp only [rpmsg_omx_release, hdev, if_pos hc]
  have hfilter_idle : ([] ++ (release_buffers omx omx.buffer_list).2 ++ [call.ion_client_destroy]
      ++ (if omx.state ≠ OMX_FAIL then [call.rpmsg_destroy_ept omx.ept] else [])).filter
        is_send = [] := by
    by_cases hf : omx.state = OMX_FAIL <;>
      simp [List.filter_append, release_buffers_no_send, hf, is_send]
  have hfilter_conn : ∀ rpdev : rpmsg_channel,
      ([call.rpmsg_send_offchannel omx.ept rpdev.dst (disconnect_msg omx.dst)]
        ++ (release_buffers omx omx.buffer_list).2 ++ [call.ion_client_destroy]
        ++ (if omx.state ≠ OMX_FAIL then [call.rpmsg_destroy_ept omx.ept] else [])).filter
        is_send = [call.rpmsg_send_offchannel omx.ept rpdev.dst (disconnect_msg omx.dst)] := by
    intro rpdev
    by_cases hf : omx.state = OMX_FAIL <;>
      simp [List.filter_append, release_buffers_no_send, hf, is_send]
  refine ⟨?_, ?_, ?_, ?_⟩
  · intro hc
    exact ⟨_, hidle hc, rfl, hfilter_idle⟩
  · intro rpdev hdev hc
    obtain ⟨f1, f2, f3, f4, f5⟩ := disconnect_msg_fields omx.dst
    refine ⟨_, hconn rpdev hdev hc, rfl, disconnect_msg omx.dst, hfilter_conn rpdev,
      f1, f2, f3, f4, f5, ?_⟩
    intro hlt
    rw [f5, Nat.mod_eq_of_lt hlt]
  · intro r hr
    by_cases hc : omx.state = OMX_CONNECTED
    · cases hdev : omxserv.rpdev with
      | none =>
        simp only [rpmsg_omx_release, hdev, if_pos hc] at hr
        exact absurd hr (by simp)
      | some rpdev =>
        rw [hconn rpdev hdev hc] at hr
        have hr' := Option.some.inj hr
        subst hr'
        simp only [hfilter_conn rpdev, List.length_singleton, true_iff]
        exact hc
    · rw [hidle hc] at hr
      have hr' := Option.some.inj hr
      subst hr'
      simp only [hfilter_idle, List.length_nil]
      constructor
      · intro h; exact absurd h (by decide)
      · intro h; exact absurd h hc
  · constructor
    · intro hn
      by_cases hc : omx.state = OMX_CONNECTED
      · cases hdev : omxserv.rpdev with
        | none => exact ⟨hc, rfl⟩
        | some rpdev =>
          rw [hconn rpdev hdev hc] at hn
          exact absurd hn (by simp)
      · rw [hidle hc] at hn
        exact absurd hn (by simp)
    · intro h
      simp only [rpmsg_omx_release, h.1, h.2, if_true]

theorem release_sends_disconnect_iff_connected_witness :
    (∃ r, rpmsg_omx_release (unbound_service [crash_failed_instance]) crash_failed_instance
        = some r ∧ r.1 = 0 ∧ r.2.2.filter is_send = []) ∧
    (∃ r, rpmsg_omx_release (bound_service [fresh 1024]) (fresh 1024)
        = some r ∧ r.1 = 0 ∧ r.2.2.filter is_send = []) ∧
    (∃ r, rpmsg_omx_release (bound_service [connected_instance]) connected_instance = some r ∧
      r.1 = 0 ∧
      ∃ msg, r.2.2.filter is_send = [call.rpmsg_send_offchannel connected_instance.ept
            (⟨[111], 1024, 60⟩ : rpmsg_channel).dst msg] ∧
        msg.length = sizeof_hdr + sizeof_disc_req ∧
        get_le32 (mem_of msg) 0 = OMX_DISCONNECT ∧
        get_le32 (mem_of msg) 4 = 0 ∧
        get_le32 (mem_of msg) 8 = sizeof_disc_req ∧
        get_le32 (mem_of msg) sizeof_hdr = connected_instance.dst % 4294967296 ∧
        (connected_instance.dst < 4294967296 →
          get_le32 (mem_of msg) sizeof_hdr = connected_instance.dst)) :=
  ⟨(release_sends_disconnect_iff_connected (unbound_service [crash_failed_instance])
      crash_failed_instance).1 (by decide),
   (release_sends_disconnect_iff_connected (bound_service [fresh 1024]) (fresh 1024)).1
      (by decide),
   (release_sends_disconnect_iff_connected (bound_service [connected_instance])
      connected_instance).2.1 ⟨[111], 1024, 60⟩ rfl rfl⟩

/-- The close of the connected instance 1024 -> 66 on a service whose connection
service has address 60 sends the bytes of one DISCONNECT message; the close
of the same instance after a crash (OMX_FAIL, service unbound) sends nothing
and leaves the endpoint to the crash path. -/
theorem release_connected_scenario :
    (rpmsg_omx_release (bound_service [connected_instance]) connected_instance).map
        (fun r => (r.1, r.2.1.list, r.2.2))
      = some (0, [], [call.rpmsg_send_offchannel 1024 60
                        [4, 0, 0, 0, 0, 0, 0, 0, 4, 0, 0, 0, 66, 0, 0, 0],
                      call.ion_client_destroy, call.rpmsg_destroy_ept 1024]) ∧
    crash_failed_instance.state = OMX_FAIL ∧
    (rpmsg_omx_remove [bound_service [connected_instance]] 0 RPROC_CRASHED).1
      = [unbound_service [crash_failed_instance]] ∧
    (rpmsg_omx_release (unbound_service [crash_failed_instance]) crash_failed_instance).map
        (fun r => (r.1, r.2.1.list, r.2.2))
      = some (0, [], [call.ion_client_destroy]) := by
  decide

/-! ## poll -/

/-- C23, the code at the refuting input: an instance that was connected, has
one message queued and then lost its remote processor is OMX_FAIL with a
non-empty queue; `rpmsg_omx_poll` returns POLLERR alone, so it does not report
the instance readable. -/
theorem poll_failed_with_data_is_not_readable :
    failed_with_data.state = OMX_FAIL ∧ failed_with_data.queue = [[7, 9]] ∧
    rpmsg_omx_poll failed_with_data = POLLERR ∧
    rpmsg_omx_poll failed_with_data &&& POLLIN = 0 ∧
    rpmsg_omx_poll failed_with_data &&& POLLRDNORM = 0 := by
  decide

/-- C23, amended: `rpmsg_omx_poll` reports readable (POLLIN and POLLRDNORM) exactly when
the queue is non-empty and the state is not OMX_FAIL, writable (POLLOUT and
POLLWRNORM) exactly when the state is not OMX_FAIL, and the error condition
(POLLERR) exactly when the state is OMX_FAIL. -/
theorem poll_mask (omx : rpmsg_omx_instance) :
    (rpmsg_omx_poll omx &&& POLLIN ≠ 0 ↔ omx.queue ≠ [] ∧ omx.state ≠ OMX_FAIL) ∧
    (rpmsg_omx_poll omx &&& POLLRDNORM ≠ 0 ↔ omx.queue ≠ [] ∧ omx.state ≠ OMX_FAIL) ∧
    (rpmsg_omx_poll omx &&& POLLOUT ≠ 0 ↔ omx.state ≠ OMX_FAIL) ∧
    (rpmsg_omx_poll omx &&& POLLWRNORM ≠ 0 ↔ omx.state ≠ OMX_FAIL) ∧
    (rpmsg_omx_poll omx &&& POLLERR ≠ 0 ↔ omx.state = OMX_FAIL) := by
  by_cases hf : omx.state = OMX_FAIL
  · have hm : rpmsg_omx_poll omx = 8 := by simp [rpmsg_omx_poll, hf, POLLERR]
    rw [hm]
    simp [hf, POLLIN, POLLRDNORM, POLLOUT, POLLWRNORM, POLLERR]
    decide
  · by_cases hq : omx.queue = []
    · have hm : rpmsg_omx_poll omx = 260 := by
        simp [rpmsg_omx_poll, hf, hq, POLLOUT, POLLWRNORM]
      rw [hm]
      simp [hf, hq, POLLIN, POLLRDNORM, POLLOUT, POLLWRNORM, POLLERR]
      decide
    · have hm : rpmsg_omx_poll omx = 325 := by
        simp [rpmsg_omx_poll, hf, hq, POLLIN, POLLRDNORM, POLLOUT, POLLWRNORM]
      rw [hm]
      simp [hf, hq, POLLIN, POLLRDNORM, POLLOUT, POLLWRNORM, POLLERR]
      decide

/-! ## a connect interrupted by a signal -/

/-- C24, the code at the refuting input: a connect call on a freshly opened
instance whose wait is ended by a signal, no message having arrived, returns
-EIO, which is neither -ERESTARTSYS nor -ETIMEDOUT, whereas a blocking read
of a connected instance that is interrupted by a signal returns
-ERESTARTSYS. -/
theorem connect_interrupted_is_not_erestartsys :
    (rpmsg_omx_connect (fresh 1024) ⟨[], 1024, 60⟩ [111, 109, 120, 0] 0 []
        wait_end.signal 7).ret = - EIO ∧
    (rpmsg_omx_connect (fresh 1024) ⟨[], 1024, 60⟩ [111, 109, 120, 0] 0 []
        wait_end.signal 7).ret ≠ - ERESTARTSYS ∧
    (rpmsg_omx_read connected_instance false 16 true [] true).ret = some (- ERESTARTSYS) := by
  decide

/-- C24, amended: on an instance that is OMX_UNCONNECTED with no completion
pending, a connect call whose request is sent and whose wait is ended by a
signal, no connect response and no crash having occurred, returns -EIO (the
"premature wakeup" of the source), which differs from the -ETIMEDOUT of a
timeout and from the -ERESTARTSYS of an interrupted read; the instance stays
OMX_UNCONNECTED with `dst` unchanged. -/
theorem connect_interrupted (omx : rpmsg_omx_instance) (rpdev : rpmsg_channel)
    (omxname : List Nat) (during : List async_ev) (left : Nat)
    (hs : omx.state = OMX_UNCONNECTED) (h0 : omx.reply_arrived = 0)
    (hq : ∀ ev ∈ during, no_reply ev) :
    (rpmsg_omx_connect omx rpdev omxname 0 during wait_end.signal left).ret = - EIO ∧
    - EIO ≠ - ETIMEDOUT ∧ - EIO ≠ - ERESTARTSYS ∧
    (rpmsg_omx_connect omx rpdev omxname 0 during wait_end.signal left).omx.state
      = OMX_UNCONNECTED ∧
    (rpmsg_omx_connect omx rpdev omxname 0 during wait_end.signal left).omx.dst
      = omx.dst := by
  obtain ⟨omx1, calls1, e1, e2, e3, e4, e5⟩ :=
    completion_sleep_no_reply left wait_end.signal [] during omx h0 hq
  rw [List.append_nil] at e5
  refine ⟨?_, by decide, by decide, ?_, ?_⟩ <;>
    simp [rpmsg_omx_connect, hs, wait_for_completion_interruptible_timeout, h0, e5,
      completion_sleep, e1, e2, ERESTARTSYS]

theorem connect_interrupted_witness :
    (rpmsg_omx_connect (fresh 1024) ⟨[], 1024, 60⟩ [111, 109, 120, 0] 0
        [async_ev.rx (rx_msg OMX_RAW_MSG 4 [1, 2, 3, 4]) 16 true]
        wait_end.signal 0).ret = - EIO ∧
    - EIO ≠ - ETIMEDOUT ∧ - EIO ≠ - ERESTARTSYS ∧
    (rpmsg_omx_connect (fresh 1024) ⟨[], 1024, 60⟩ [111, 109, 120, 0] 0
        [async_ev.rx (rx_msg OMX_RAW_MSG 4 [1, 2, 3, 4]) 16 true]
        wait_end.signal 0).omx.state = OMX_UNCONNECTED ∧
    (rpmsg_omx_connect (fresh 1024) ⟨[], 1024, 60⟩ [111, 109, 120, 0] 0
        [async_ev.rx (rx_msg OMX_RAW_MSG 4 [1, 2, 3, 4]) 16 true]
        wait_end.signal 0).omx.dst = (fresh 1024).dst :=
  connect_interrupted (fresh 1024) ⟨[], 1024, 60⟩ [111, 109, 120, 0]
    [async_ev.rx (rx_msg OMX_RAW_MSG 4 [1, 2, 3, 4]) 16 true] 0 rfl rfl
    (by
      intro ev hev
      rw [List.mem_singleton] at hev
      subst hev
      unfold no_reply is_reply
      decide)

/-! ## a connect response that arrives late -/

/-- C25, the code at the refuting input: a connect call on a freshly opened
instance times out (-ETIMEDOUT, state OMX_UNCONNECTED, `dst` 0); the
CONNECT_RESPONSE with status 0 and address 66 that arrives afterwards, when no
connect call is in progress, moves the instance to OMX_CONNECTED and sets
`dst` to 66. -/
theorem late_reply_connects :
    (rpmsg_omx_connect (fresh 1024) ⟨[], 1024, 60⟩ [111, 109, 120, 0] 0 []
        wait_end.timeout 0).ret = - ETIMEDOUT ∧
    (rpmsg_omx_connect (fresh 1024) ⟨[], 1024, 60⟩ [111, 109, 120, 0] 0 []
        wait_end.timeout 0).omx.state = OMX_UNCONNECTED ∧
    (rpmsg_omx_connect (fresh 1024) ⟨[], 1024, 60⟩ [111, 109, 120, 0] 0 []
        wait_end.timeout 0).omx.dst = 0 ∧
    (rpmsg_omx_cb (rpmsg_omx_connect (fresh 1024) ⟨[], 1024, 60⟩ [111, 109, 120, 0] 0 []
        wait_end.timeout 0).omx acceptance 20 true).1.state = OMX_CONNECTED ∧
    (rpmsg_omx_cb (rpmsg_omx_connect (fresh 1024) ⟨[], 1024, 60⟩ [111, 109, 120, 0] 0 []
        wait_end.timeout 0).omx acceptance 20 true).1.dst = 66 := by
  decide

/-- C25, amended: the receive callback applies a well-formed CONNECT_RESPONSE to
an OMX_UNCONNECTED instance whether or not a connect call is waiting for it:
the state becomes OMX_CONNECTED when the status is 0 and OMX_FAIL otherwise,
`dst` becomes the address of the response, and the completion is signalled
(it stays pending until a connect call consumes it); the queue is
untouched. -/
theorem late_reply_is_applied (omx : rpmsg_omx_instance) (data : Nat → Nat) (len : Int)
    (alloc_ok : Bool) (status addr : Nat)
    (hs : omx.state = OMX_UNCONNECTED) (hrsp : is_conn_rsp data len status addr) :
    (rpmsg_omx_cb omx data len alloc_ok).1.state
      = (if status = 0 then OMX_CONNECTED else OMX_FAIL) ∧
    (rpmsg_omx_cb omx data len alloc_ok).1.state ≠ OMX_UNCONNECTED ∧
    (rpmsg_omx_cb omx data len alloc_ok).1.dst = addr ∧
    (rpmsg_omx_cb omx data len alloc_ok).1.reply_arrived
      = completion_complete omx.reply_arrived ∧
    (rpmsg_omx_cb omx data len alloc_ok).1.queue = omx.queue ∧
    (rpmsg_omx_cb omx data len alloc_ok).2 = [call.complete omx.ept] := by
  rw [rpmsg_omx_cb_conn_rsp omx data len alloc_ok status addr hrsp]
  by_cases h : status = 0 <;> simp [h, hs]

theorem late_reply_is_applied_witness :
    (rpmsg_omx_cb (fresh 1024) acceptance 20 true).1.state
      = (if (0 : Nat) = 0 then OMX_CONNECTED else OMX_FAIL) ∧
    (rpmsg_omx_cb (fresh 1024) acceptance 20 true).1.state ≠ OMX_UNCONNECTED ∧
    (rpmsg_omx_cb (fresh 1024) acceptance 20 true).1.dst = 66 ∧
    (rpmsg_omx_cb (fresh 1024) acceptance 20 true).1.reply_arrived
      = completion_complete (fresh 1024).reply_arrived ∧
    (rpmsg_omx_cb (fresh 1024) acceptance 20 true).1.queue = (fresh 1024).queue ∧
    (rpmsg_omx_cb (fresh 1024) acceptance 20 true).2 = [call.complete (fresh 1024).ept] :=
  late_reply_is_applied (fresh 1024) acceptance 20 true 0 66 rfl
    (by unfold is_conn_rsp; decide)

/-! ## connect requests -/

theorem deliver_no_send (omx : rpmsg_omx_instance) (ev : async_ev) :
    (deliver omx ev).2.filter is_send = [] := by
  cases ev with
  | crash => rfl
  | rx data len alloc_ok =>
    simp only [deliver, rpmsg_omx_cb]
    split_ifs <;> rfl

theorem completion_sleep_no_send (left : Nat) (fin : wait_end) (during : List async_ev) :
    ∀ omx : rpmsg_omx_instance,
      (completion_sleep left fin omx during).calls.filter is_send = [] := by
  induction during with
  | nil => intro omx; cases fin <;> rfl
  | cons ev es ih =>
    intro omx
    simp only [completion_sleep]
    by_cases h : 0 < (deliver omx ev).1.reply_arrived
    · rw [if_pos h]; exact deliver_no_send omx ev
    · rw [if_neg h]
      simp only [List.filter_append, deliver_no_send, ih, List.append_nil]

/-- C26, the code at the refuting input: a connect call on a freshly opened
instance sends a CONNECT_REQUEST and times out unanswered; a new connect call
on the same instance sends a second CONNECT_REQUEST although no
CONNECT_RESPONSE has been received in between, so two requests are
outstanding. -/
theorem second_connect_sends_second_request :
    (rpmsg_omx_connect (fresh 1024) ⟨[], 1024, 60⟩ [111, 109, 120, 0] 0 []
        wait_end.timeout 0).ret = - ETIMEDOUT ∧
    ((rpmsg_omx_connect (fresh 1024) ⟨[], 1024, 60⟩ [111, 109, 120, 0] 0 []
        wait_end.timeout 0).calls ++
      (rpmsg_omx_connect
        (rpmsg_omx_connect (fresh 1024) ⟨[], 1024, 60⟩ [111, 109, 120, 0] 0 []
          wait_end.timeout 0).omx
        ⟨[], 1024, 60⟩ [111, 109, 120, 0] 0 [] wait_end.timeout 0).calls).filter is_conn_req
      = [call.rpmsg_send_offchannel 1024 60 (connect_msg [111, 109, 120, 0]),
         call.rpmsg_send_offchannel 1024 60 (connect_msg [111, 109, 120, 0])] := by
  decide

/-- C26, amended: every connect call on an OMX_UNCONNECTED instance sends exactly one
message, the CONNECT_REQUEST from the local endpoint to the connection
service, whatever requests were sent before and whether or not they were
answered; a connect call on an OMX_CONNECTED or OMX_FAIL instance sends
nothing. -/
theorem connect_sends_one_request_when_unconnected (omx : rpmsg_omx_instance)
    (rpdev : rpmsg_channel) (omxname : List Nat) (send_ret : Int) (during : List async_ev)
    (fin : wait_end) (left : Nat) :
    (rpmsg_omx_connect omx rpdev omxname send_ret during fin left).calls.filter is_send
      = (if omx.state = OMX_UNCONNECTED then
           [call.rpmsg_send_offchannel omx.ept rpdev.dst (connect_msg omxname)]
         else []) ∧
    is_conn_req (call.rpmsg_send_offchannel omx.ept rpdev.dst (connect_msg omxname))
      = true := by
  refine ⟨?_, by simp [is_conn_req, connect_msg, put_le32, mem_of, get_le32, OMX_CONN_REQ]⟩
  unfold rpmsg_omx_connect
  by_cases hc : omx.state = OMX_CONNECTED
  · rw [if_pos hc]; simp [hc]
  · rw [if_neg hc]
    by_cases hf : omx.state = OMX_FAIL
    · rw [if_pos hf]; simp [hf]
    · rw [if_neg hf]
      have hu : omx.state = OMX_UNCONNECTED := by
        cases hst : omx.state <;> simp_all
      rw [if_pos hu]
      by_cases hr : send_ret ≠ 0
      · simp only [if_pos hr]; rfl
      · simp only [if_neg hr, List.filter_append]
        have hw : (wait_for_completion_interruptible_timeout omx during fin left).calls.filter
            is_send = [] := by
          unfold wait_for_completion_interruptible_timeout
          by_cases hp : 0 < omx.reply_arrived
          · rw [if_pos hp]; rfl
          · rw [if_neg hp]; exact completion_sleep_no_send left fin during omx
        rw [hw]; rfl

/-! ## removal of a service with open instances -/

/-- C27, the code at the failing input: an instance is opened on a bound service
and linked on its list; `rpmsg_omx_remove` with the remote processor running
(not crashed) then takes the service out of the idr whatever its list holds
and makes no call on the instances, so the open instance is neither failed
nor closed while its service is gone.  The crash path, by contrast, keeps
the service and fails every instance on the list. -/
theorem remove_drops_service_with_open_instance (l : List rpmsg_omx_instance) :
    (rpmsg_omx_open (bound_service []) false true open_wait.asleep (some 1024)).omxserv
      = bound_service [fresh 1024] ∧
    rpmsg_omx_remove [bound_service [fresh 1024]] 0 RPROC_RUNNING = ([], []) ∧
    rpmsg_omx_remove [bound_service l] 0 RPROC_RUNNING = ([], []) ∧
    (rpmsg_omx_remove [bound_service [fresh 1024]] 0 RPROC_CRASHED).1.map
        (fun s => (s.minor, s.list.map (fun o => o.state)))
      = [(0, [OMX_FAIL])] := by
  refine ⟨by decide, by decide, ?_, by decide⟩
  simp [rpmsg_omx_remove, bound_service]

/-! ## payload patching outside the payload -/

set_option maxRecDepth 100000 in
/-- C29, the code at the failing input.  A write of 28 payload bytes (map type
ONE_BUF, offset field 100) places the reference slot at bytes 132..135 of
`kbuf`, behind the 28 bytes copied from the caller (which end at byte 40):
`_rpmsg_omx_map_buf` reads the word the stack happened to hold there (4096, a valid
handle) and overwrites it with the device address.  With offset field 1000
the slot lies outside `kbuf` altogether, and with a negative offset field
before it.  A write of 0 bytes makes `_rpmsg_omx_map_buf` take the map type from
stack bytes that were never written. -/
theorem map_buf_leaves_payload :
    word (kbuf_copied stack_with_handle (short_packet 1 100) 28) 132 = 4096 ∧
    (_rpmsg_omx_map_buf one_ion connected_instance
        (kbuf_copied stack_with_handle (short_packet 1 100) 28) sizeof_hdr).map
      (fun r => (r.1, word r.2 132)) = some (0, 0xA0001000) ∧
    ¬ (132 + 4 ≤ sizeof_hdr + 28) ∧
    (rpmsg_omx_write one_ion connected_instance (short_packet 1 1000) 28
        stack_with_handle 0).isNone = true ∧
    (rpmsg_omx_write one_ion connected_instance (short_packet 1 4294967196) 28
        stack_with_handle 0).isNone = true ∧
    (rpmsg_omx_write one_ion connected_instance [] 0
        (fun i => if i = 32 then 9 else 0) 0).map (fun r => r.ret) = some (- EINVAL) := by
  decide

/-! ## probe -/

/-- Two probes on an empty idr, a crash in between: the first creates the service
"o" with minor 0, the crash path unbinds it, the second probe for the same
name rebinds the same service to the new channel and creates no second
one; a probe for another name adds a second service. -/
theorem probe_scenario :
    (rpmsg_omx_probe [] ⟨[111, 0], 1024, 60⟩ (probe_ok 0 [111])).services
      = [⟨[111], some ⟨[111, 0], 1024, 60⟩, 0, [], 2147483647⟩] ∧
    (rpmsg_omx_remove [⟨[111], some ⟨[111, 0], 1024, 60⟩, 0, [], 2147483647⟩] 0
        RPROC_CRASHED).1 = [⟨[111], none, 0, [], 0⟩] ∧
    (rpmsg_omx_probe [⟨[111], none, 0, [], 0⟩] ⟨[111, 0], 1025, 61⟩ (probe_ok 1 [111])).services
      = [⟨[111], some ⟨[111, 0], 1025, 61⟩, 0, [], 2147483647⟩] ∧
    ((rpmsg_omx_probe [⟨[111], none, 0, [], 0⟩] ⟨[112, 0], 1025, 61⟩
        (probe_ok 1 [112])).services.map (fun s => (s.name, s.minor)))
      = [([111], 0), ([112], 1)] := by
  decide

/-! ## the temperature conversion -/

theorem adc_c_is_truncation :
    adc_c.map (fun e => e.1) =
      [Int.tdiv (5554894978 * 1000 * 2 ^ 0) 100000000,
       Int.tdiv (-8099170543 * 1000 * 2 ^ 3) 100000000000,
       Int.tdiv (-1440793512 * 1000 * 2 ^ 14) 100000000000000,
       Int.tdiv (-3400326093 * 1000 * 2 ^ 25) 100000000000000000,
       Int.tdiv (4956437005 * 1000 * 2 ^ 36) 10000000000000000000,
       Int.tdiv (-7891731528 * 1000 * 2 ^ 47) 10000000000000000000000] := by
  decide

theorem adc_to_temp_conversion_values :
    adc_to_temp_conversion 0 = 190488 ∧ adc_to_temp_conversion 555 = 55548 ∧
    adc_to_temp_conversion 1535 = -325485 ∧ adc_to_temp_conversion (-7) = 190488 ∧
    adc_to_temp_conversion 4000 = adc_to_temp_conversion 1536 := by
  decide

theorem scaled_reference_eq (adc_val : Int) :
    (scaled_reference adc_val : ℚ)
      = 1000 * d_adc_to_temp_conversion adc_val * 10000000000000000000000 := by
  simp only [scaled_reference, d_adc_to_temp_conversion]
  push_cast
  norm_num
  ring

theorem residual_ok_all : ∀ j < 1536, residual_ok j = true := by
  decide!

/-- C28: for every ADC value j with 0 <= j < 1536, the result of
`adc_to_temp_conversion(j)`, computed in 32-bit integer arithmetic, differs from 1000
times the fitted polynomial of the residual test, evaluated exactly over the
rationals at x = j - 555, by at most 400. -/
theorem adc_to_temp_conversion_residual (j : Int) (h0 : 0 ≤ j) (h1 : j < 1536) :
    |(adc_to_temp_conversion j : ℚ) - 1000 * d_adc_to_temp_conversion j| ≤ 400 := by
  have hj : ((j.toNat : Nat) : Int) = j := Int.toNat_of_nonneg h0
  have hok := residual_ok_all j.toNat (by omega)
  rw [residual_ok, hj, decide_eq_true_eq] at hok
  obtain ⟨hlo, hhi⟩ := hok
  have hlo' : ((-4000000000000000000000000 : Int) : ℚ)
      ≤ ((adc_to_temp_conversion j * 10000000000000000000000 - scaled_reference j : Int) : ℚ) :=
    Int.cast_le.mpr hlo
  have hhi' : ((adc_to_temp_conversion j * 10000000000000000000000 - scaled_reference j : Int)
      : ℚ) ≤ ((4000000000000000000000000 : Int) : ℚ) :=
    Int.cast_le.mpr hhi
  push_cast at hlo' hhi'
  rw [scaled_reference_eq] at hlo' hhi'
  rw [abs_le]
  constructor <;> linarith

theorem adc_to_temp_conversion_residual_witness :
    |(adc_to_temp_conversion 1530 : ℚ) - 1000 * d_adc_to_temp_conversion 1530| ≤ 400 :=
  adc_to_temp_conversion_residual 1530 (by decide) (by decide)

/-! ## the brightness scale -/

theorem int32_eq (x : Int) (h : -2147483648 ≤ x ∧ x < 2147483648) : int32 x = x := by
  unfold int32
  omega

theorem s32_u32 (x : Int) (h : 0 ≤ x ∧ x < 2147483648) : s32 (u32 x) = x := by
  unfold s32 u32
  have h1 : x % 4294967296 = x := by omega
  rw [h1]
  have h2 : ((x.toNat : Nat) : Int) = x := Int.toNat_of_nonneg h.1
  have h3 : x.toNat % 4294967296 = x.toNat := by omega
  rw [h3]
  rw [if_pos (by omega)]
  exact h2

theorem range_expand_eq (v : Int) (h0 : 0 ≤ v) (h1 : v * 16 < 2147483648) :
    range_expand v = (if v ≤ 223 then v * 293 / 256 else v * 16 - 3315) := by
  unfold range_expand
  by_cases h : v ≤ 223
  · rw [if_pos h, if_pos h, int32_eq _ (by omega), Int.shiftRight_eq_div_pow]
    norm_num
  · rw [if_neg h, if_neg h, int32_eq (v * 16) (by omega), int32_eq _ (by omega)]
    norm_num

theorem range_reduce_expand (v : Int) (h0 : 0 ≤ v) (h1 : v * 16 < 2147483648) :
    range_reduce (range_expand v) = v := by
  rw [range_expand_eq v h0 h1]
  unfold range_reduce
  by_cases h : v ≤ 223
  · rw [if_pos h, if_pos (by omega), int32_eq (v * 293 / 256 * 256) (by omega),
      int32_eq _ (by omega), Int.tdiv_eq_ediv (by omega) (by decide)]
    omega
  · rw [if_neg h, if_neg (by omega), int32_eq _ (by omega), Int.shiftRight_eq_div_pow]
    norm_num

theorem range_expand_bounds (v : Int) (h0 : 0 ≤ v) (h1 : v * 16 < 2147483648) :
    0 ≤ range_expand v ∧ range_expand v < 2147483648 := by
  rw [range_expand_eq v h0 h1]
  by_cases h : v ≤ 223
  · rw [if_pos h]; omega
  · rw [if_neg h]; omega

/-- C30: for every v with 0 <= v whose expansion does not overflow a 32-bit `int`
(v * 16 < 2^31, which includes 0 <= v <= 255), `range_reduce(range_expand(v)) = v`.
Hence after `brightness_store` (or `brightness_limit_store`) has parsed the number v, the
matching show function prints v, and the store returns `size` when the board
version is supported; a store whose input does not parse or is negative
leaves `led_config` as it was. -/
theorem brightness_round_trip (v : Int) (h0 : 0 ≤ v) (h1 : v * 16 < 2147483648) :
    range_reduce (range_expand v) = v ∧
    (∀ (led : led_config) (supported : Bool) (size : Nat),
      brightness_show (brightness_store led (0, v) supported size).2 = v ∧
      brightness_limit_show (brightness_limit_store led (0, v) supported size).2 = v ∧
      (supported = true →
        (brightness_store led (0, v) supported size).1 = size ∧
        (brightness_limit_store led (0, v) supported size).1 = size)) ∧
    (∀ (led : led_config) (r value : Int) (supported : Bool) (size : Nat),
      r ≠ 0 ∨ value < 0 →
        (brightness_store led (r, value) supported size).2 = led ∧
        (brightness_limit_store led (r, value) supported size).2 = led) := by
  have hrt := range_reduce_expand v h0 h1
  have hb := range_expand_bounds v h0 h1
  have hv : ¬ v < 0 := by omega
  refine ⟨hrt, ?_, ?_⟩
  · intro led supported size
    cases supported <;>
      simp [brightness_show, brightness_store, brightness_limit_show, brightness_limit_store,
        hv, s32_u32 _ hb, hrt]
  · intro led r value supported size h
    by_cases hr : r ≠ 0
    · simp [brightness_store, brightness_limit_store, hr]
    · have hneg : value < 0 := by
        rcases h with h | h
        · exact absurd h hr
        · exact h
      simp [brightness_store, brightness_limit_store, hr, hneg]

theorem brightness_round_trip_witness :
    range_reduce (range_expand 224) = 224 ∧
    (∀ (led : led_config) (supported : Bool) (size : Nat),
      brightness_show (brightness_store led (0, 224) supported size).2 = 224 ∧
      brightness_limit_show (brightness_limit_store led (0, 224) supported size).2 = 224 ∧
      (supported = true →
        (brightness_store led (0, 224) supported size).1 = size ∧
        (brightness_limit_store led (0, 224) supported size).1 = size)) ∧
    (∀ (led : led_config) (r value : Int) (supported : Bool) (size : Nat),
      r ≠ 0 ∨ value < 0 →
        (brightness_store led (r, value) supported size).2 = led ∧
        (brightness_limit_store led (r, value) supported size).2 = led) :=
  brightness_round_trip 224 (by decide) (by decide)

theorem range_values :
    range_expand 0 = 0 ∧ range_expand 223 = 255 ∧ range_expand 224 = 269 ∧
    range_expand 255 = 765 ∧ range_reduce 255 = 223 ∧ range_reduce 269 = 224 ∧
    range_reduce 765 = 255 := by
  decide

end RpmsgOmx
